import Mathlib

/-!
Provisioning engine of `libmachine/provision`

A shallow embedding of `buildroot.go`, `suse.go` and `engine_config_context.go`.

Conventions of the embedding.

* A Go `string` is a Lean `String`.  The only byte-level operation of the sources is the
  replacer for `%`; `%` is ASCII and its byte never occurs inside a multi-byte UTF-8 sequence,
  so replacing it character by character is replacing it byte by byte.
* A Go `[]string` is a `List String`.
* A Go `error` is represented by its message; `nil` is `none`.
* The remote machine and every other external collaborator is an explicit state `W` that is
  threaded through the calls: `f : W → result × W`.
-/

set_option autoImplicit false

/-! ## Data model -/

/-- Go `error` values, represented by their message. -/
abbrev Error := String

namespace engine

/-- Modelled from the spec: the declaration of `engine.Options` is not part of the sources.
The fields are the ones the provisioners read or write (`Env`, `Labels`, `InsecureRegistry`,
`RegistryMirror`, `ArbitraryFlags`, `StorageDriver`), which are also the ones the spec lists. -/
structure Options where
  ArbitraryFlags : List String
  Env : List String
  InsecureRegistry : List String
  Labels : List String
  StorageDriver : String
  RegistryMirror : List String
deriving DecidableEq, Repr

end engine

namespace auth

/-- Modelled from the spec: the declaration of `auth.Options` is not part of the sources.
The spec lists the paths of the CA certificate, the server certificate and the server key,
local and remote; the provisioners read the three remote ones. -/
structure Options where
  CaCertPath : String
  ServerCertPath : String
  ServerKeyPath : String
  CaCertRemotePath : String
  ServerCertRemotePath : String
  ServerKeyRemotePath : String
deriving DecidableEq, Repr

end auth

namespace swarm

/-- Modelled from the spec: the declaration of `swarm.Options` is not part of the sources.
`Env` is the only field the provisioners touch; `Cluster` stands for the remaining
cluster-join configuration, which they never read. -/
structure Options where
  Env : List String
  Cluster : String
deriving DecidableEq, Repr

end swarm

/-- The rendering context of `engine_config_context.go`. -/
structure EngineConfigContext where
  DockerPort : Int
  AuthOptions : auth.Options
  EngineOptions : engine.Options
  DockerOptionsDir : String
deriving DecidableEq, Repr

/-! ## `strings.Replacer` and the escaping helpers of `buildroot.go` -/

/-- A `strings.Replacer` whose old strings are single characters: the table of replacements,
in argument order. -/
structure Replacer where
  oldnew : List (Char × String)

/-- The `strings.NewReplacer(old, new)` of a single pair with a one-character `old`. -/
def NewReplacer (old : Char) (new : String) : Replacer :=
  ⟨[(old, new)]⟩

/-- The method `Replace`: the input is scanned once, left to right; a character that has a
replacement appends the replacement to the buffer, any other character appends itself. -/
def Replacer.Replace (r : Replacer) (s : String) : String :=
  String.mk (s.data.foldl
    (fun buf c =>
      match r.oldnew.lookup c with
      | some new => buf ++ new.data
      | none => buf ++ [c])
    [])

/-- The replacer `strings.NewReplacer("%", "%%")`. -/
def systemdSpecifierEscaper : Replacer :=
  NewReplacer '%' "%%"

/-- The function `replaceChars`: `ret` is allocated with the length of `src` and `ret[i]` is
assigned in the loop over `src`. -/
def replaceChars (src : List String) (replacer : Replacer) : List String :=
  (List.enumFrom 0 src).foldl
    (fun ret is => ret.set is.1 (replacer.Replace is.2))
    (List.replicate src.length "")

/-- The function `concatStrings`: for every entry the buffer receives the prefix, the entry
and the postfix; its content is stored in `ret[i]` and the buffer is reset. -/
def concatStrings (src : List String) (pre : String) (post : String) : List String :=
  ((List.enumFrom 0 src).foldl
    (fun (st : String × List String) is =>
      let buf := st.1 ++ pre
      let buf := buf ++ is.2
      let buf := buf ++ post
      ("", st.2.set is.1 buf))
    ("", List.replicate src.length "")).2

/-- The function `escapeSystemdDirectives`; the context is passed by pointer, the updated
context is returned. -/
def escapeSystemdDirectives (engineConfigContext : EngineConfigContext) :
    EngineConfigContext :=
  let c1 : EngineConfigContext :=
    { engineConfigContext with
      EngineOptions :=
        { engineConfigContext.EngineOptions with
          Env := replaceChars engineConfigContext.EngineOptions.Env systemdSpecifierEscaper } }
  { c1 with
    EngineOptions :=
      { c1.EngineOptions with Env := concatStrings c1.EngineOptions.Env "\"" "\"" } }

/-- The spec's escaping of one environment entry: every `%` character is doubled. -/
def doublePercent (s : String) : String :=
  String.mk (s.data.flatMap (fun c => if c = '%' then ['%', '%'] else [c]))

/-! ## The command channel and the external collaborators -/

/-- The `SSHCommander` interface: `SSHCommand(args) (string, error)` runs one command on the
remote machine; the state `W` of the world is threaded through. -/
abbrev SSHCommander (W : Type) := String → W → (String × Option Error) × W

/-- Modelled from the spec: the declaration of `OsRelease` is not part of the sources; the spec
lists its fields. -/
structure OsRelease where
  ID : String
  IDLike : String
  PrettyName : String
  Version : String
  VersionID : String
deriving DecidableEq, Repr

/-- Modelled from the spec: the `drivers.Driver` interface is not part of the sources.  The
record holds what `DriverName()` and `GetMachineName()` return; `GetIP()` talks to the outside
and is the collaborator `GetIP` below. -/
structure Driver where
  DriverName : String
  MachineName : String
deriving DecidableEq, Repr

/-- Modelled from the spec: the declarations of `SystemdProvisioner` and of the generic
provisioner it embeds are not part of the sources.  The spec lists the shared state of a
provisioner: the driver, the cached OS release, the three option bundles and the package list;
the command channel is the collaborator `SSHCommand` below. -/
structure SystemdProvisioner where
  Driver : Driver
  OsReleaseInfo : OsRelease
  Packages : List String
  AuthOptions : auth.Options
  EngineOptions : engine.Options
  SwarmOptions : swarm.Options
deriving DecidableEq, Repr

/-- The type `BuildRootProvisioner` of `buildroot.go`. -/
structure BuildRootProvisioner extends SystemdProvisioner where
  clusterName : String
deriving DecidableEq, Repr

/-- The type `SUSEProvisioner` of `suse.go`. -/
structure SUSEProvisioner extends SystemdProvisioner where
deriving DecidableEq, Repr

namespace pkgaction

/-- Modelled from the spec: the package `pkgaction` is not part of the sources; the spec gives
the three actions. -/
inductive PackageAction where
  | Install
  | Remove
  | Upgrade
deriving DecidableEq, Repr

end pkgaction

namespace serviceaction

/-- Modelled from the spec: the package `serviceaction` is not part of the sources; these are
the two actions `suse.go` passes to `Service`. -/
inductive ServiceAction where
  | Start
  | Enable
deriving DecidableEq, Repr

end serviceaction

/-- Modelled from the spec: the functions and methods the two provisioners call and the sources
do not contain, each taken as a parameter.  A collaborator that receives the provisioner gets
its shared state as a value; following the contracts of the spec (sections 4.2 and 6) it acts
on the world, and `ConfigureAuth` in addition finalises the provisioner's auth options.

* `SSHCommand`: the command channel (`drivers.RunSSHCommandFromDriver` for buildroot, the
  embedded `SSHCommander` for SUSE);
* `Dir`: `path.Dir` of the Go library;
* `SetHostname`, `Service`: methods of the embedded provisioner;
* `makeDockerOptionsDir`, `setRemoteAuthOptions`, `ConfigureAuth`, `configureSwarm`,
  `decideStorageDriver`: functions of the package;
* `maxAttempts`, `waitTimeout`: the attempt bound of `mcnutils.WaitFor` and its timeout error;
* `GetIP`, `DialTimeout`: the driver's `GetIP()` and `net.DialTimeout` followed by `Close`;
* `DefaultPort`: the constant `engine.DefaultPort`. -/
structure Collaborators (W : Type) where
  SSHCommand : SSHCommander W
  Dir : String → String
  SetHostname : SystemdProvisioner → String → W → Option Error × W
  Service : SystemdProvisioner → String → serviceaction.ServiceAction → W → Option Error × W
  makeDockerOptionsDir : SystemdProvisioner → W → Option Error × W
  setRemoteAuthOptions : SystemdProvisioner → auth.Options
  ConfigureAuth : SystemdProvisioner → W → (Option Error × auth.Options) × W
  configureSwarm : SystemdProvisioner → swarm.Options → auth.Options → W → Option Error × W
  decideStorageDriver : SystemdProvisioner → String → String → W → (String × Option Error) × W
  maxAttempts : Nat
  waitTimeout : Error
  GetIP : W → (String × Option Error) × W
  DialTimeout : String → W → Option Error × W
  DefaultPort : Int

/-- Modelled from the spec: `mcnutils.WaitFor` is not part of the sources.  Section 4.5: the
probe is invoked until it returns true, which is success; after a bounded number of attempts
without success the result is the timeout error.  The pause between two attempts is real time
and is not modelled. -/
def WaitFor {W : Type} (waitTimeout : Error) (probe : W → Bool × W) : Nat → W → Option Error × W
  | 0, w => (some waitTimeout, w)
  | n + 1, w =>
    match probe w with
    | (true, w1) => (none, w1)
    | (false, w1) => WaitFor waitTimeout probe n w1

/-! ## `updateUnit` -/

/-- The first command of `updateUnit`:
`Sprintf("sudo mkdir -p %s && printf %%s \"%s\" | sudo tee %s.new", path.Dir(dst), content, dst)`. -/
def writeNewCommand (dir content dst : String) : String :=
  "sudo mkdir -p " ++ dir ++ " && printf %s \"" ++ content ++ "\" | sudo tee " ++ dst ++ ".new"

/-- The second command of `updateUnit`: `Sprintf` of the diff-or-replace script with
`dst, dst, dst, dst, name, name`. -/
def diffOrReplaceCommand (dst name : String) : String :=
  "sudo diff -u " ++ dst ++ " " ++ dst ++ ".new || \x7b sudo mv " ++ dst ++ ".new " ++ dst
    ++ "; sudo systemctl -f daemon-reload && sudo systemctl -f enable " ++ name
    ++ " && sudo systemctl -f restart " ++ name ++ "; \x7d"

/-- The function `updateUnit`; `Dir` is `path.Dir`.  The log line has no effect on the state. -/
def updateUnit {W : Type} (Dir : String → String) (p : SSHCommander W)
    (name : String) (content : String) (dst : String) (w : W) : Option Error × W :=
  match p (writeNewCommand (Dir dst) content dst) w with
  | ((_, some err), w1) => (some err, w1)
  | ((_, none), w1) =>
    match p (diffOrReplaceCommand dst name) w1 with
    | ((_, some err), w2) => (some err, w2)
    | ((_, none), w2) => (none, w2)

/-! ## The unit template of `BuildRootProvisioner.GenerateDockerOptions` -/

/-- A node of the parsed template: literal text, a field of the context, or
`{{range list}}pre{{.}}post{{end}}`, the only shape of loop the template has. -/
inductive TemplateNode where
  | text (s : String)
  | field (f : EngineConfigContext → String)
  | range (list : EngineConfigContext → List String) (pre post : String)

/-- Execution of one node: `text/template` writes text and strings as they are. -/
def TemplateNode.execute (ctx : EngineConfigContext) : TemplateNode → String
  | .text s => s
  | .field f => f ctx
  | .range list pre post => String.join ((list ctx).map (fun x => pre ++ x ++ post))

/-- The method `Execute` of a template: the outputs of its nodes, in order. -/
def executeTemplate (t : List TemplateNode) (ctx : EngineConfigContext) : String :=
  String.join (t.map (TemplateNode.execute ctx))

/-- The text of `engineConfigTmpl` up to the loop over `.EngineOptions.Env`. -/
def engineConfigTmplHead : String :=
  "[Unit]\n"
  ++ "Description=Docker Application Container Engine\n"
  ++ "Documentation=https://docs.docker.com\n"
  ++ "After=network.target  minikube-automount.service docker.socket\n"
  ++ "Requires= minikube-automount.service docker.socket \n"
  ++ "StartLimitBurst=3\n"
  ++ "StartLimitIntervalSec=60\n"
  ++ "\n"
  ++ "[Service]\n"
  ++ "Type=notify\n"
  ++ "Restart=on-failure\n"

/-- The text of `engineConfigTmpl` between the loop over `.EngineOptions.Env` and the first
field of the daemon command line. -/
def engineConfigTmplExec : String :=
  "\n"
  ++ "\n"
  ++ "# This file is a systemd drop-in unit that inherits from the base dockerd configuration.\n"
  ++ "# The base configuration already specifies an \x27ExecStart=...\x27 command. The first directive\n"
  ++ "# here is to clear out that command inherited from the base configuration. Without this,\n"
  ++ "# the command from the base configuration and the command specified here are treated as\n"
  ++ "# a sequence of commands, which is not the desired behavior, nor is it valid -- systemd\n"
  ++ "# will catch this invalid input and refuse to start the service with an error like:\n"
  ++ "#  Service has more than one ExecStart= setting, which is only allowed for Type=oneshot services.\n"
  ++ "\n"
  ++ "# NOTE: default-ulimit=nofile is set to an arbitrary number for consistency with other\n"
  ++ "# container runtimes. If left unlimited, it may result in OOM issues with MySQL.\n"
  ++ "ExecStart=\n"
  ++ "ExecStart=/usr/bin/dockerd -H tcp://0.0.0.0:2376 -H unix:///var/run/docker.sock --default-ulimit=nofile=1048576:1048576 --tlsverify --tlscacert "

/-- The text of `engineConfigTmpl` after the daemon command line. -/
def engineConfigTmplTail : String :=
  "\n"
  ++ "ExecReload=/bin/kill -s HUP \\$MAINPID\n"
  ++ "\n"
  ++ "# Having non-zero Limit*s causes performance problems due to accounting overhead\n"
  ++ "# in the kernel. We recommend using cgroups to do container-local accounting.\n"
  ++ "LimitNOFILE=infinity\n"
  ++ "LimitNPROC=infinity\n"
  ++ "LimitCORE=infinity\n"
  ++ "\n"
  ++ "# Uncomment TasksMax if your systemd version supports it.\n"
  ++ "# Only systemd 226 and above support this version.\n"
  ++ "TasksMax=infinity\n"
  ++ "TimeoutStartSec=0\n"
  ++ "\n"
  ++ "# set delegate yes so that systemd does not reset the cgroups of docker containers\n"
  ++ "Delegate=yes\n"
  ++ "\n"
  ++ "# kill only the docker process, not all processes in the cgroup\n"
  ++ "KillMode=process\n"
  ++ "\n"
  ++ "[Install]\n"
  ++ "WantedBy=multi-user.target\n"

/-- The template `engineConfigTmpl`, parsed: its text and actions in order. -/
def engineConfigTmpl : List TemplateNode :=
  [ .text engineConfigTmplHead,
    .range (fun c => c.EngineOptions.Env) "Environment=" "\n",
    .text engineConfigTmplExec,
    .field (fun c => c.AuthOptions.CaCertRemotePath),
    .text " --tlscert ",
    .field (fun c => c.AuthOptions.ServerCertRemotePath),
    .text " --tlskey ",
    .field (fun c => c.AuthOptions.ServerKeyRemotePath),
    .text " ",
    .range (fun c => c.EngineOptions.Labels) "--label " " ",
    .range (fun c => c.EngineOptions.InsecureRegistry) "--insecure-registry " " ",
    .range (fun c => c.EngineOptions.RegistryMirror) "--registry-mirror " " ",
    .range (fun c => c.EngineOptions.ArbitraryFlags) "--" " ",
    .text engineConfigTmplTail ]

/-- The type `DockerOptions`: the rendered unit and its path on the remote machine. -/
structure DockerOptions where
  EngineOptions : String
  EngineOptionsPath : String
deriving DecidableEq, Repr

/-! ## `BuildRootProvisioner` -/

/-- The method `GenerateDockerOptions`.  The template is a constant of the source and parses,
so the error return of `Parse` is not taken; the error of `Execute` is dropped by the source.
The result is the returned pair, the provisioner (whose labels the method extends) and the
world. -/
def BuildRootProvisioner.GenerateDockerOptions {W : Type} (c : Collaborators W)
    (p : BuildRootProvisioner) (dockerPort : Int) (w : W) :
    (DockerOptions × Option Error) × BuildRootProvisioner × W :=
  let driverNameLabel := "provider=" ++ p.Driver.DriverName
  let p1 : BuildRootProvisioner :=
    { p with EngineOptions :=
        { p.EngineOptions with Labels := p.EngineOptions.Labels ++ [driverNameLabel] } }
  let engineConfigContext : EngineConfigContext :=
    { DockerPort := dockerPort
      AuthOptions := p1.AuthOptions
      EngineOptions := p1.EngineOptions
      DockerOptionsDir := "" }
  let engineConfigContext := escapeSystemdDirectives engineConfigContext
  let engineCfg := executeTemplate engineConfigTmpl engineConfigContext
  let dockerOptions : DockerOptions :=
    { EngineOptions := engineCfg
      EngineOptionsPath := "/lib/systemd/system/docker.service" }
  let r := updateUnit c.Dir c.SSHCommand "docker" dockerOptions.EngineOptions
    dockerOptions.EngineOptionsPath w
  ((dockerOptions, r.1), p1, r.2)

/-- The method `CompatibleWithHost` of the buildroot provisioner. -/
def BuildRootProvisioner.CompatibleWithHost (p : BuildRootProvisioner) : Bool :=
  p.OsReleaseInfo.ID == "buildroot"

/-- The method `AttemptIPContact`; the warnings it logs have no effect on the state. -/
def BuildRootProvisioner.AttemptIPContact {W : Type} (c : Collaborators W)
    (_p : BuildRootProvisioner) (dockerPort : Int) (w : W) : W :=
  match c.GetIP w with
  | ((_, some _), w1) => w1
  | ((ip, none), w1) => (c.DialTimeout (ip ++ ":" ++ toString dockerPort) w1).2

/-- The statement `if p.EngineOptions.StorageDriver == "" { ... = "overlay2" }` of
`Provision`. -/
def BuildRootProvisioner.defaultStorageDriver (p : BuildRootProvisioner) :
    BuildRootProvisioner :=
  if p.EngineOptions.StorageDriver = "" then
    { p with EngineOptions := { p.EngineOptions with StorageDriver := "overlay2" } }
  else p

/-- The body of the method `Provision` of the buildroot provisioner, without the deferred
call. -/
def BuildRootProvisioner.provisionBody {W : Type} (c : Collaborators W)
    (p : BuildRootProvisioner) (swarmOptions : swarm.Options) (authOptions : auth.Options)
    (engineOptions : engine.Options) (w : W) : Option Error × BuildRootProvisioner × W :=
  let p1 : BuildRootProvisioner :=
    { p with SwarmOptions := swarmOptions, AuthOptions := authOptions,
             EngineOptions := engineOptions }
  let swarmOptions : swarm.Options := { swarmOptions with Env := engineOptions.Env }
  let p2 : BuildRootProvisioner := BuildRootProvisioner.defaultStorageDriver p1
  match c.SetHostname p2.toSystemdProvisioner p2.Driver.MachineName w with
  | (some err, w1) => (some err, p2, w1)
  | (none, w1) =>
    match c.makeDockerOptionsDir p2.toSystemdProvisioner w1 with
    | (some err, w2) => (some err, p2, w2)
    | (none, w2) =>
      let p3 : BuildRootProvisioner :=
        { p2 with AuthOptions := c.setRemoteAuthOptions p2.toSystemdProvisioner }
      match c.ConfigureAuth p3.toSystemdProvisioner w2 with
      | ((some err, ao), w3) => (some err, { p3 with AuthOptions := ao }, w3)
      | ((none, ao), w3) =>
        let p4 : BuildRootProvisioner := { p3 with AuthOptions := ao }
        match c.configureSwarm p4.toSystemdProvisioner swarmOptions p4.AuthOptions w3 with
        | (err, w4) => (err, p4, w4)

/-- The method `Provision` of the buildroot provisioner: the body, then the deferred function,
which calls `AttemptIPContact` when the error is nil. -/
def BuildRootProvisioner.Provision {W : Type} (c : Collaborators W)
    (p : BuildRootProvisioner) (swarmOptions : swarm.Options) (authOptions : auth.Options)
    (engineOptions : engine.Options) (w : W) : Option Error × BuildRootProvisioner × W :=
  match BuildRootProvisioner.provisionBody c p swarmOptions authOptions engineOptions w with
  | (none, p1, w1) => (none, p1, BuildRootProvisioner.AttemptIPContact c p1 c.DefaultPort w1)
  | (some err, p1, w1) => (some err, p1, w1)

/-! ## `SUSEProvisioner` -/

/-- The call `strings.Split(s, " ")`: the pieces of `s` between the single spaces. -/
def splitSpaces (s : String) : List String :=
  (s.data.splitOn ' ').map String.mk

/-- The call `strings.Contains(s, substr)`. -/
def stringsContains (s substr : String) : Bool :=
  decide (substr.data <:+: s.data)

/-- The call `strings.HasPrefix(s, prefix)`. -/
def stringsHasPrefix (s pre : String) : Bool :=
  decide (pre.data <+: s.data)

/-- The call `strings.ToLower(s)`, on the letters `A` to `Z`.  No other character is mapped to
a letter of `opensuse` by Go, so the test of `Provision` below does not see the difference. -/
def stringsToLower (s : String) : String :=
  String.mk (s.data.map Char.toLower)

/-- The method `CompatibleWithHost` of the SUSE provisioner: the loop over the pieces of
`IDLike` returns true at the first piece equal to `suse`, and false after the loop. -/
def SUSEProvisioner.CompatibleWithHost (provisioner : SUSEProvisioner) : Bool :=
  let ids := splitSpaces provisioner.OsReleaseInfo.IDLike
  ids.any (fun id => id == "suse")

/-- The code of the method `Package` after the switch, with the `packageAction` the switch has
chosen. -/
def SUSEProvisioner.zypper {W : Type} (c : Collaborators W) (name : String)
    (packageAction : String) (w : W) : Option Error × W :=
  let command := "sudo -E zypper -n " ++ packageAction ++ " " ++ name
  match c.SSHCommand command w with
  | ((_, some err), w1) => (some err, w1)
  | ((_, none), w1) => (none, w1)

/-- The method `Package` of the SUSE provisioner: the switch on the action, with the probe
and the early return of `Install`, then the code after the switch. -/
def SUSEProvisioner.Package {W : Type} (c : Collaborators W) (name : String)
    (action : pkgaction.PackageAction) (w : W) : Option Error × W :=
  match action with
  | .Install =>
    match c.SSHCommand ("rpm -q " ++ name) w with
    | ((_, none), w1) => (none, w1)
    | ((_, some _), w1) => SUSEProvisioner.zypper c name "in" w1
  | .Remove => SUSEProvisioner.zypper c name "rm" w
  | .Upgrade => SUSEProvisioner.zypper c name "up" w

/-- The method `dockerDaemonResponding`. -/
def SUSEProvisioner.dockerDaemonResponding {W : Type} (c : Collaborators W) (w : W) :
    Bool × W :=
  match c.SSHCommand "sudo docker version" w with
  | ((_, some _), w1) => (false, w1)
  | ((_, none), w1) => (true, w1)

/-- The loop of `Provision` over `provisioner.Packages`: every package is installed, the first
error is returned. -/
def SUSEProvisioner.installPackages {W : Type} (c : Collaborators W) :
    List String → W → Option Error × W
  | [], w => (none, w)
  | pkg :: pkgs, w =>
    match SUSEProvisioner.Package c pkg .Install w with
    | (some err, w1) => (some err, w1)
    | (none, w1) => SUSEProvisioner.installPackages c pkgs w1

/-- The graph driver `Provision` derives from the filesystem: `overlay`, or `btrfs` when the
name of the filesystem contains `btrfs`. -/
def SUSEProvisioner.graphDriver (fs : String) : String :=
  if stringsContains fs "btrfs" then "btrfs" else "overlay"

/-- The command that enables the containers module on a SLE machine. -/
def suseConnectCommand : String :=
  "sudo -E SUSEConnect -p sle-module-containers/12/$(uname -m) -r \x27\x27"

/-- The error `Provision` builds with `fmt.Errorf` when `SUSEConnect` fails; `%v` prints the
message of `err`. -/
def suseConnectError (err : Error) : Error :=
  "Error while adding the \x27containers\x27 module, make sure this machine is registered either against SUSE Customer Center (SCC) or to a local Subscription Management Tool (SMT): "
    ++ err

/-- The block of `Provision` that asks for the filesystem of `/var/lib/docker` and, when that
fails, of `/var/lib/`. -/
def SUSEProvisioner.statFilesystem {W : Type} (c : Collaborators W) (w : W) :
    (String × Option Error) × W :=
  match c.SSHCommand "stat -f -c %T /var/lib/docker" w with
  | ((_, some _), w1) => c.SSHCommand "stat -f -c %T /var/lib/" w1
  | ((fs, none), w1) => ((fs, none), w1)

/-- The block of `Provision` that opens the port of the daemon when `yast2-firewall` is
installed. -/
def SUSEProvisioner.openFirewall {W : Type} (c : Collaborators W) (w : W) : Option Error × W :=
  match c.SSHCommand "rpm -q yast2-firewall" w with
  | ((_, none), w1) =>
    match c.SSHCommand
        "sudo -E /sbin/yast2 firewall services add ipprotocol=tcp tcpport=2376 zone=EXT"
        w1 with
    | ((_, some err), w2) => (some err, w2)
    | ((_, none), w2) => (none, w2)
  | ((_, some _), w1) => (none, w1)

/-- The part of `Provision` of the SUSE provisioner from the installation of the base packages
on. -/
def SUSEProvisioner.provisionInstall {W : Type} (c : Collaborators W)
    (p : SUSEProvisioner) (swarmOptions : swarm.Options) (w : W) :
    Option Error × SUSEProvisioner × W :=
  match SUSEProvisioner.installPackages c p.Packages w with
  | (some err, w1) => (some err, p, w1)
  | (none, w1) =>
  match SUSEProvisioner.Package c "docker" .Install w1 with
  | (some err, w2) => (some err, p, w2)
  | (none, w2) =>
  match c.SSHCommand "yes no | sudo -E ln -si /usr/sbin/runc /usr/sbin/docker-runc" w2 with
  | ((_, some err), w3) => (some err, p, w3)
  | ((_, none), w3) =>
  match c.SSHCommand "sudo -E ln -sf /usr/sbin/containerd /usr/sbin/docker-containerd" w3 with
  | ((_, some err), w4) => (some err, p, w4)
  | ((_, none), w4) =>
  match c.SSHCommand
      "sudo -E ln -sf /usr/sbin/containerd-shim /usr/sbin/docker-containerd-shim" w4 with
  | ((_, some err), w5) => (some err, p, w5)
  | ((_, none), w5) =>
  match SUSEProvisioner.openFirewall c w5 with
  | (some err, w7) => (some err, p, w7)
  | (none, w7) =>
  match c.Service p.toSystemdProvisioner "docker" .Start w7 with
  | (some err, w8) => (some err, p, w8)
  | (none, w8) =>
  match WaitFor c.waitTimeout (SUSEProvisioner.dockerDaemonResponding c) c.maxAttempts w8 with
  | (some err, w9) => (some err, p, w9)
  | (none, w9) =>
  let p1 : SUSEProvisioner :=
    { p with AuthOptions := c.setRemoteAuthOptions p.toSystemdProvisioner }
  match c.ConfigureAuth p1.toSystemdProvisioner w9 with
  | ((some err, ao), w10) => (some err, { p1 with AuthOptions := ao }, w10)
  | ((none, ao), w10) =>
  let p2 : SUSEProvisioner := { p1 with AuthOptions := ao }
  match c.configureSwarm p2.toSystemdProvisioner swarmOptions p2.AuthOptions w10 with
  | (some err, w11) => (some err, p2, w11)
  | (none, w11) =>
  match c.Service p2.toSystemdProvisioner "docker" .Enable w11 with
  | (err, w12) => (err, p2, w12)

/-- The method `Provision` of the SUSE provisioner. -/
def SUSEProvisioner.Provision {W : Type} (c : Collaborators W)
    (p : SUSEProvisioner) (swarmOptions : swarm.Options) (authOptions : auth.Options)
    (engineOptions : engine.Options) (w : W) : Option Error × SUSEProvisioner × W :=
  let p1 : SUSEProvisioner :=
    { p with SwarmOptions := swarmOptions, AuthOptions := authOptions,
             EngineOptions := engineOptions }
  let swarmOptions : swarm.Options := { swarmOptions with Env := engineOptions.Env }
  match SUSEProvisioner.statFilesystem c w with
  | ((_, some err), w2) => (some err, p1, w2)
  | ((fs, none), w2) =>
  let graphDriver := SUSEProvisioner.graphDriver fs
  match c.decideStorageDriver p1.toSystemdProvisioner graphDriver
      engineOptions.StorageDriver w2 with
  | ((_, some err), w3) => (some err, p1, w3)
  | ((storageDriver, none), w3) =>
  let p2 : SUSEProvisioner :=
    { p1 with EngineOptions := { p1.EngineOptions with StorageDriver := storageDriver } }
  match c.SetHostname p2.toSystemdProvisioner p2.Driver.MachineName w3 with
  | (some err, w4) => (some err, p2, w4)
  | (none, w4) =>
  if stringsHasPrefix (stringsToLower p2.OsReleaseInfo.ID) "opensuse" then
    SUSEProvisioner.provisionInstall c p2 swarmOptions w4
  else
    match c.SSHCommand suseConnectCommand w4 with
    | ((_, some err), w5) => (some (suseConnectError err), p2, w5)
    | ((_, none), w5) => SUSEProvisioner.provisionInstall c p2 swarmOptions w5

/-! ## Observing the calls: the trace of a run -/

/-- One call of a collaborator, with the arguments the properties below speak about and the
error it returned. -/
inductive Event where
  | SSHCommand (args : String) (err : Option Error)
  | SetHostname (hostname : String) (err : Option Error)
  | Service (name : String) (action : serviceaction.ServiceAction) (err : Option Error)
  | makeDockerOptionsDir (err : Option Error)
  | ConfigureAuth (err : Option Error)
  | configureSwarm (p : SystemdProvisioner) (swarmOptions : swarm.Options)
      (authOptions : auth.Options) (err : Option Error)
  | decideStorageDriver (err : Option Error)
  | GetIP (err : Option Error)
  | DialTimeout (addr : String) (err : Option Error)
deriving DecidableEq, Repr

/-- The error a call returned. -/
def Event.err : Event → Option Error
  | .SSHCommand _ e => e
  | .SetHostname _ e => e
  | .Service _ _ e => e
  | .makeDockerOptionsDir e => e
  | .ConfigureAuth e => e
  | .configureSwarm _ _ _ e => e
  | .decideStorageDriver e => e
  | .GetIP e => e
  | .DialTimeout _ e => e

/-- A command channel that behaves as `p` and appends every command it runs, with the error
the command returned, to the trace. -/
def SSHCommander.traced {W : Type} (p : SSHCommander W) : SSHCommander (W × List Event) :=
  fun args s =>
    let r := p args s.1
    (r.1, (r.2, s.2 ++ [Event.SSHCommand args r.1.2]))

/-- Collaborators that behave as `c` and append every call to the trace. -/
def Collaborators.traced {W : Type} (c : Collaborators W) : Collaborators (W × List Event) where
  SSHCommand := SSHCommander.traced c.SSHCommand
  Dir := c.Dir
  SetHostname := fun p hostname s =>
    let r := c.SetHostname p hostname s.1
    (r.1, (r.2, s.2 ++ [Event.SetHostname hostname r.1]))
  Service := fun p name action s =>
    let r := c.Service p name action s.1
    (r.1, (r.2, s.2 ++ [Event.Service name action r.1]))
  makeDockerOptionsDir := fun p s =>
    let r := c.makeDockerOptionsDir p s.1
    (r.1, (r.2, s.2 ++ [Event.makeDockerOptionsDir r.1]))
  setRemoteAuthOptions := c.setRemoteAuthOptions
  ConfigureAuth := fun p s =>
    let r := c.ConfigureAuth p s.1
    (r.1, (r.2, s.2 ++ [Event.ConfigureAuth r.1.1]))
  configureSwarm := fun p swarmOptions authOptions s =>
    let r := c.configureSwarm p swarmOptions authOptions s.1
    (r.1, (r.2, s.2 ++ [Event.configureSwarm p swarmOptions authOptions r.1]))
  decideStorageDriver := fun p graphDriver storageDriver s =>
    let r := c.decideStorageDriver p graphDriver storageDriver s.1
    (r.1, (r.2, s.2 ++ [Event.decideStorageDriver r.1.2]))
  maxAttempts := c.maxAttempts
  waitTimeout := c.waitTimeout
  GetIP := fun s =>
    let r := c.GetIP s.1
    (r.1, (r.2, s.2 ++ [Event.GetIP r.1.2]))
  DialTimeout := fun addr s =>
    let r := c.DialTimeout addr s.1
    (r.1, (r.2, s.2 ++ [Event.DialTimeout addr r.1]))
  DefaultPort := c.DefaultPort

/-! ## The lines of a unit -/

/-- The lines of a text: its pieces between the newline characters. -/
def unitLines (text : String) : List String :=
  (text.data.splitOn '\n').map String.mk

/-- The lines of `engineConfigTmplHead`. -/
def unitHeaderLines : List String :=
  [ "[Unit]",
    "Description=Docker Application Container Engine",
    "Documentation=https://docs.docker.com",
    "After=network.target  minikube-automount.service docker.socket",
    "Requires= minikube-automount.service docker.socket ",
    "StartLimitBurst=3",
    "StartLimitIntervalSec=60",
    "",
    "[Service]",
    "Type=notify",
    "Restart=on-failure" ]

/-! ## Concrete collaborators and provisioners -/

/-- Collaborators on a world without state: every call succeeds, except the commands in
`failing`, which return the error `exit status 1`. -/
def quietCollaborators (failing : List String) : Collaborators Unit where
  SSHCommand := fun args w =>
    (("", if args ∈ failing then some "exit status 1" else none), w)
  Dir := fun _ => "/lib/systemd/system"
  SetHostname := fun _ _ w => (none, w)
  Service := fun _ _ _ w => (none, w)
  makeDockerOptionsDir := fun _ w => (none, w)
  setRemoteAuthOptions := fun p => p.AuthOptions
  ConfigureAuth := fun p w => ((none, p.AuthOptions), w)
  configureSwarm := fun _ _ _ w => (none, w)
  decideStorageDriver := fun _ graphDriver storageDriver w =>
    ((if storageDriver = "" then graphDriver else storageDriver, none), w)
  maxAttempts := 3
  waitTimeout := "timeout"
  GetIP := fun w => (("127.0.0.1", none), w)
  DialTimeout := fun _ w => (none, w)
  DefaultPort := 2376

/-- Shared provisioner state with the given OS id and environment, everything else empty. -/
def sampleState (id : String) (env : List String) : SystemdProvisioner where
  Driver := { DriverName := "none", MachineName := "default" }
  OsReleaseInfo := { ID := id, IDLike := "", PrettyName := "", Version := "", VersionID := "" }
  Packages := []
  AuthOptions :=
    { CaCertPath := "", ServerCertPath := "", ServerKeyPath := "",
      CaCertRemotePath := "/ca.pem", ServerCertRemotePath := "/server.pem",
      ServerKeyRemotePath := "/server-key.pem" }
  EngineOptions :=
    { ArbitraryFlags := [], Env := env, InsecureRegistry := [], Labels := [],
      StorageDriver := "", RegistryMirror := [] }
  SwarmOptions := { Env := [], Cluster := "" }

/-- A buildroot provisioner with the given environment. -/
def sampleBuildRoot (env : List String) : BuildRootProvisioner :=
  { toSystemdProvisioner := sampleState "buildroot" env, clusterName := "default" }

/-! ## A remote host with a shell, for `updateUnit`

The remote machine is not code of the repository.  To say what the two scripts of `updateUnit`
do, the host below reads the text of a command as `sh` does, for the fragment of the shell
language the scripts are written in: words, double quotes with the backslash but without
expansions, `&&`, `||`, `|`, `;` and brace groups, and the commands `sudo`, `mkdir -p`,
`printf %s`, `tee`, `diff -u`, `mv` and `systemctl -f`.  Text outside the fragment is refused
as a whole.  The host has files but no directories (every path can hold a file), and its
service manager performs every action it is asked for. -/

/-- A token of a command line. -/
inductive ShellToken where
  | word (s : String)
  | andIf
  | orIf
  | pipe
  | semi
  | lbrace
  | rbrace
deriving DecidableEq, Repr

/-- Where the reader of a command line stands: between or inside unquoted text, inside double
quotes, after a backslash inside double quotes, after one `&`, after one `|`, or right after a
brace. -/
inductive LexMode where
  | normal
  | quoted
  | escaped
  | amp
  | bar
  | brace
deriving DecidableEq, Repr

/-- The state of the reader: the tokens read, the word being read, the mode. -/
structure LexState where
  tokens : List ShellToken
  word : Option (List Char)
  mode : LexMode
deriving DecidableEq, Repr

/-- The characters a word may hold outside quotes: letters, digits and `/ . _ - : % + , @`.
None of them means anything to the shell. -/
def isPlainChar (c : Char) : Bool :=
  c.isAlphanum || ['/', '.', '_', '-', ':', '%', '+', ',', '@'].contains c

/-- The characters that stand for themselves between double quotes: all but the double quote,
`$`, the backquote and the backslash. -/
def isQuotedChar (c : Char) : Bool :=
  !(['\x22', '$', '\x60', '\\'].contains c)

/-- The character after a backslash between double quotes: before a double quote, `$`, a
backquote or a backslash, the backslash is dropped; a backslash and a newline are both
dropped; before any other character the backslash stays. -/
def unescape (c : Char) : List Char :=
  if ['\x22', '$', '\x60', '\\'].contains c then [c]
  else if c = '\n' then []
  else ['\\', c]

/-- The tokens read so far, with the word being read closed. -/
def LexState.flush (s : LexState) : List ShellToken :=
  match s.word with
  | some w => s.tokens ++ [ShellToken.word (String.mk w)]
  | none => s.tokens

/-- One character outside quotes: a blank closes the word, a double quote opens a quoted part
of the word, `;` `&` `|` close the word and start an operator, a brace must stand alone, a
plain character joins the word, and any other character is refused. -/
def lexNormal (s : LexState) (c : Char) : Option LexState :=
  if c = ' ' then some { tokens := s.flush, word := none, mode := .normal }
  else if c = '\x22' then some { s with word := some (s.word.getD []), mode := .quoted }
  else if c = ';' then
    some { tokens := s.flush ++ [ShellToken.semi], word := none, mode := .normal }
  else if c = '&' then some { tokens := s.flush, word := none, mode := .amp }
  else if c = '|' then some { tokens := s.flush, word := none, mode := .bar }
  else if c = '\x7b' then
    if s.word.isNone then
      some { tokens := s.tokens ++ [ShellToken.lbrace], word := none, mode := .brace }
    else none
  else if c = '\x7d' then
    if s.word.isNone then
      some { tokens := s.tokens ++ [ShellToken.rbrace], word := none, mode := .brace }
    else none
  else if isPlainChar c then some { s with word := some (s.word.getD [] ++ [c]) }
  else none

/-- One character of a command line. -/
def lexStep (s : LexState) (c : Char) : Option LexState :=
  match s.mode with
  | .normal => lexNormal s c
  | .quoted =>
    if c = '\x22' then some { s with mode := .normal }
    else if c = '\\' then some { s with mode := .escaped }
    else if isQuotedChar c then some { s with word := some (s.word.getD [] ++ [c]) }
    else none
  | .escaped => some { s with word := some (s.word.getD [] ++ unescape c), mode := .quoted }
  | .amp =>
    if c = '&' then some { s with tokens := s.tokens ++ [ShellToken.andIf], mode := .normal }
    else none
  | .bar =>
    if c = '|' then some { s with tokens := s.tokens ++ [ShellToken.orIf], mode := .normal }
    else lexNormal { s with tokens := s.tokens ++ [ShellToken.pipe], mode := .normal } c
  | .brace =>
    if c = ' ' ∨ c = ';' ∨ c = '&' ∨ c = '|' then lexNormal { s with mode := .normal } c
    else none

/-- The state of the reader with `pre` put before its tokens. -/
def LexState.after (pre : List ShellToken) (s : LexState) : LexState :=
  { tokens := pre ++ s.tokens, word := s.word, mode := s.mode }

/-- The characters `cs` read from the state `s`. -/
def lexFrom (s : LexState) (cs : List Char) : Option LexState :=
  cs.foldlM lexStep s

/-- The end of the command line: an open quote and a dangling `&` or `|` are refused. -/
def lexEnd (s : LexState) : Option (List ShellToken) :=
  match s.mode with
  | .normal => some s.flush
  | .brace => some s.tokens
  | _ => none

/-- The tokens of a command line, or nothing when it is outside the fragment. -/
def lex (command : String) : Option (List ShellToken) :=
  (lexFrom { tokens := [], word := none, mode := .normal } command.data).bind lexEnd

/-- Where the grammar stands: a command may start, a command must start, a simple command must
start (after `|`), inside a simple command, after a brace group. -/
inductive SyntaxState where
  | start
  | must
  | mustSimple
  | inCmd
  | done
deriving DecidableEq, Repr

/-- One token of the grammar `list := andor (; andor)*`, `andor := pipeline ((&& | ||)
pipeline)*`, `pipeline := simple (| simple)*` or a brace group `{ list ; }`; the number is the
depth of open groups. -/
def syntaxStep (s : SyntaxState × Nat) (t : ShellToken) : Option (SyntaxState × Nat) :=
  match t, s with
  | .word _, (.done, _) => none
  | .word _, (_, d) => some (.inCmd, d)
  | .andIf, (.inCmd, d) => some (.must, d)
  | .andIf, (.done, d) => some (.must, d)
  | .orIf, (.inCmd, d) => some (.must, d)
  | .orIf, (.done, d) => some (.must, d)
  | .pipe, (.inCmd, d) => some (.mustSimple, d)
  | .semi, (.inCmd, d) => some (.start, d)
  | .semi, (.done, d) => some (.start, d)
  | .lbrace, (.start, d) => some (.must, d + 1)
  | .lbrace, (.must, d) => some (.must, d + 1)
  | .rbrace, (.start, d + 1) => some (.done, d)
  | _, _ => none

/-- The test whether the tokens form a script of the grammar. -/
def wellFormed (tokens : List ShellToken) : Bool :=
  match tokens.foldlM syntaxStep (SyntaxState.start, 0) with
  | some (.start, 0) => true
  | some (.inCmd, 0) => true
  | some (.done, 0) => true
  | _ => false

/-- What a script does to the host beyond its files: a file moved, the service manager
reloaded, a service enabled, a service restarted. -/
inductive HostAction where
  | mv (src dst : String)
  | daemonReload
  | enable (name : String)
  | restart (name : String)
deriving DecidableEq, Repr

/-- A remote host: its files and the actions performed on it, oldest first. -/
structure RemoteHost where
  files : String → Option String
  actions : List HostAction

/-- The test whether a word starts with `-`: the commands take such a word for an option. -/
def isOption (s : String) : Bool :=
  s.data.head? == some '-'

/-- One simple command with its standard input: the exit status, the standard output and the
host afterwards.

* `sudo command...` runs the command;
* `mkdir -p dir...` succeeds (directories are not modelled);
* `printf %s word...` prints the words one after the other;
* `tee file...` writes its input to the files and prints it;
* `diff -u a b` exits with 0 when both files exist and hold the same text, with 1 when both
  exist and differ, with 2 otherwise (the text of the differences is not modelled);
* `mv a b` moves the file `a` over `b` when `a` exists and is not `b`;
* `systemctl -f daemon-reload`, `systemctl -f enable name`, `systemctl -f restart name`
  perform the action;
* a command used otherwise, with another option or number of operands, fails, and any other
  command is not found (status 127). -/
def runCommand : List String → String → RemoteHost → Nat × String × RemoteHost
  | [], _, h => (0, "", h)
  | cmd :: args, stdin, h =>
    if cmd = "sudo" then
      if (args.take 1).any isOption then (1, "", h)
      else
        match args with
        | [] => (1, "", h)
        | _ :: _ => runCommand args stdin h
    else if cmd = "mkdir" then
      match args with
      | flag :: dir :: dirs =>
        if flag = "-p" ∧ (dir :: dirs).any isOption = false then (0, "", h) else (1, "", h)
      | _ => (1, "", h)
    else if cmd = "printf" then
      match args with
      | format :: words => if format = "%s" then (0, String.join words, h) else (1, "", h)
      | [] => (1, "", h)
    else if cmd = "tee" then
      if args.any isOption then (1, "", h)
      else
        (0, stdin,
          { h with files := args.foldl (fun fs f => Function.update fs f (some stdin)) h.files })
    else if cmd = "diff" then
      match args with
      | [flag, a, b] =>
        if flag = "-u" ∧ isOption a = false ∧ isOption b = false then
          match h.files a, h.files b with
          | some x, some y => if x = y then (0, "", h) else (1, "", h)
          | _, _ => (2, "", h)
        else (2, "", h)
      | _ => (2, "", h)
    else if cmd = "mv" then
      match args with
      | [a, b] =>
        if isOption a = true ∨ isOption b = true ∨ a = b then (1, "", h)
        else
          match h.files a with
          | some x =>
            (0, "",
              { files := Function.update (Function.update h.files b (some x)) a none
                actions := h.actions ++ [HostAction.mv a b] })
          | none => (1, "", h)
      | _ => (1, "", h)
    else if cmd = "systemctl" then
      match args with
      | [flag, verb] =>
        if flag = "-f" ∧ verb = "daemon-reload" then
          (0, "", { h with actions := h.actions ++ [HostAction.daemonReload] })
        else (1, "", h)
      | [flag, verb, name] =>
        if flag = "-f" ∧ verb = "enable" ∧ isOption name = false then
          (0, "", { h with actions := h.actions ++ [HostAction.enable name] })
        else if flag = "-f" ∧ verb = "restart" ∧ isOption name = false then
          (0, "", { h with actions := h.actions ++ [HostAction.restart name] })
        else (1, "", h)
      | _ => (1, "", h)
    else (127, "", h)

/-- Whether the script is executing or skipping: after a failed command `&&` skips the next
pipeline or group, after a successful one `||` does; the number is the depth of the groups
entered while skipping. -/
inductive ExecMode where
  | run
  | skip (depth : Nat)
deriving DecidableEq, Repr

/-- The state of a running script: the host, the exit status of the last command, the input
coming through a pipe, the output written so far, the words of the command being read, and
the mode. -/
structure ShellState where
  host : RemoteHost
  status : Nat
  pipeIn : Option String
  stdout : String
  args : List String
  mode : ExecMode

/-- The end of a simple command: it is run with the piped input; its output goes into the pipe
when a `|` follows and to the output of the script otherwise. -/
def finishCommand (s : ShellState) (toPipe : Bool) : ShellState :=
  match s.args with
  | [] => { s with pipeIn := none }
  | cmd :: args =>
    let r := runCommand (cmd :: args) (s.pipeIn.getD "") s.host
    if toPipe then
      { host := r.2.2, status := r.1, pipeIn := some r.2.1, stdout := s.stdout, args := [],
        mode := s.mode }
    else
      { host := r.2.2, status := r.1, pipeIn := none, stdout := s.stdout ++ r.2.1, args := [],
        mode := s.mode }

/-- One token of a running script. -/
def execStep (s : ShellState) (t : ShellToken) : ShellState :=
  match s.mode with
  | .run =>
    match t with
    | .word w => { s with args := s.args ++ [w] }
    | .lbrace => s
    | .rbrace => finishCommand s false
    | .pipe => finishCommand s true
    | .semi => finishCommand s false
    | .andIf =>
      let s1 := finishCommand s false
      if s1.status = 0 then s1 else { s1 with mode := .skip 0 }
    | .orIf =>
      let s1 := finishCommand s false
      if s1.status = 0 then { s1 with mode := .skip 0 } else s1
  | .skip d =>
    match t with
    | .word _ => s
    | .pipe => s
    | .lbrace => { s with mode := .skip (d + 1) }
    | .rbrace => { s with mode := .skip (d - 1) }
    | .semi => if d = 0 then { s with mode := .run } else s
    | .andIf => if d = 0 ∧ s.status = 0 then { s with mode := .run } else s
    | .orIf => if d = 0 ∧ s.status ≠ 0 then { s with mode := .run } else s

/-- A script of the grammar, run on a host. -/
def runScript (tokens : List ShellToken) (h : RemoteHost) : ShellState :=
  finishCommand
    (tokens.foldl execStep
      { host := h, status := 0, pipeIn := none, stdout := "", args := [], mode := .run })
    false

/-- The command channel of the remote host: the command line is read and, when it is a script
of the grammar, run; the output is what the script printed and the error tells a status other
than 0. -/
def RemoteHost.SSHCommand : SSHCommander RemoteHost :=
  fun args h =>
    match lex args with
    | none => (("", some "sh: syntax not supported"), h)
    | some tokens =>
      if wellFormed tokens then
        let s := runScript tokens h
        ((s.stdout, if s.status = 0 then none else some ("exit status " ++ toString s.status)),
          s.host)
      else (("", some "sh: syntax error"), h)

/-- A host whose only file is `path`, with the text `text`. -/
def hostWithFile (path text : String) : RemoteHost where
  files := fun f => if f = path then some text else none
  actions := []

/-- A word of a command line that needs no quotes: not empty, plain characters only. -/
def isShellWord (s : String) : Bool :=
  !s.data.isEmpty && s.data.all isPlainChar

/-- A word of a command line that needs no quotes and that no command takes for an option: not
empty, plain characters only, the first of them not `-`. -/
def isOperand (s : String) : Bool :=
  isShellWord s && !isOption s

/-- A text that stands for itself between double quotes. -/
def isQuotedText (s : String) : Bool :=
  s.data.all isQuotedChar

/-! ## Properties of a trace -/

/-- The property C8 asks of a call: a call of `configureSwarm` receives swarm options whose
`Env` is the `Env` of the provisioner's engine options at that point, and is `env`. -/
def Event.swarmEnvOk (env : List String) : Event → Prop
  | .configureSwarm p swarmOptions _ _ =>
    swarmOptions.Env = p.EngineOptions.Env ∧ swarmOptions.Env = env
  | _ => True

/-- A SUSE provisioner with the given OS id, environment and package list. -/
def sampleSUSE (id : String) (env : List String) (packages : List String) : SUSEProvisioner :=
  { toSystemdProvisioner := { sampleState id env with Packages := packages } }

/-- The last call of the trace failed with the error `e`. -/
def failedLast (log : List Event) (e : Error) : Prop :=
  ∃ ev : Event, log.getLast? = some ev ∧ ev.err = some e

/-! ## The accessors of the buildroot provisioner and the parts of the rendered unit -/

/-- The method `GetSwarmOptions` of the buildroot provisioner. -/
def BuildRootProvisioner.GetSwarmOptions (p : BuildRootProvisioner) : swarm.Options :=
  p.SwarmOptions

/-- The method `GetAuthOptions` of the buildroot provisioner. -/
def BuildRootProvisioner.GetAuthOptions (p : BuildRootProvisioner) : auth.Options :=
  p.AuthOptions

/-- The lines of `engineConfigTmpl` between the loop over `.EngineOptions.Env` and the daemon
command line: two empty lines, the comment, and the line `ExecStart=` that clears the
inherited command. -/
def unitCommentLines : List String :=
  [ "",
    "",
    "# This file is a systemd drop-in unit that inherits from the base dockerd configuration.",
    "# The base configuration already specifies an \x27ExecStart=...\x27 command. The first directive",
    "# here is to clear out that command inherited from the base configuration. Without this,",
    "# the command from the base configuration and the command specified here are treated as",
    "# a sequence of commands, which is not the desired behavior, nor is it valid -- systemd",
    "# will catch this invalid input and refuse to start the service with an error like:",
    "#  Service has more than one ExecStart= setting, which is only allowed for Type=oneshot services.",
    "",
    "# NOTE: default-ulimit=nofile is set to an arbitrary number for consistency with other",
    "# container runtimes. If left unlimited, it may result in OOM issues with MySQL.",
    "ExecStart=" ]

/-- The lines of `engineConfigTmpl` after the daemon command line. -/
def unitTailLines : List String :=
  [ "ExecReload=/bin/kill -s HUP \\$MAINPID",
    "",
    "# Having non-zero Limit*s causes performance problems due to accounting overhead",
    "# in the kernel. We recommend using cgroups to do container-local accounting.",
    "LimitNOFILE=infinity",
    "LimitNPROC=infinity",
    "LimitCORE=infinity",
    "",
    "# Uncomment TasksMax if your systemd version supports it.",
    "# Only systemd 226 and above support this version.",
    "TasksMax=infinity",
    "TimeoutStartSec=0",
    "",
    "# set delegate yes so that systemd does not reset the cgroups of docker containers",
    "Delegate=yes",
    "",
    "# kill only the docker process, not all processes in the cgroup",
    "KillMode=process",
    "",
    "[Install]",
    "WantedBy=multi-user.target" ]

/-- The daemon command line as the spec describes it: the fixed start of the line with the
endpoints, then `--tlscacert`, `--tlscert` and `--tlskey` each followed by its path, then
`--label l ` for every label, `--insecure-registry r ` for every insecure registry,
`--registry-mirror m ` for every registry mirror and `--f ` for every arbitrary flag, each
list in its order. -/
def daemonCommandLine (authOptions : auth.Options)
    (labels insecureRegistry registryMirror arbitraryFlags : List String) : String :=
  "ExecStart=/usr/bin/dockerd -H tcp://0.0.0.0:2376 -H unix:///var/run/docker.sock --default-ulimit=nofile=1048576:1048576 --tlsverify"
    ++ " --tlscacert " ++ authOptions.CaCertRemotePath
    ++ " --tlscert " ++ authOptions.ServerCertRemotePath
    ++ " --tlskey " ++ authOptions.ServerKeyRemotePath ++ " "
    ++ String.join (labels.map (fun l => "--label " ++ l ++ " "))
    ++ String.join (insecureRegistry.map (fun r => "--insecure-registry " ++ r ++ " "))
    ++ String.join (registryMirror.map (fun m => "--registry-mirror " ++ m ++ " "))
    ++ String.join (arbitraryFlags.map (fun f => "--" ++ f ++ " "))

/-- The strings of a provisioner that `GenerateDockerOptions` writes into the unit. -/
def BuildRootProvisioner.renderedStrings (p : BuildRootProvisioner) : List String :=
  p.EngineOptions.Env
    ++ [p.AuthOptions.CaCertRemotePath, p.AuthOptions.ServerCertRemotePath,
        p.AuthOptions.ServerKeyRemotePath]
    ++ p.EngineOptions.Labels ++ [p.Driver.DriverName]
    ++ p.EngineOptions.InsecureRegistry ++ p.EngineOptions.RegistryMirror
    ++ p.EngineOptions.ArbitraryFlags

/-- The test whether a line starts with `ExecStart=`. -/
def isExecStartLine (line : String) : Bool :=
  stringsHasPrefix line "ExecStart="

/-- The test whether a line starts with `Environment=`. -/
def isEnvironmentLine (line : String) : Bool :=
  stringsHasPrefix line "Environment="

/-- A buildroot provisioner with the given labels, insecure registries, registry mirrors and
arbitrary flags. -/
def sampleBuildRootWith (labels insecureRegistry registryMirror arbitraryFlags : List String) :
    BuildRootProvisioner :=
  { sampleBuildRoot [] with
    EngineOptions :=
      { ArbitraryFlags := arbitraryFlags, Env := [], InsecureRegistry := insecureRegistry,
        Labels := labels, StorageDriver := "", RegistryMirror := registryMirror } }

/-! ## Lemmas on the escaping helpers -/

theorem foldl_set_enumFrom {α β : Type} (f : α → β) (d : β) (l : List α) (done : List β) :
    (List.enumFrom done.length l).foldl (fun ret is => ret.set is.1 (f is.2))
      (done ++ List.replicate l.length d) = done ++ l.map f := by
  induction l generalizing done with
  | nil => simp
  | cons a l ih =>
    have h := ih (done ++ [f a])
    simp only [List.length_append, List.length_singleton, List.append_assoc,
      List.singleton_append] at h
    simp only [List.enumFrom_cons, List.foldl_cons, List.length_cons, List.replicate_succ,
      List.map_cons]
    rw [List.set_append_right _ _ (le_refl _)]
    simpa using h

theorem replaceChars_eq_map (src : List String) (r : Replacer) :
    replaceChars src r = src.map r.Replace := by
  have h := foldl_set_enumFrom r.Replace "" src []
  simpa [replaceChars] using h

theorem foldl_buf_enumFrom (pre post : String) (l : List String) (done : List String) :
    (List.enumFrom done.length l).foldl
      (fun (st : String × List String) is =>
        let buf := st.1 ++ pre
        let buf := buf ++ is.2
        let buf := buf ++ post
        ("", st.2.set is.1 buf))
      ("", done ++ List.replicate l.length "")
      = ("", done ++ l.map (fun s => pre ++ s ++ post)) := by
  induction l generalizing done with
  | nil => simp
  | cons a l ih =>
    have h := ih (done ++ [pre ++ a ++ post])
    simp only [List.length_append, List.length_singleton, List.append_assoc,
      List.singleton_append] at h
    simp only [List.enumFrom_cons, List.foldl_cons, List.length_cons, List.replicate_succ,
      List.map_cons]
    rw [List.set_append_right _ _ (le_refl _)]
    simpa using h

theorem concatStrings_eq_map (src : List String) (pre post : String) :
    concatStrings src pre post = src.map (fun s => pre ++ s ++ post) := by
  have h := foldl_buf_enumFrom pre post src []
  simp only [List.length_nil, List.nil_append] at h
  simp [concatStrings, h]

theorem foldl_replace_acc (r : Replacer) (l acc : List Char) :
    l.foldl
      (fun buf c =>
        match r.oldnew.lookup c with
        | some new => buf ++ new.data
        | none => buf ++ [c])
      acc
      = acc ++ l.flatMap (fun c =>
          match r.oldnew.lookup c with
          | some new => new.data
          | none => [c]) := by
  induction l generalizing acc with
  | nil => simp
  | cons a l ih =>
    simp only [List.foldl_cons, List.flatMap_cons]
    rw [ih]
    cases r.oldnew.lookup a <;> simp

theorem escaper_Replace (s : String) : systemdSpecifierEscaper.Replace s = doublePercent s := by
  unfold Replacer.Replace doublePercent
  rw [foldl_replace_acc]
  congr 1
  simp only [List.nil_append]
  congr 1
  funext c
  by_cases hc : c = '%'
  · subst hc
    rfl
  · have h1 : (c == '%') = false := by
      simp only [beq_eq_false_iff_ne, ne_eq]
      exact hc
    simp [systemdSpecifierEscaper, NewReplacer, List.lookup, h1, hc]

theorem escapeSystemdDirectives_Env (ctx : EngineConfigContext) :
    (escapeSystemdDirectives ctx).EngineOptions.Env
      = ctx.EngineOptions.Env.map (fun s => "\"" ++ doublePercent s ++ "\"") := by
  simp only [escapeSystemdDirectives, replaceChars_eq_map, concatStrings_eq_map, List.map_map]
  apply List.map_congr_left
  intro s _
  simp [escaper_Replace]

/-! ## C1 -/

/-- C1: `escapeSystemdDirectives` replaces `EngineOptions.Env` by a list of the same length
whose `i`-th entry is a double quote, the `i`-th original entry with every `%` doubled, and a
double quote; every other field of the context is unchanged. -/
theorem escapeSystemdDirectives_spec (ctx : EngineConfigContext) :
    (escapeSystemdDirectives ctx).EngineOptions.Env.length = ctx.EngineOptions.Env.length
    ∧ (∀ i : Nat, (escapeSystemdDirectives ctx).EngineOptions.Env[i]?
        = (ctx.EngineOptions.Env[i]?).map (fun s => "\"" ++ doublePercent s ++ "\""))
    ∧ escapeSystemdDirectives ctx
        = { ctx with EngineOptions :=
              { ctx.EngineOptions with
                Env := (escapeSystemdDirectives ctx).EngineOptions.Env } } := by
  refine ⟨?_, ?_, ?_⟩
  · rw [escapeSystemdDirectives_Env, List.length_map]
  · intro i
    rw [escapeSystemdDirectives_Env, List.getElem?_map]
  · rfl

/-! ## C2 -/

/-- The characters of an escaped entry: every `%` doubled. -/
theorem doublePercent_data (s : String) :
    (doublePercent s).data = s.data.flatMap (fun c => if c = '%' then ['%', '%'] else [c]) :=
  rfl

theorem getLast?_ne_of_cons {c x : Char} {a : List Char}
    (h : (c :: a).getLast? ≠ some x) : a.getLast? ≠ some x := by
  cases a with
  | nil => simp
  | cons y a => simpa [List.getLast?_cons_cons] using h

theorem doubled_runs_even (l : List Char) :
    ∀ (a b : List Char) (n : Nat),
      l.flatMap (fun c => if c = '%' then ['%', '%'] else [c]) = a ++ List.replicate n '%' ++ b →
      a.getLast? ≠ some '%' → b.head? ≠ some '%' → Even n := by
  induction l with
  | nil =>
    intro a b n h _ _
    simp only [List.flatMap_nil] at h
    have h1 : List.replicate n '%' = [] := by
      have := congrArg List.length h
      simp only [List.length_nil, List.length_append, List.length_replicate] at this
      have hn : n = 0 := by omega
      simp [hn]
    have hn : n = 0 := by simpa using h1
    simp [hn]
  | cons c cs ih =>
    intro a b n h ha hb
    rw [List.flatMap_cons] at h
    by_cases hc : c = '%'
    · subst hc
      simp only [if_true] at h
      match a, ha, h with
      | [], _, h =>
        match n, h with
        | 0, h =>
          simp only [List.replicate_zero, List.nil_append] at h
          rw [← h] at hb
          simp at hb
        | 1, h =>
          simp only [List.replicate_one, List.nil_append, List.cons_append,
            List.cons.injEq, true_and] at h
          rw [← h] at hb
          simp at hb
        | m + 2, h =>
          simp only [List.replicate_succ, List.nil_append, List.cons_append,
            List.cons.injEq, true_and] at h
          have := ih [] b m (by simpa using h) (by simp) hb
          exact Even.add this even_two
      | [x], ha, h =>
        simp only [List.cons_append, List.nil_append, List.cons.injEq] at h
        rw [← h.1] at ha
        simp at ha
      | x :: y :: a, ha, h =>
        simp only [List.cons_append, List.cons.injEq] at h
        obtain ⟨hx, hy, h⟩ := h
        have ha1 : (y :: a).getLast? ≠ some '%' := getLast?_ne_of_cons ha
        cases a with
        | nil =>
          rw [← hy] at ha1
          simp at ha1
        | cons z a =>
          have ha2 := getLast?_ne_of_cons ha1
          exact ih (z :: a) b n (by simpa using h) ha2 hb
    · simp only [hc, if_false] at h
      match a, ha, h with
      | [], _, h =>
        match n, h with
        | 0, _ => exact even_zero
        | m + 1, h =>
          simp only [List.replicate_succ, List.nil_append, List.cons_append,
            List.cons.injEq] at h
          exact absurd h.1 hc
      | x :: a, ha, h =>
        simp only [List.cons_append, List.cons.injEq] at h
        exact ih a b n (by simpa using h.2) (getLast?_ne_of_cons ha) hb

theorem doubled_count (l : List Char) :
    (l.flatMap (fun c => if c = '%' then ['%', '%'] else [c])).count '%'
      = 2 * l.count '%' := by
  induction l with
  | nil => simp
  | cons c cs ih =>
    rw [List.flatMap_cons, List.count_append, ih, List.count_cons]
    by_cases hc : c = '%'
    · subst hc
      simp
      omega
    · have h1 : (c == '%') = false := by simpa using hc
      simp [hc, List.count_cons, h1]

/-- C2: an entry escaped by `systemdSpecifierEscaper` through `replaceChars` has no single
`%`: every maximal run of `%` in it has even length, and it holds twice as many `%` as the
original entry. -/
theorem escaped_has_no_single_percent (src : List String) (i : Nat) (x : String)
    (hx : src[i]? = some x) :
    ∃ y : String, (replaceChars src systemdSpecifierEscaper)[i]? = some y
      ∧ (∀ (a b : List Char) (n : Nat), y.data = a ++ List.replicate n '%' ++ b →
          a.getLast? ≠ some '%' → b.head? ≠ some '%' → Even n)
      ∧ y.data.count '%' = 2 * x.data.count '%' := by
  refine ⟨doublePercent x, ?_, ?_, ?_⟩
  · rw [replaceChars_eq_map, List.getElem?_map, hx]
    simp [escaper_Replace]
  · intro a b n h
    rw [doublePercent_data] at h
    exact doubled_runs_even x.data a b n h
  · rw [doublePercent_data]
    exact doubled_count x.data

theorem escaped_has_no_single_percent_witness :
    ∃ y : String, (replaceChars ["A=100%", "B=%i%%"] systemdSpecifierEscaper)[1]? = some y
      ∧ (∀ (a b : List Char) (n : Nat), y.data = a ++ List.replicate n '%' ++ b →
          a.getLast? ≠ some '%' → b.head? ≠ some '%' → Even n)
      ∧ y.data.count '%' = 2 * "B=%i%%".data.count '%' :=
  escaped_has_no_single_percent ["A=100%", "B=%i%%"] 1 "B=%i%%" (by decide)

/-! ## Lines of a text and the escaping -/

theorem splitOn_lines_append (ls : List (List Char)) (hls : ∀ l ∈ ls, '\n' ∉ l)
    (rest : List Char) :
    ((ls.map (fun l => l ++ ['\n'])).flatten ++ rest).splitOn '\n'
      = ls ++ rest.splitOn '\n' := by
  induction ls with
  | nil => simp
  | cons l ls ih =>
    have hl : ∀ x ∈ l, ¬ ((x == '\n') = true) := by
      intro x hx hxn
      have : x = '\n' := by simpa using hxn
      exact hls l (List.mem_cons_self _ _) (this ▸ hx)
    have h := List.splitOnP_first (fun x => x == '\n') l hl '\n' (by simp)
      ((ls.map (fun l => l ++ ['\n'])).flatten ++ rest)
    have ih1 := ih (fun l hl => hls l (List.mem_cons_of_mem _ hl))
    simp only [List.splitOn] at ih1 ⊢
    simp only [List.map_cons, List.flatten_cons, List.append_assoc, List.singleton_append,
      List.cons_append, List.nil_append]
    rw [h, ih1]

theorem doublePercent_append (s t : String) :
    doublePercent (s ++ t) = doublePercent s ++ doublePercent t := by
  apply String.ext
  simp [doublePercent_data, String.data_append, List.flatMap_append]

theorem doublePercent_no_newline (s : String) (h : '\n' ∉ s.data) :
    '\n' ∉ (doublePercent s).data := by
  rw [doublePercent_data]
  intro hmem
  rw [List.mem_flatMap] at hmem
  obtain ⟨c, hc, hmem⟩ := hmem
  by_cases hp : c = '%'
  · subst hp
    simp at hmem
  · simp only [hp, if_false, List.mem_singleton] at hmem
    exact h (hmem ▸ hc)

/-! ## C10 -/

theorem zypper_command (a name : String) :
    "sudo -E zypper -n " ++ a ++ " " ++ name = "sudo -E zypper -n " ++ (a ++ " ") ++ name := by
  apply String.ext
  simp [String.data_append]

/-- C10: `Package` of the SUSE provisioner.  For `Install` the probe `rpm -q name` is issued
first; when it succeeds nothing else is issued and the result is nil; when it fails, and for
`Remove` and `Upgrade` without a probe, exactly one command `sudo -E zypper -n a name` is
issued, with `a` being `in`, `rm` and `up`, and its error, or nil, is the result. -/
theorem SUSEProvisioner_Package_commands {W : Type} (c : Collaborators W) (name : String)
    (w : W) :
    (∀ (out : String) (w1 : W),
        c.SSHCommand ("rpm -q " ++ name) w = ((out, none), w1) →
        SUSEProvisioner.Package c.traced name .Install (w, [])
          = (none, (w1, [Event.SSHCommand ("rpm -q " ++ name) none])))
    ∧ (∀ (out : String) (e : Error) (w1 : W) (out2 : String) (e2 : Option Error) (w2 : W),
        c.SSHCommand ("rpm -q " ++ name) w = ((out, some e), w1) →
        c.SSHCommand ("sudo -E zypper -n in " ++ name) w1 = ((out2, e2), w2) →
        SUSEProvisioner.Package c.traced name .Install (w, [])
          = (e2, (w2, [Event.SSHCommand ("rpm -q " ++ name) (some e),
                       Event.SSHCommand ("sudo -E zypper -n in " ++ name) e2])))
    ∧ (∀ (out : String) (e : Option Error) (w1 : W),
        c.SSHCommand ("sudo -E zypper -n rm " ++ name) w = ((out, e), w1) →
        SUSEProvisioner.Package c.traced name .Remove (w, [])
          = (e, (w1, [Event.SSHCommand ("sudo -E zypper -n rm " ++ name) e])))
    ∧ (∀ (out : String) (e : Option Error) (w1 : W),
        c.SSHCommand ("sudo -E zypper -n up " ++ name) w = ((out, e), w1) →
        SUSEProvisioner.Package c.traced name .Upgrade (w, [])
          = (e, (w1, [Event.SSHCommand ("sudo -E zypper -n up " ++ name) e]))) := by
  have hin : "sudo -E zypper -n " ++ "in" ++ " " ++ name = "sudo -E zypper -n in " ++ name :=
    zypper_command "in" name
  have hrm : "sudo -E zypper -n " ++ "rm" ++ " " ++ name = "sudo -E zypper -n rm " ++ name :=
    zypper_command "rm" name
  have hup : "sudo -E zypper -n " ++ "up" ++ " " ++ name = "sudo -E zypper -n up " ++ name :=
    zypper_command "up" name
  refine ⟨?_, ?_, ?_, ?_⟩
  · intro out w1 h1
    simp [SUSEProvisioner.Package, SUSEProvisioner.zypper, Collaborators.traced, SSHCommander.traced, h1]
  · intro out e w1 out2 e2 w2 h1 h2
    cases e2 <;>
      simp [SUSEProvisioner.Package, SUSEProvisioner.zypper, Collaborators.traced, SSHCommander.traced, h1, hin, h2]
  · intro out e w1 h1
    cases e <;>
      simp [SUSEProvisioner.Package, SUSEProvisioner.zypper, Collaborators.traced, SSHCommander.traced, hrm, h1]
  · intro out e w1 h1
    cases e <;>
      simp [SUSEProvisioner.Package, SUSEProvisioner.zypper, Collaborators.traced, SSHCommander.traced, hup, h1]

set_option maxRecDepth 100000 in
theorem SUSEProvisioner_Package_commands_witness :
    SUSEProvisioner.Package (quietCollaborators ["rpm -q docker"]).traced "docker" .Install
        ((), [])
      = (none, ((), [Event.SSHCommand ("rpm -q " ++ "docker") (some "exit status 1"),
                     Event.SSHCommand ("sudo -E zypper -n in " ++ "docker") none])) :=
  (SUSEProvisioner_Package_commands (quietCollaborators ["rpm -q docker"]) "docker" ()).2.1
    "" "exit status 1" () "" none () (by decide) (by decide)

/-! ## C9 -/

theorem splitOn_append_sep (x : Char) (u v : List Char) :
    (u ++ x :: v).splitOn x = u.splitOn x ++ v.splitOn x := by
  induction u with
  | nil => simp [List.splitOn, List.splitOnP_cons]
  | cons c u ih =>
    simp only [List.splitOn] at ih ⊢
    rw [List.cons_append, List.splitOnP_cons, List.splitOnP_cons, ih]
    by_cases hc : (c == x) = true
    · simp [hc]
    · simp only [hc, if_false]
      have hne := List.splitOnP_ne_nil (fun y => y == x) u
      cases hs : List.splitOnP (fun y => y == x) u with
      | nil => exact absurd hs hne
      | cons s ss => simp [List.modifyHead]

theorem splitOn_single (x : Char) (w : List Char) (hw : x ∉ w) : w.splitOn x = [w] := by
  apply List.splitOnP_eq_single
  intro y hy hyx
  have : y = x := by simpa using hyx
  exact hw (this ▸ hy)

theorem intercalate_around (x : Char) (w : List Char) (s1 s2 : List (List Char)) :
    ∃ a b : List Char, [x].intercalate (s1 ++ w :: s2) = a ++ w ++ b
      ∧ (a = [] ∨ ∃ a1, a = a1 ++ [x]) ∧ (b = [] ∨ ∃ b1, b = x :: b1) := by
  induction s1 with
  | nil =>
    cases s2 with
    | nil => exact ⟨[], [], by simp [List.intercalate], Or.inl rfl, Or.inl rfl⟩
    | cons s s2 =>
      refine ⟨[], x :: [x].intercalate (s :: s2), ?_, Or.inl rfl, Or.inr ⟨_, rfl⟩⟩
      simp [List.intercalate, List.intersperse]
  | cons s s1 ih =>
    obtain ⟨a, b, hab, ha, hb⟩ := ih
    refine ⟨s ++ x :: a, b, ?_, Or.inr ?_, hb⟩
    · have hcons : [x].intercalate (s :: (s1 ++ w :: s2))
          = s ++ x :: [x].intercalate (s1 ++ w :: s2) := by
        cases s1 <;> simp [List.intercalate, List.intersperse]
      rw [List.cons_append, hcons, hab]
      simp
    · rcases ha with ha | ⟨a1, ha⟩
      · exact ⟨s, by simp [ha]⟩
      · exact ⟨s ++ x :: a1, by simp [ha]⟩

theorem mem_splitOn_iff (x : Char) (w l : List Char) (hw : x ∉ w) :
    w ∈ l.splitOn x ↔ ∃ a b : List Char, l = a ++ w ++ b
      ∧ (a = [] ∨ ∃ a1, a = a1 ++ [x]) ∧ (b = [] ∨ ∃ b1, b = x :: b1) := by
  constructor
  · intro h
    obtain ⟨s1, s2, hs⟩ := List.append_of_mem h
    have hl := List.intercalate_splitOn l x
    rw [hs] at hl
    obtain ⟨a, b, hab, ha, hb⟩ := intercalate_around x w s1 s2
    exact ⟨a, b, by rw [← hl, hab], ha, hb⟩
  · rintro ⟨a, b, hl, ha, hb⟩
    subst hl
    rcases ha with ha | ⟨a1, ha⟩ <;> rcases hb with hb | ⟨b1, hb⟩ <;> subst ha <;> subst hb
    · simp [splitOn_single x w hw]
    · simp [splitOn_append_sep, splitOn_single x w hw]
    · simp [splitOn_append_sep, splitOn_single x w hw]
    · have : a1 ++ [x] ++ w ++ x :: b1 = a1 ++ x :: (w ++ x :: b1) := by simp
      rw [this, splitOn_append_sep, splitOn_append_sep, splitOn_single x w hw]
      simp

/-- C9: `CompatibleWithHost` is a function of the cached OS release alone.  For the SUSE
provisioner it is true exactly when `suse` is one of the pieces of `IDLike` between single
spaces, that is, when `IDLike` is `a ++ "suse" ++ b` where `a` is empty or ends with a space
and `b` is empty or starts with a space; for the buildroot provisioner it is true exactly when
`ID` is `buildroot`.  Two provisioners with the same `IDLike`, respectively the same `ID`,
get the same answer, whatever the other fields are. -/
theorem CompatibleWithHost_spec (s : SUSEProvisioner) (b : BuildRootProvisioner) :
    (s.CompatibleWithHost = true ↔ "suse" ∈ splitSpaces s.OsReleaseInfo.IDLike)
    ∧ ("suse" ∈ splitSpaces s.OsReleaseInfo.IDLike ↔
        ∃ pre post : String, s.OsReleaseInfo.IDLike = pre ++ "suse" ++ post
          ∧ (pre = "" ∨ ∃ pre1 : String, pre = pre1 ++ " ")
          ∧ (post = "" ∨ ∃ post1 : String, post = " " ++ post1))
    ∧ (b.CompatibleWithHost = true ↔ b.OsReleaseInfo.ID = "buildroot")
    ∧ (∀ s1 : SUSEProvisioner, s1.OsReleaseInfo.IDLike = s.OsReleaseInfo.IDLike →
        s1.CompatibleWithHost = s.CompatibleWithHost)
    ∧ (∀ b1 : BuildRootProvisioner, b1.OsReleaseInfo.ID = b.OsReleaseInfo.ID →
        b1.CompatibleWithHost = b.CompatibleWithHost) := by
  refine ⟨?_, ?_, ?_, ?_, ?_⟩
  rotate_left 3
  · intro s1 h1
    simp [SUSEProvisioner.CompatibleWithHost, h1]
  · intro b1 h1
    simp [BuildRootProvisioner.CompatibleWithHost, h1]
  · simp [SUSEProvisioner.CompatibleWithHost]
  · have hmem : "suse" ∈ splitSpaces s.OsReleaseInfo.IDLike
        ↔ "suse".data ∈ s.OsReleaseInfo.IDLike.data.splitOn ' ' := by
      unfold splitSpaces
      rw [List.mem_map]
      constructor
      · rintro ⟨l, hl, hmk⟩
        have : l = "suse".data := by rw [← hmk]
        exact this ▸ hl
      · intro h
        exact ⟨_, h, rfl⟩
    rw [hmem, mem_splitOn_iff ' ' "suse".data _ (by decide)]
    constructor
    · rintro ⟨a, c, hl, ha, hc⟩
      refine ⟨String.mk a, String.mk c, ?_, ?_, ?_⟩
      · apply String.ext
        simp [String.data_append, hl]
      · rcases ha with ha | ⟨a1, ha⟩
        · exact Or.inl (by rw [ha])
        · exact Or.inr ⟨String.mk a1, by rw [ha]; rfl⟩
      · rcases hc with hc | ⟨c1, hc⟩
        · exact Or.inl (by rw [hc])
        · exact Or.inr ⟨String.mk c1, by rw [hc]; rfl⟩
    · rintro ⟨pre, post, hl, hpre, hpost⟩
      refine ⟨pre.data, post.data, ?_, ?_, ?_⟩
      · rw [hl]
        simp [String.data_append]
      · rcases hpre with h | ⟨p1, h⟩
        · exact Or.inl (by rw [h])
        · exact Or.inr ⟨p1.data, by rw [h]; rfl⟩
      · rcases hpost with h | ⟨p1, h⟩
        · exact Or.inl (by rw [h])
        · exact Or.inr ⟨p1.data, by rw [h]; rfl⟩
  · simp [BuildRootProvisioner.CompatibleWithHost]

/-! ## C7 -/

theorem provisionBody_StorageDriver {W : Type} (c : Collaborators W) (p : BuildRootProvisioner)
    (swarmOptions : swarm.Options) (authOptions : auth.Options)
    (engineOptions : engine.Options) (w : W) :
    (BuildRootProvisioner.provisionBody c p swarmOptions authOptions engineOptions
        w).2.1.EngineOptions.StorageDriver
      = if engineOptions.StorageDriver = "" then "overlay2" else engineOptions.StorageDriver := by
  have h2 : ∀ p1 : BuildRootProvisioner,
      (BuildRootProvisioner.defaultStorageDriver p1).EngineOptions.StorageDriver
        = if p1.EngineOptions.StorageDriver = "" then "overlay2"
          else p1.EngineOptions.StorageDriver := by
    intro p1
    unfold BuildRootProvisioner.defaultStorageDriver
    split <;> rfl
  unfold BuildRootProvisioner.provisionBody
  simp only []
  split
  · exact h2 _
  · split
    · exact h2 _
    · split
      · exact h2 _
      · exact h2 _

/-- C7: after `Provision` of the buildroot provisioner returns, with or without an error, the
provisioner's `EngineOptions.StorageDriver` is `overlay2` when the given
`engineOptions.StorageDriver` was empty and the given value otherwise; it is never empty. -/
theorem BuildRootProvisioner_Provision_StorageDriver {W : Type} (c : Collaborators W)
    (p : BuildRootProvisioner) (swarmOptions : swarm.Options) (authOptions : auth.Options)
    (engineOptions : engine.Options) (w : W) :
    (BuildRootProvisioner.Provision c p swarmOptions authOptions engineOptions
        w).2.1.EngineOptions.StorageDriver
      = (if engineOptions.StorageDriver = "" then "overlay2" else engineOptions.StorageDriver)
    ∧ (BuildRootProvisioner.Provision c p swarmOptions authOptions engineOptions
        w).2.1.EngineOptions.StorageDriver ≠ "" := by
  have h := provisionBody_StorageDriver c p swarmOptions authOptions engineOptions w
  have h1 : (BuildRootProvisioner.Provision c p swarmOptions authOptions engineOptions
        w).2.1.EngineOptions.StorageDriver
      = (if engineOptions.StorageDriver = "" then "overlay2"
          else engineOptions.StorageDriver) := by
    unfold BuildRootProvisioner.Provision
    split
    · next p1 w1 heq =>
      rw [heq] at h
      exact h
    · next err p1 w1 heq =>
      rw [heq] at h
      exact h
  refine ⟨h1, ?_⟩
  rw [h1]
  split
  · decide
  · assumption

/-! ## The trace of one call -/

theorem SSHCommand_log {W : Type} (c : Collaborators W) (args : String)
    (s s1 : W × List Event) (out : String) (err : Option Error)
    (h : c.traced.SSHCommand args s = ((out, err), s1)) :
    s1.2 = s.2 ++ [Event.SSHCommand args err] := by
  have h1 := congrArg (fun x => x.2.2) h
  have h2 := congrArg (fun x => x.1.2) h
  simp only [Collaborators.traced, SSHCommander.traced] at h1 h2
  rw [← h1, h2]

theorem SetHostname_log {W : Type} (c : Collaborators W) (q : SystemdProvisioner)
    (hostname : String) (s s1 : W × List Event) (err : Option Error)
    (h : c.traced.SetHostname q hostname s = (err, s1)) :
    s1.2 = s.2 ++ [Event.SetHostname hostname err] := by
  have h1 := congrArg (fun x => x.2.2) h
  have h2 := congrArg (fun x => x.1) h
  simp only [Collaborators.traced] at h1 h2
  rw [← h1, h2]

theorem Service_log {W : Type} (c : Collaborators W) (q : SystemdProvisioner)
    (name : String) (action : serviceaction.ServiceAction) (s s1 : W × List Event)
    (err : Option Error) (h : c.traced.Service q name action s = (err, s1)) :
    s1.2 = s.2 ++ [Event.Service name action err] := by
  have h1 := congrArg (fun x => x.2.2) h
  have h2 := congrArg (fun x => x.1) h
  simp only [Collaborators.traced] at h1 h2
  rw [← h1, h2]

theorem makeDockerOptionsDir_log {W : Type} (c : Collaborators W) (q : SystemdProvisioner)
    (s s1 : W × List Event) (err : Option Error)
    (h : c.traced.makeDockerOptionsDir q s = (err, s1)) :
    s1.2 = s.2 ++ [Event.makeDockerOptionsDir err] := by
  have h1 := congrArg (fun x => x.2.2) h
  have h2 := congrArg (fun x => x.1) h
  simp only [Collaborators.traced] at h1 h2
  rw [← h1, h2]

theorem ConfigureAuth_log {W : Type} (c : Collaborators W) (q : SystemdProvisioner)
    (s s1 : W × List Event) (err : Option Error) (ao : auth.Options)
    (h : c.traced.ConfigureAuth q s = ((err, ao), s1)) :
    s1.2 = s.2 ++ [Event.ConfigureAuth err] := by
  have h1 := congrArg (fun x => x.2.2) h
  have h2 := congrArg (fun x => x.1.1) h
  simp only [Collaborators.traced] at h1 h2
  rw [← h1, h2]

theorem configureSwarm_log {W : Type} (c : Collaborators W) (q : SystemdProvisioner)
    (swarmOptions : swarm.Options) (authOptions : auth.Options)
    (s s1 : W × List Event) (err : Option Error)
    (h : c.traced.configureSwarm q swarmOptions authOptions s = (err, s1)) :
    s1.2 = s.2 ++ [Event.configureSwarm q swarmOptions authOptions err] := by
  have h1 := congrArg (fun x => x.2.2) h
  have h2 := congrArg (fun x => x.1) h
  simp only [Collaborators.traced] at h1 h2
  rw [← h1, h2]

theorem decideStorageDriver_log {W : Type} (c : Collaborators W) (q : SystemdProvisioner)
    (graphDriver storageDriver : String) (s s1 : W × List Event) (out : String)
    (err : Option Error)
    (h : c.traced.decideStorageDriver q graphDriver storageDriver s = ((out, err), s1)) :
    s1.2 = s.2 ++ [Event.decideStorageDriver err] := by
  have h1 := congrArg (fun x => x.2.2) h
  have h2 := congrArg (fun x => x.1.2) h
  simp only [Collaborators.traced] at h1 h2
  rw [← h1, h2]

theorem GetIP_log {W : Type} (c : Collaborators W) (s s1 : W × List Event) (ip : String)
    (err : Option Error) (h : c.traced.GetIP s = ((ip, err), s1)) :
    s1.2 = s.2 ++ [Event.GetIP err] := by
  have h1 := congrArg (fun x => x.2.2) h
  have h2 := congrArg (fun x => x.1.2) h
  simp only [Collaborators.traced] at h1 h2
  rw [← h1, h2]

theorem DialTimeout_log {W : Type} (c : Collaborators W) (addr : String)
    (s : W × List Event) :
    (c.traced.DialTimeout addr s).2.2
      = s.2 ++ [Event.DialTimeout addr (c.traced.DialTimeout addr s).1] :=
  rfl

/-! ## C8 -/

theorem swarmEnvOk_step (env : List String) (log log1 : List Event) (ev : Event)
    (hl : log1 = log ++ [ev]) (h : ∀ e ∈ log, e.swarmEnvOk env) (hev : ev.swarmEnvOk env) :
    ∀ e ∈ log1, e.swarmEnvOk env := by
  intro e he
  rw [hl, List.mem_append, List.mem_singleton] at he
  rcases he with he | he
  · exact h e he
  · exact he ▸ hev

theorem defaultStorageDriver_Env (p : BuildRootProvisioner) :
    (BuildRootProvisioner.defaultStorageDriver p).EngineOptions.Env = p.EngineOptions.Env := by
  unfold BuildRootProvisioner.defaultStorageDriver
  split <;> rfl

theorem provisionBody_swarmEnvOk {W : Type} (c : Collaborators W) (p : BuildRootProvisioner)
    (swarmOptions : swarm.Options) (authOptions : auth.Options)
    (engineOptions : engine.Options) (s : W × List Event)
    (h : ∀ e ∈ s.2, e.swarmEnvOk engineOptions.Env) :
    ∀ e ∈ (BuildRootProvisioner.provisionBody c.traced p swarmOptions authOptions engineOptions
        s).2.2.2, e.swarmEnvOk engineOptions.Env := by
  unfold BuildRootProvisioner.provisionBody
  simp only []
  split
  · next err w1 heq =>
    exact swarmEnvOk_step _ _ _ _ (SetHostname_log c _ _ _ _ _ heq) h trivial
  · next w1 heq =>
    have h1 := swarmEnvOk_step _ _ _ _ (SetHostname_log c _ _ _ _ _ heq) h trivial
    split
    · next err w2 heq =>
      exact swarmEnvOk_step _ _ _ _ (makeDockerOptionsDir_log c _ _ _ _ heq) h1 trivial
    · next w2 heq =>
      have h2 := swarmEnvOk_step _ _ _ _ (makeDockerOptionsDir_log c _ _ _ _ heq) h1 trivial
      split
      · next err ao w3 heq =>
        exact swarmEnvOk_step _ _ _ _ (ConfigureAuth_log c _ _ _ _ _ heq) h2 trivial
      · next ao w3 heq =>
        have h3 := swarmEnvOk_step _ _ _ _ (ConfigureAuth_log c _ _ _ _ _ heq) h2 trivial
        refine swarmEnvOk_step _ _ _ _ (configureSwarm_log c _ _ _ _ _ _ rfl) h3 ?_
        refine ⟨?_, rfl⟩
        show engineOptions.Env = (BuildRootProvisioner.defaultStorageDriver _).EngineOptions.Env
        rw [defaultStorageDriver_Env]

theorem AttemptIPContact_swarmEnvOk {W : Type} (c : Collaborators W) (p : BuildRootProvisioner)
    (env : List String) (dockerPort : Int) (s : W × List Event)
    (h : ∀ e ∈ s.2, e.swarmEnvOk env) :
    ∀ e ∈ (BuildRootProvisioner.AttemptIPContact c.traced p dockerPort s).2,
      e.swarmEnvOk env := by
  unfold BuildRootProvisioner.AttemptIPContact
  split
  · next ip err w1 heq =>
    exact swarmEnvOk_step _ _ _ _ (GetIP_log c _ _ _ _ heq) h trivial
  · next ip w1 heq =>
    have h1 := swarmEnvOk_step _ _ _ _ (GetIP_log c _ _ _ _ heq) h trivial
    exact swarmEnvOk_step _ _ _ _ (DialTimeout_log c _ _) h1 trivial

theorem BuildRootProvisioner_Provision_swarmEnvOk {W : Type} (c : Collaborators W)
    (p : BuildRootProvisioner) (swarmOptions : swarm.Options) (authOptions : auth.Options)
    (engineOptions : engine.Options) (s : W × List Event)
    (h : ∀ e ∈ s.2, e.swarmEnvOk engineOptions.Env) :
    ∀ e ∈ (BuildRootProvisioner.Provision c.traced p swarmOptions authOptions engineOptions
        s).2.2.2, e.swarmEnvOk engineOptions.Env := by
  have hb := provisionBody_swarmEnvOk c p swarmOptions authOptions engineOptions s h
  unfold BuildRootProvisioner.Provision
  split
  · next p1 w1 heq =>
    rw [heq] at hb
    exact AttemptIPContact_swarmEnvOk c p1 _ _ w1 hb
  · next err p1 w1 heq =>
    rw [heq] at hb
    exact hb

/-! ### The blocks of the SUSE provisioner keep a property of the trace that every command
satisfies -/

theorem inv_step (G : Event → Prop) (log log1 : List Event) (ev : Event)
    (hl : log1 = log ++ [ev]) (h : ∀ e ∈ log, G e) (hev : G ev) : ∀ e ∈ log1, G e := by
  intro e he
  rw [hl, List.mem_append, List.mem_singleton] at he
  rcases he with he | he
  · exact h e he
  · exact he ▸ hev

theorem zypper_inv {W : Type} (c : Collaborators W) (G : Event → Prop)
    (hG : ∀ a r, G (Event.SSHCommand a r)) (name packageAction : String)
    (s : W × List Event) (h : ∀ e ∈ s.2, G e) :
    ∀ e ∈ (SUSEProvisioner.zypper c.traced name packageAction s).2.2, G e := by
  unfold SUSEProvisioner.zypper
  simp only []
  split
  · next out err w1 heq =>
    exact inv_step G _ _ _ (SSHCommand_log c _ _ _ _ _ heq) h (hG _ _)
  · next out w1 heq =>
    exact inv_step G _ _ _ (SSHCommand_log c _ _ _ _ _ heq) h (hG _ _)

theorem Package_inv {W : Type} (c : Collaborators W) (G : Event → Prop)
    (hG : ∀ a r, G (Event.SSHCommand a r)) (name : String) (action : pkgaction.PackageAction)
    (s : W × List Event) (h : ∀ e ∈ s.2, G e) :
    ∀ e ∈ (SUSEProvisioner.Package c.traced name action s).2.2, G e := by
  unfold SUSEProvisioner.Package
  cases action with
  | Install =>
    simp only []
    split
    · next out w1 heq =>
      exact inv_step G _ _ _ (SSHCommand_log c _ _ _ _ _ heq) h (hG _ _)
    · next out err w1 heq =>
      exact zypper_inv c G hG name "in" w1
        (inv_step G _ _ _ (SSHCommand_log c _ _ _ _ _ heq) h (hG _ _))
  | Remove => exact zypper_inv c G hG name "rm" s h
  | Upgrade => exact zypper_inv c G hG name "up" s h

theorem installPackages_inv {W : Type} (c : Collaborators W) (G : Event → Prop)
    (hG : ∀ a r, G (Event.SSHCommand a r)) (pkgs : List String)
    (s : W × List Event) (h : ∀ e ∈ s.2, G e) :
    ∀ e ∈ (SUSEProvisioner.installPackages c.traced pkgs s).2.2, G e := by
  induction pkgs generalizing s with
  | nil => exact h
  | cons pkg pkgs ih =>
    have hp := Package_inv c G hG pkg .Install s h
    unfold SUSEProvisioner.installPackages
    split
    · next err w1 heq =>
      rw [heq] at hp
      exact hp
    · next w1 heq =>
      rw [heq] at hp
      exact ih w1 hp

theorem dockerDaemonResponding_inv {W : Type} (c : Collaborators W) (G : Event → Prop)
    (hG : ∀ a r, G (Event.SSHCommand a r)) (s : W × List Event) (h : ∀ e ∈ s.2, G e) :
    ∀ e ∈ (SUSEProvisioner.dockerDaemonResponding c.traced s).2.2, G e := by
  unfold SUSEProvisioner.dockerDaemonResponding
  split
  · next out err w1 heq =>
    exact inv_step G _ _ _ (SSHCommand_log c _ _ _ _ _ heq) h (hG _ _)
  · next out w1 heq =>
    exact inv_step G _ _ _ (SSHCommand_log c _ _ _ _ _ heq) h (hG _ _)

theorem WaitFor_inv {W : Type} (c : Collaborators W) (G : Event → Prop)
    (hG : ∀ a r, G (Event.SSHCommand a r)) (t : Error) (n : Nat)
    (s : W × List Event) (h : ∀ e ∈ s.2, G e) :
    ∀ e ∈ (WaitFor t (SUSEProvisioner.dockerDaemonResponding c.traced) n s).2.2, G e := by
  induction n generalizing s with
  | zero => exact h
  | succ n ih =>
    have hp := dockerDaemonResponding_inv c G hG s h
    unfold WaitFor
    split
    · next w1 heq =>
      rw [heq] at hp
      exact hp
    · next w1 heq =>
      rw [heq] at hp
      exact ih w1 hp

theorem statFilesystem_inv {W : Type} (c : Collaborators W) (G : Event → Prop)
    (hG : ∀ a r, G (Event.SSHCommand a r)) (s : W × List Event) (h : ∀ e ∈ s.2, G e) :
    ∀ e ∈ (SUSEProvisioner.statFilesystem c.traced s).2.2, G e := by
  unfold SUSEProvisioner.statFilesystem
  split
  · next out err w1 heq =>
    have h1 := inv_step G _ _ _ (SSHCommand_log c _ _ _ _ _ heq) h (hG _ _)
    exact inv_step G _ _ _ (SSHCommand_log c _ _ _ _ _ rfl) h1 (hG _ _)
  · next fs w1 heq =>
    exact inv_step G _ _ _ (SSHCommand_log c _ _ _ _ _ heq) h (hG _ _)

theorem openFirewall_inv {W : Type} (c : Collaborators W) (G : Event → Prop)
    (hG : ∀ a r, G (Event.SSHCommand a r)) (s : W × List Event) (h : ∀ e ∈ s.2, G e) :
    ∀ e ∈ (SUSEProvisioner.openFirewall c.traced s).2.2, G e := by
  unfold SUSEProvisioner.openFirewall
  split
  · next out w1 heq =>
    have h1 := inv_step G _ _ _ (SSHCommand_log c _ _ _ _ _ heq) h (hG _ _)
    split
    · next out2 err w2 heq2 =>
      exact inv_step G _ _ _ (SSHCommand_log c _ _ _ _ _ heq2) h1 (hG _ _)
    · next out2 w2 heq2 =>
      exact inv_step G _ _ _ (SSHCommand_log c _ _ _ _ _ heq2) h1 (hG _ _)
  · next out err w1 heq =>
    exact inv_step G _ _ _ (SSHCommand_log c _ _ _ _ _ heq) h (hG _ _)


theorem provisionInstall_swarmEnvOk {W : Type} (c : Collaborators W) (p : SUSEProvisioner)
    (swarmOptions : swarm.Options) (env : List String)
    (hso : swarmOptions.Env = p.EngineOptions.Env) (henv : swarmOptions.Env = env)
    (s : W × List Event) (h : ∀ e ∈ s.2, e.swarmEnvOk env) :
    ∀ e ∈ (SUSEProvisioner.provisionInstall c.traced p swarmOptions s).2.2.2,
      e.swarmEnvOk env := by
  have hG : ∀ a r, (Event.SSHCommand a r).swarmEnvOk env := fun _ _ => trivial
  unfold SUSEProvisioner.provisionInstall
  simp only []
  have h1 := installPackages_inv c _ hG p.Packages s h
  split
  · next err w1 heq =>
    rw [heq] at h1
    exact h1
  next w1 heq =>
  rw [heq] at h1
  have h2 := Package_inv c _ hG "docker" .Install w1 h1
  split
  · next err w2 heq =>
    rw [heq] at h2
    exact h2
  next w2 heq =>
  rw [heq] at h2
  split
  · next out err w3 heq =>
    exact inv_step _ _ _ _ (SSHCommand_log c _ _ _ _ _ heq) h2 (hG _ _)
  next out w3 heq =>
  have h3 := inv_step _ _ _ _ (SSHCommand_log c _ _ _ _ _ heq) h2 (hG _ _)
  split
  · next out err w4 heq =>
    exact inv_step _ _ _ _ (SSHCommand_log c _ _ _ _ _ heq) h3 (hG _ _)
  next out w4 heq =>
  have h4 := inv_step _ _ _ _ (SSHCommand_log c _ _ _ _ _ heq) h3 (hG _ _)
  split
  · next out err w5 heq =>
    exact inv_step _ _ _ _ (SSHCommand_log c _ _ _ _ _ heq) h4 (hG _ _)
  next out w5 heq =>
  have h5 := inv_step _ _ _ _ (SSHCommand_log c _ _ _ _ _ heq) h4 (hG _ _)
  have h7 := openFirewall_inv c _ hG w5 h5
  split
  · next err w7 heq =>
    rw [heq] at h7
    exact h7
  next w7 heq =>
  rw [heq] at h7
  split
  · next err w8 heq =>
    exact inv_step _ _ _ _ (Service_log c _ _ _ _ _ _ heq) h7 trivial
  next w8 heq =>
  have h8 := inv_step _ _ _ _ (Service_log c _ _ _ _ _ _ heq) h7 trivial
  have h9 := WaitFor_inv c _ hG c.waitTimeout c.maxAttempts w8 h8
  split
  · next err w9 heq =>
    have heq1 : WaitFor c.waitTimeout (SUSEProvisioner.dockerDaemonResponding c.traced)
        c.maxAttempts w8 = (some err, w9) := heq
    rw [heq1] at h9
    exact h9
  next w9 heq =>
  have heq1 : WaitFor c.waitTimeout (SUSEProvisioner.dockerDaemonResponding c.traced)
      c.maxAttempts w8 = (none, w9) := heq
  rw [heq1] at h9
  split
  · next err ao w10 heq =>
    exact inv_step _ _ _ _ (ConfigureAuth_log c _ _ _ _ _ heq) h9 trivial
  next ao w10 heq =>
  have h10 := inv_step _ _ _ _ (ConfigureAuth_log c _ _ _ _ _ heq) h9 trivial
  split
  · next err w11 heq =>
    exact inv_step _ _ _ _ (configureSwarm_log c _ _ _ _ _ _ heq) h10 ⟨hso, henv⟩
  next w11 heq =>
  have h11 := inv_step _ _ _ _ (configureSwarm_log c _ _ _ _ _ _ heq) h10
    (show (Event.configureSwarm _ _ _ _).swarmEnvOk env from ⟨hso, henv⟩)
  exact inv_step _ _ _ _ (Service_log c _ _ _ _ _ _ rfl) h11 trivial

theorem SUSEProvisioner_Provision_swarmEnvOk {W : Type} (c : Collaborators W)
    (p : SUSEProvisioner) (swarmOptions : swarm.Options) (authOptions : auth.Options)
    (engineOptions : engine.Options) (s : W × List Event)
    (h : ∀ e ∈ s.2, e.swarmEnvOk engineOptions.Env) :
    ∀ e ∈ (SUSEProvisioner.Provision c.traced p swarmOptions authOptions engineOptions
        s).2.2.2, e.swarmEnvOk engineOptions.Env := by
  have hG : ∀ a r, (Event.SSHCommand a r).swarmEnvOk engineOptions.Env := fun _ _ => trivial
  unfold SUSEProvisioner.Provision
  simp only []
  have h2 := statFilesystem_inv c _ hG s h
  split
  · next out err w2 heq =>
    rw [heq] at h2
    exact h2
  next fs w2 heq =>
  rw [heq] at h2
  split
  · next out err w3 heq =>
    exact inv_step _ _ _ _ (decideStorageDriver_log c _ _ _ _ _ _ _ heq) h2 trivial
  next storageDriver w3 heq =>
  have h3 := inv_step _ _ _ _ (decideStorageDriver_log c _ _ _ _ _ _ _ heq) h2 trivial
  split
  · next err w4 heq =>
    exact inv_step _ _ _ _ (SetHostname_log c _ _ _ _ _ heq) h3 trivial
  next w4 heq =>
  have h4 := inv_step _ _ _ _ (SetHostname_log c _ _ _ _ _ heq) h3 trivial
  split
  · exact provisionInstall_swarmEnvOk c _ _ _ rfl rfl w4 h4
  · split
    · next out err w5 heq =>
      exact inv_step _ _ _ _ (SSHCommand_log c _ _ _ _ _ heq) h4 (hG _ _)
    · next out w5 heq =>
      have h5 := inv_step _ _ _ _ (SSHCommand_log c _ _ _ _ _ heq) h4 (hG _ _)
      exact provisionInstall_swarmEnvOk c _ _ _ rfl rfl w5 h5

/-- C8: in `Provision` of the SUSE and of the buildroot provisioner, every call of
`configureSwarm` receives swarm options whose `Env` is the `Env` of the provisioner's engine
options at that point, which is the `Env` of the `engineOptions` given to `Provision`. -/
theorem configureSwarm_receives_engine_Env {W : Type} (c : Collaborators W)
    (swarmOptions : swarm.Options) (authOptions : auth.Options)
    (engineOptions : engine.Options) (w : W) (q : SystemdProvisioner) (so : swarm.Options)
    (ao : auth.Options) (err : Option Error) :
    (∀ p : SUSEProvisioner,
      Event.configureSwarm q so ao err
          ∈ (SUSEProvisioner.Provision c.traced p swarmOptions authOptions engineOptions
              (w, [])).2.2.2 →
        so.Env = q.EngineOptions.Env ∧ so.Env = engineOptions.Env)
    ∧ (∀ p : BuildRootProvisioner,
      Event.configureSwarm q so ao err
          ∈ (BuildRootProvisioner.Provision c.traced p swarmOptions authOptions engineOptions
              (w, [])).2.2.2 →
        so.Env = q.EngineOptions.Env ∧ so.Env = engineOptions.Env) := by
  constructor
  · intro p hmem
    exact SUSEProvisioner_Provision_swarmEnvOk c p swarmOptions authOptions engineOptions
      (w, []) (by simp) _ hmem
  · intro p hmem
    exact BuildRootProvisioner_Provision_swarmEnvOk c p swarmOptions authOptions engineOptions
      (w, []) (by simp) _ hmem

set_option maxRecDepth 100000 in
theorem configureSwarm_receives_engine_Env_witness :
    Event.configureSwarm
        { sampleState "buildroot" ["A=b"] with
          EngineOptions :=
            { (sampleState "buildroot" ["A=b"]).EngineOptions with StorageDriver := "overlay2" }
          SwarmOptions := { Env := ["X=1"], Cluster := "c" } }
        { Env := ["A=b"], Cluster := "c" } (sampleState "buildroot" []).AuthOptions none
      ∈ (BuildRootProvisioner.Provision (quietCollaborators []).traced (sampleBuildRoot [])
          { Env := ["X=1"], Cluster := "c" } (sampleState "buildroot" []).AuthOptions
          (sampleState "buildroot" ["A=b"]).EngineOptions ((), [])).2.2.2
    ∧ (["A=b"] = ["A=b"] ∧ ["A=b"] = (sampleState "buildroot" ["A=b"]).EngineOptions.Env) :=
  ⟨by decide,
    (configureSwarm_receives_engine_Env (quietCollaborators [])
      { Env := ["X=1"], Cluster := "c" } (sampleState "buildroot" []).AuthOptions
      (sampleState "buildroot" ["A=b"]).EngineOptions ()
      { sampleState "buildroot" ["A=b"] with
        EngineOptions :=
          { (sampleState "buildroot" ["A=b"]).EngineOptions with StorageDriver := "overlay2" }
        SwarmOptions := { Env := ["X=1"], Cluster := "c" } }
      { Env := ["A=b"], Cluster := "c" } (sampleState "buildroot" []).AuthOptions none).2
      (sampleBuildRoot []) (by decide)⟩

/-! ## C6 -/

theorem failedLast_step (log log1 : List Event) (ev : Event) (e : Error)
    (hl : log1 = log ++ [ev]) (he : ev.err = some e) : failedLast log1 e :=
  ⟨ev, by rw [hl]; simp, he⟩

theorem zypper_failedLast {W : Type} (c : Collaborators W) (name packageAction : String)
    (s : W × List Event) (e : Error)
    (h : (SUSEProvisioner.zypper c.traced name packageAction s).1 = some e) :
    failedLast (SUSEProvisioner.zypper c.traced name packageAction s).2.2 e := by
  unfold SUSEProvisioner.zypper at h ⊢
  simp only [] at h ⊢
  split at h
  · next out err w1 heq =>
    simp only [Option.some.injEq] at h
    exact failedLast_step _ _ _ _ (SSHCommand_log c _ _ _ _ _ heq) (by rw [← h]; rfl)
  · next out w1 heq =>
    exact absurd h (by simp)

theorem Package_failedLast {W : Type} (c : Collaborators W) (name : String)
    (action : pkgaction.PackageAction) (s : W × List Event) (e : Error)
    (h : (SUSEProvisioner.Package c.traced name action s).1 = some e) :
    failedLast (SUSEProvisioner.Package c.traced name action s).2.2 e := by
  unfold SUSEProvisioner.Package at h ⊢
  cases action with
  | Install =>
    simp only [] at h ⊢
    split at h
    · next out w1 heq =>
      exact absurd h (by simp)
    · next out err w1 heq =>
      exact zypper_failedLast c name "in" w1 e h
  | Remove => exact zypper_failedLast c name "rm" s e h
  | Upgrade => exact zypper_failedLast c name "up" s e h

theorem installPackages_failedLast {W : Type} (c : Collaborators W) (pkgs : List String)
    (s : W × List Event) (e : Error)
    (h : (SUSEProvisioner.installPackages c.traced pkgs s).1 = some e) :
    failedLast (SUSEProvisioner.installPackages c.traced pkgs s).2.2 e := by
  induction pkgs generalizing s with
  | nil => exact absurd h (by simp [SUSEProvisioner.installPackages])
  | cons pkg pkgs ih =>
    have hp := Package_failedLast c pkg .Install s
    unfold SUSEProvisioner.installPackages at h ⊢
    split at h
    · next err w1 heq =>
      rw [heq] at hp
      exact hp e h
    · next w1 heq =>
      exact ih w1 h

theorem statFilesystem_failedLast {W : Type} (c : Collaborators W)
    (s : W × List Event) (e : Error)
    (h : (SUSEProvisioner.statFilesystem c.traced s).1.2 = some e) :
    failedLast (SUSEProvisioner.statFilesystem c.traced s).2.2 e := by
  unfold SUSEProvisioner.statFilesystem at h ⊢
  split at h
  · next out err w1 heq =>
    exact failedLast_step _ _ _ _ (SSHCommand_log c _ _ _ _ _ rfl) h
  · next fs w1 heq =>
    exact absurd h (by simp)

theorem openFirewall_failedLast {W : Type} (c : Collaborators W)
    (s : W × List Event) (e : Error)
    (h : (SUSEProvisioner.openFirewall c.traced s).1 = some e) :
    failedLast (SUSEProvisioner.openFirewall c.traced s).2.2 e := by
  unfold SUSEProvisioner.openFirewall at h ⊢
  split at h
  · next out w1 heq =>
    split at h
    · next out2 err w2 heq2 =>
      simp only [Option.some.injEq] at h
      exact failedLast_step _ _ _ _ (SSHCommand_log c _ _ _ _ _ heq2) (by rw [← h]; rfl)
    · next out2 w2 heq2 =>
      exact absurd h (by simp)
  · next out err w1 heq =>
    exact absurd h (by simp)

/-- When the wait for the daemon fails, the error is the timeout error of `WaitFor`; either no
probe was made or the last call of the trace is a failed probe. -/
theorem WaitFor_timeout {W : Type} (c : Collaborators W) (t : Error) (n : Nat)
    (s : W × List Event) (e : Error)
    (h : (WaitFor t (SUSEProvisioner.dockerDaemonResponding c.traced) n s).1 = some e) :
    e = t
    ∧ ((WaitFor t (SUSEProvisioner.dockerDaemonResponding c.traced) n s).2 = s
      ∨ ∃ e1 : Error,
          (WaitFor t (SUSEProvisioner.dockerDaemonResponding c.traced) n s).2.2.getLast?
            = some (Event.SSHCommand "sudo docker version" (some e1))) := by
  induction n generalizing s with
  | zero =>
    simp only [WaitFor, Option.some.injEq] at h
    exact ⟨h.symm, Or.inl rfl⟩
  | succ n ih =>
    unfold WaitFor at h ⊢
    split at h
    · next w1 heq =>
      exact absurd h (by simp)
    · next w1 heq =>
      obtain ⟨he, hl⟩ := ih w1 h
      refine ⟨he, Or.inr ?_⟩
      have hprobe : ∃ e1 : Error,
          w1.2.getLast? = some (Event.SSHCommand "sudo docker version" (some e1)) := by
        unfold SUSEProvisioner.dockerDaemonResponding at heq
        split at heq
        · next out err w2 heq2 =>
          have hw : w2 = w1 := by
            have := congrArg Prod.snd heq
            exact this
          subst hw
          exact ⟨err, by rw [SSHCommand_log c _ _ _ _ _ heq2]; simp⟩
        · next out w2 heq2 =>
          have := congrArg Prod.fst heq
          simp at this
      rcases hl with hl | hl
      · rw [hl]
        exact hprobe
      · exact hl


theorem provisionBody_failedLast {W : Type} (c : Collaborators W) (p : BuildRootProvisioner)
    (swarmOptions : swarm.Options) (authOptions : auth.Options)
    (engineOptions : engine.Options) (s : W × List Event) (e : Error)
    (h : (BuildRootProvisioner.provisionBody c.traced p swarmOptions authOptions engineOptions
        s).1 = some e) :
    failedLast (BuildRootProvisioner.provisionBody c.traced p swarmOptions authOptions
        engineOptions s).2.2.2 e := by
  unfold BuildRootProvisioner.provisionBody at h ⊢
  simp only [] at h ⊢
  split at h
  · next err w1 heq =>
    exact failedLast_step _ _ _ _ (SetHostname_log c _ _ _ _ _ heq) h
  next w1 heq =>
  split at h
  · next err w2 heq =>
    exact failedLast_step _ _ _ _ (makeDockerOptionsDir_log c _ _ _ _ heq) h
  next w2 heq =>
  split at h
  · next err ao w3 heq =>
    exact failedLast_step _ _ _ _ (ConfigureAuth_log c _ _ _ _ _ heq) h
  next ao w3 heq =>
  exact failedLast_step _ _ _ _ (configureSwarm_log c _ _ _ _ _ _ rfl) h

theorem BuildRootProvisioner_Provision_failedLast {W : Type} (c : Collaborators W)
    (p : BuildRootProvisioner) (swarmOptions : swarm.Options) (authOptions : auth.Options)
    (engineOptions : engine.Options) (s : W × List Event) (e : Error)
    (h : (BuildRootProvisioner.Provision c.traced p swarmOptions authOptions engineOptions
        s).1 = some e) :
    failedLast (BuildRootProvisioner.Provision c.traced p swarmOptions authOptions
        engineOptions s).2.2.2 e := by
  have hb := provisionBody_failedLast c p swarmOptions authOptions engineOptions s e
  unfold BuildRootProvisioner.Provision at h ⊢
  split at h
  · next p1 w1 heq =>
    exact absurd h (by simp)
  · next err p1 w1 heq =>
    rw [heq] at hb
    exact hb h

theorem provisionInstall_error {W : Type} (c : Collaborators W) (p : SUSEProvisioner)
    (swarmOptions : swarm.Options) (s : W × List Event) (e : Error)
    (h : (SUSEProvisioner.provisionInstall c.traced p swarmOptions s).1 = some e) :
    failedLast (SUSEProvisioner.provisionInstall c.traced p swarmOptions s).2.2.2 e
    ∨ (e = c.waitTimeout
        ∧ ((SUSEProvisioner.provisionInstall c.traced p swarmOptions s).2.2.2.getLast?
              = some (Event.Service "docker" .Start none)
          ∨ ∃ e1 : Error,
              (SUSEProvisioner.provisionInstall c.traced p swarmOptions s).2.2.2.getLast?
                = some (Event.SSHCommand "sudo docker version" (some e1)))) := by
  unfold SUSEProvisioner.provisionInstall at h ⊢
  simp only [] at h ⊢
  have h1 := installPackages_failedLast c p.Packages s
  split at h
  · next err w1 heq =>
    rw [heq] at h1
    exact Or.inl (h1 e h)
  next w1 heq =>
  have h2 := Package_failedLast c "docker" .Install w1
  split at h
  · next err w2 heq =>
    rw [heq] at h2
    exact Or.inl (h2 e h)
  next w2 heq =>
  split at h
  · next out err w3 heq =>
    exact Or.inl (failedLast_step _ _ _ _ (SSHCommand_log c _ _ _ _ _ heq) h)
  next out w3 heq =>
  split at h
  · next out err w4 heq =>
    exact Or.inl (failedLast_step _ _ _ _ (SSHCommand_log c _ _ _ _ _ heq) h)
  next out w4 heq =>
  split at h
  · next out err w5 heq =>
    exact Or.inl (failedLast_step _ _ _ _ (SSHCommand_log c _ _ _ _ _ heq) h)
  next out w5 heq =>
  have h7 := openFirewall_failedLast c w5
  split at h
  · next err w7 heq =>
    rw [heq] at h7
    exact Or.inl (h7 e h)
  next w7 heq =>
  split at h
  · next err w8 heq =>
    exact Or.inl (failedLast_step _ _ _ _ (Service_log c _ _ _ _ _ _ heq) h)
  next w8 hsvc =>
  have h9 := WaitFor_timeout c c.waitTimeout c.maxAttempts w8
  split at h
  · next err w9 heq =>
    have heq1 : WaitFor c.waitTimeout (SUSEProvisioner.dockerDaemonResponding c.traced)
        c.maxAttempts w8 = (some err, w9) := heq
    rw [heq1] at h9
    obtain ⟨he, hl⟩ := h9 e h
    refine Or.inr ⟨he, ?_⟩
    rcases hl with hl | hl
    · left
      have hw : w9 = w8 := hl
      rw [hw, Service_log c _ _ _ _ _ _ hsvc]
      simp
    · exact Or.inr hl
  next w9 heq =>
  split at h
  · next err ao w10 heq =>
    exact Or.inl (failedLast_step _ _ _ _ (ConfigureAuth_log c _ _ _ _ _ heq) h)
  next ao w10 heq =>
  split at h
  · next err w11 heq =>
    exact Or.inl (failedLast_step _ _ _ _ (configureSwarm_log c _ _ _ _ _ _ heq) h)
  next w11 heq =>
  exact Or.inl (failedLast_step _ _ _ _ (Service_log c _ _ _ _ _ _ rfl) h)


theorem SUSEProvisioner_Provision_error {W : Type} (c : Collaborators W)
    (p : SUSEProvisioner) (swarmOptions : swarm.Options) (authOptions : auth.Options)
    (engineOptions : engine.Options) (s : W × List Event) (e : Error)
    (h : (SUSEProvisioner.Provision c.traced p swarmOptions authOptions engineOptions s).1
        = some e) :
    failedLast (SUSEProvisioner.Provision c.traced p swarmOptions authOptions engineOptions
        s).2.2.2 e
    ∨ (e = c.waitTimeout
        ∧ ((SUSEProvisioner.Provision c.traced p swarmOptions authOptions engineOptions
              s).2.2.2.getLast? = some (Event.Service "docker" .Start none)
          ∨ ∃ e1 : Error,
              (SUSEProvisioner.Provision c.traced p swarmOptions authOptions engineOptions
                s).2.2.2.getLast? = some (Event.SSHCommand "sudo docker version" (some e1))))
    ∨ (∃ e1 : Error,
        (SUSEProvisioner.Provision c.traced p swarmOptions authOptions engineOptions
          s).2.2.2.getLast? = some (Event.SSHCommand suseConnectCommand (some e1))
        ∧ e = suseConnectError e1) := by
  unfold SUSEProvisioner.Provision at h ⊢
  simp only [] at h ⊢
  have h2 := statFilesystem_failedLast c s
  split at h
  · next out err w2 heq =>
    rw [heq] at h2
    exact Or.inl (h2 e h)
  next fs w2 heq =>
  split at h
  · next out err w3 heq =>
    exact Or.inl (failedLast_step _ _ _ _ (decideStorageDriver_log c _ _ _ _ _ _ _ heq) h)
  next storageDriver w3 heq =>
  split at h
  · next err w4 heq =>
    exact Or.inl (failedLast_step _ _ _ _ (SetHostname_log c _ _ _ _ _ heq) h)
  next w4 heq =>
  split at h
  · next hid =>
    rw [if_pos hid]
    rcases provisionInstall_error c _ _ w4 e h with h5 | h5
    · exact Or.inl h5
    · exact Or.inr (Or.inl h5)
  · next hid =>
    rw [if_neg hid]
    split at h
    · next out err w5 heq =>
      simp only [Option.some.injEq] at h
      exact Or.inr (Or.inr ⟨err, by rw [SSHCommand_log c _ _ _ _ _ heq]; simp, h.symm⟩)
    · next out w5 heq =>
      rcases provisionInstall_error c _ _ w5 e h with h5 | h5
      · exact Or.inl h5
      · exact Or.inr (Or.inl h5)

/-- C6, as the code has it: when `Provision` returns an error, no step is executed after the
failing one, and the error is the error the failing step returned, unchanged: for the
buildroot provisioner always; for the SUSE provisioner unless the failing step is the wait for
the daemon, whose error is the timeout error of `WaitFor` (the last call is then the start of
the service or a failed probe), or the `SUSEConnect` command, whose error is returned inside
a new error that `fmt.Errorf` builds. -/
theorem Provision_error_is_step_error {W : Type} (c : Collaborators W)
    (swarmOptions : swarm.Options) (authOptions : auth.Options)
    (engineOptions : engine.Options) (w : W) (e : Error) :
    (∀ p : BuildRootProvisioner,
      (BuildRootProvisioner.Provision c.traced p swarmOptions authOptions engineOptions
        (w, [])).1 = some e →
      failedLast (BuildRootProvisioner.Provision c.traced p swarmOptions authOptions
        engineOptions (w, [])).2.2.2 e)
    ∧ (∀ p : SUSEProvisioner,
      (SUSEProvisioner.Provision c.traced p swarmOptions authOptions engineOptions
        (w, [])).1 = some e →
      failedLast (SUSEProvisioner.Provision c.traced p swarmOptions authOptions engineOptions
          (w, [])).2.2.2 e
      ∨ (e = c.waitTimeout
          ∧ ((SUSEProvisioner.Provision c.traced p swarmOptions authOptions engineOptions
                (w, [])).2.2.2.getLast? = some (Event.Service "docker" .Start none)
            ∨ ∃ e1 : Error,
                (SUSEProvisioner.Provision c.traced p swarmOptions authOptions engineOptions
                  (w, [])).2.2.2.getLast?
                  = some (Event.SSHCommand "sudo docker version" (some e1))))
      ∨ (∃ e1 : Error,
          (SUSEProvisioner.Provision c.traced p swarmOptions authOptions engineOptions
            (w, [])).2.2.2.getLast? = some (Event.SSHCommand suseConnectCommand (some e1))
          ∧ e = suseConnectError e1)) :=
  ⟨fun p h => BuildRootProvisioner_Provision_failedLast c p swarmOptions authOptions
      engineOptions (w, []) e h,
    fun p h => SUSEProvisioner_Provision_error c p swarmOptions authOptions engineOptions
      (w, []) e h⟩

set_option maxRecDepth 100000 in
theorem Provision_error_is_step_error_witness :
    failedLast (SUSEProvisioner.Provision
        (quietCollaborators ["rpm -q docker", "sudo -E zypper -n in docker"]).traced
        (sampleSUSE "opensuse" [] []) { Env := [], Cluster := "" }
        (sampleState "opensuse" []).AuthOptions (sampleState "opensuse" []).EngineOptions
        ((), [])).2.2.2 "exit status 1"
    ∨ ("exit status 1"
          = (quietCollaborators ["rpm -q docker", "sudo -E zypper -n in docker"]).waitTimeout
        ∧ ((SUSEProvisioner.Provision
              (quietCollaborators ["rpm -q docker", "sudo -E zypper -n in docker"]).traced
              (sampleSUSE "opensuse" [] []) { Env := [], Cluster := "" }
              (sampleState "opensuse" []).AuthOptions
              (sampleState "opensuse" []).EngineOptions
              ((), [])).2.2.2.getLast? = some (Event.Service "docker" .Start none)
          ∨ ∃ e1 : Error,
              (SUSEProvisioner.Provision
                (quietCollaborators ["rpm -q docker", "sudo -E zypper -n in docker"]).traced
                (sampleSUSE "opensuse" [] []) { Env := [], Cluster := "" }
                (sampleState "opensuse" []).AuthOptions
                (sampleState "opensuse" []).EngineOptions
                ((), [])).2.2.2.getLast?
                = some (Event.SSHCommand "sudo docker version" (some e1))))
    ∨ (∃ e1 : Error,
        (SUSEProvisioner.Provision
          (quietCollaborators ["rpm -q docker", "sudo -E zypper -n in docker"]).traced
          (sampleSUSE "opensuse" [] []) { Env := [], Cluster := "" }
          (sampleState "opensuse" []).AuthOptions (sampleState "opensuse" []).EngineOptions
          ((), [])).2.2.2.getLast? = some (Event.SSHCommand suseConnectCommand (some e1))
        ∧ "exit status 1" = suseConnectError e1) :=
  (Provision_error_is_step_error
    (quietCollaborators ["rpm -q docker", "sudo -E zypper -n in docker"])
    { Env := [], Cluster := "" } (sampleState "opensuse" []).AuthOptions
    (sampleState "opensuse" []).EngineOptions () "exit status 1").2
    (sampleSUSE "opensuse" [] []) (by decide)

set_option maxRecDepth 100000 in
/-- C6, as stated, fails: when the `SUSEConnect` command fails with `exit status 1`,
`Provision` of the SUSE provisioner stops there, but the error it returns is not that error:
it is a new error with a longer message, and no call of the trace has returned it. -/
theorem SUSEProvisioner_Provision_wraps_error :
    (SUSEProvisioner.Provision (quietCollaborators [suseConnectCommand]).traced
        (sampleSUSE "sles" [] []) { Env := [], Cluster := "" }
        (sampleState "sles" []).AuthOptions (sampleState "sles" []).EngineOptions
        ((), [])).1 = some (suseConnectError "exit status 1")
    ∧ (SUSEProvisioner.Provision (quietCollaborators [suseConnectCommand]).traced
        (sampleSUSE "sles" [] []) { Env := [], Cluster := "" }
        (sampleState "sles" []).AuthOptions (sampleState "sles" []).EngineOptions
        ((), [])).2.2.2.getLast?
        = some (Event.SSHCommand suseConnectCommand (some "exit status 1"))
    ∧ suseConnectError "exit status 1" ≠ "exit status 1"
    ∧ ∀ ev ∈ (SUSEProvisioner.Provision (quietCollaborators [suseConnectCommand]).traced
        (sampleSUSE "sles" [] []) { Env := [], Cluster := "" }
        (sampleState "sles" []).AuthOptions (sampleState "sles" []).EngineOptions
        ((), [])).2.2.2, ev.err ≠ some (suseConnectError "exit status 1") := by
  decide

/-! ## The text of the rendered unit, line by line -/

set_option maxRecDepth 100000 in
theorem engineConfigTmplHead_lines :
    engineConfigTmplHead = String.join (unitHeaderLines.map (fun l => l ++ "\n")) := by
  decide

set_option maxRecDepth 100000 in
theorem engineConfigTmplExec_lines :
    engineConfigTmplExec
      = String.join (unitCommentLines.map (fun l => l ++ "\n"))
        ++ "ExecStart=/usr/bin/dockerd -H tcp://0.0.0.0:2376 -H unix:///var/run/docker.sock --default-ulimit=nofile=1048576:1048576 --tlsverify --tlscacert " := by
  decide

set_option maxRecDepth 100000 in
theorem engineConfigTmplTail_lines :
    engineConfigTmplTail = "\n" ++ String.join (unitTailLines.map (fun l => l ++ "\n")) := by
  decide

theorem executeTemplate_lines (ctx : EngineConfigContext) :
    executeTemplate engineConfigTmpl ctx
      = String.join ((unitHeaderLines
          ++ ctx.EngineOptions.Env.map (fun e => "Environment=" ++ e)
          ++ unitCommentLines
          ++ [daemonCommandLine ctx.AuthOptions ctx.EngineOptions.Labels
                ctx.EngineOptions.InsecureRegistry ctx.EngineOptions.RegistryMirror
                ctx.EngineOptions.ArbitraryFlags]
          ++ unitTailLines).map (fun l => l ++ "\n")) := by
  have hsplit : executeTemplate engineConfigTmpl ctx
      = engineConfigTmplHead
        ++ String.join (ctx.EngineOptions.Env.map (fun x => "Environment=" ++ x ++ "\n"))
        ++ engineConfigTmplExec
        ++ ctx.AuthOptions.CaCertRemotePath
        ++ " --tlscert " ++ ctx.AuthOptions.ServerCertRemotePath
        ++ " --tlskey " ++ ctx.AuthOptions.ServerKeyRemotePath ++ " "
        ++ String.join (ctx.EngineOptions.Labels.map (fun l => "--label " ++ l ++ " "))
        ++ String.join (ctx.EngineOptions.InsecureRegistry.map
            (fun r => "--insecure-registry " ++ r ++ " "))
        ++ String.join (ctx.EngineOptions.RegistryMirror.map
            (fun m => "--registry-mirror " ++ m ++ " "))
        ++ String.join (ctx.EngineOptions.ArbitraryFlags.map (fun f => "--" ++ f ++ " "))
        ++ engineConfigTmplTail := by
    apply String.ext
    simp [executeTemplate, engineConfigTmpl, String.data_join, String.data_append,
      TemplateNode.execute]
  rw [hsplit, engineConfigTmplHead_lines, engineConfigTmplExec_lines,
    engineConfigTmplTail_lines]
  apply String.ext
  simp only [daemonCommandLine, String.data_join, String.data_append, List.map_append,
    List.flatten_append, List.map_map, List.append_assoc, List.map_cons, List.map_nil,
    List.flatten_cons, List.flatten_nil, List.append_nil]
  simp only [List.cons_append, List.nil_append]
  rfl

theorem GenerateDockerOptions_text {W : Type} (c : Collaborators W)
    (p : BuildRootProvisioner) (dockerPort : Int) (w : W) :
    (BuildRootProvisioner.GenerateDockerOptions c p dockerPort w).1.1.EngineOptions
      = String.join ((unitHeaderLines
          ++ p.EngineOptions.Env.map (fun e => "Environment=\"" ++ doublePercent e ++ "\"")
          ++ unitCommentLines
          ++ [daemonCommandLine p.AuthOptions
                (p.EngineOptions.Labels ++ ["provider=" ++ p.Driver.DriverName])
                p.EngineOptions.InsecureRegistry p.EngineOptions.RegistryMirror
                p.EngineOptions.ArbitraryFlags]
          ++ unitTailLines).map (fun l => l ++ "\n")) := by
  have htext : (BuildRootProvisioner.GenerateDockerOptions c p dockerPort w).1.1.EngineOptions
      = executeTemplate engineConfigTmpl (escapeSystemdDirectives
          { DockerPort := dockerPort
            AuthOptions := p.AuthOptions
            EngineOptions :=
              { p.EngineOptions with
                Labels := p.EngineOptions.Labels ++ ["provider=" ++ p.Driver.DriverName] }
            DockerOptionsDir := "" }) := rfl
  rw [htext, executeTemplate_lines, escapeSystemdDirectives_Env]
  have hentry : ∀ l : List String,
      (l.map (fun s => "\"" ++ doublePercent s ++ "\"")).map (fun e => "Environment=" ++ e)
        = l.map (fun e => "Environment=\"" ++ doublePercent e ++ "\"") := by
    intro l
    rw [List.map_map]
    apply List.map_congr_left
    intro e _
    apply String.ext
    simp [String.data_append]
  rw [hentry]
  rfl

theorem unitLines_join (L : List String) (h : ∀ l ∈ L, '\n' ∉ l.data) :
    unitLines (String.join (L.map (fun l => l ++ "\n"))) = L ++ [""] := by
  have h1 := splitOn_lines_append (L.map String.data)
    (by
      intro l hl
      rw [List.mem_map] at hl
      obtain ⟨s, hs, rfl⟩ := hl
      exact h s hs) []
  have hdata : (String.join (L.map (fun l => l ++ "\n"))).data
      = ((L.map String.data).map (fun l => l ++ ['\n'])).flatten ++ [] := by
    simp [String.data_join, List.map_map, Function.comp_def, String.data_append]
  unfold unitLines
  rw [hdata, h1]
  simp [List.map_map, Function.comp_def]

theorem join_no_newline (pre post : String) (xs : List String)
    (hpre : '\n' ∉ pre.data) (hpost : '\n' ∉ post.data) (hxs : ∀ x ∈ xs, '\n' ∉ x.data) :
    '\n' ∉ (String.join (xs.map (fun x => pre ++ x ++ post))).data := by
  rw [String.data_join, List.map_map]
  intro hmem
  rw [List.mem_flatten] at hmem
  obtain ⟨l, hl, hc⟩ := hmem
  rw [List.mem_map] at hl
  obtain ⟨x, hx, rfl⟩ := hl
  simp only [Function.comp_apply, String.data_append, List.mem_append] at hc
  rcases hc with (hc | hc) | hc
  · exact hpre hc
  · exact hxs x hx hc
  · exact hpost hc


theorem daemonCommandLine_no_newline (ao : auth.Options)
    (labels insecureRegistry registryMirror arbitraryFlags : List String)
    (hca : '\n' ∉ ao.CaCertRemotePath.data) (hcert : '\n' ∉ ao.ServerCertRemotePath.data)
    (hkey : '\n' ∉ ao.ServerKeyRemotePath.data)
    (hl : ∀ x ∈ labels, '\n' ∉ x.data) (hr : ∀ x ∈ insecureRegistry, '\n' ∉ x.data)
    (hm : ∀ x ∈ registryMirror, '\n' ∉ x.data) (hf : ∀ x ∈ arbitraryFlags, '\n' ∉ x.data) :
    '\n' ∉ (daemonCommandLine ao labels insecureRegistry registryMirror arbitraryFlags).data := by
  have h1 := join_no_newline "--label " " " labels (by decide) (by decide) hl
  have h2 := join_no_newline "--insecure-registry " " " insecureRegistry (by decide)
    (by decide) hr
  have h3 := join_no_newline "--registry-mirror " " " registryMirror (by decide) (by decide) hm
  have h4 := join_no_newline "--" " " arbitraryFlags (by decide) (by decide) hf
  unfold daemonCommandLine
  simp only [String.data_append, List.mem_append, not_or]
  repeat' apply And.intro
  all_goals first | assumption | decide

theorem isExecStartLine_daemonCommandLine (ao : auth.Options)
    (labels insecureRegistry registryMirror arbitraryFlags : List String) :
    isExecStartLine
      (daemonCommandLine ao labels insecureRegistry registryMirror arbitraryFlags) = true := by
  unfold isExecStartLine stringsHasPrefix daemonCommandLine
  simp only [decide_eq_true_eq, String.data_append, List.append_assoc]
  exact ⟨_, rfl⟩

theorem isExecStartLine_environment (e : String) :
    isExecStartLine ("Environment=\"" ++ e ++ "\"") = false := by
  unfold isExecStartLine stringsHasPrefix
  simp only [decide_eq_false_iff_not, String.data_append]
  rintro ⟨t, ht⟩
  simp at ht

/-- The lines of the rendered unit that start with `ExecStart=`, when no rendered string holds
a newline: the line that clears the inherited command, then the daemon command line. -/
theorem GenerateDockerOptions_ExecStart_lines {W : Type} (c : Collaborators W)
    (p : BuildRootProvisioner) (dockerPort : Int) (w : W)
    (hnl : ∀ s ∈ p.renderedStrings, '\n' ∉ s.data) :
    (unitLines (BuildRootProvisioner.GenerateDockerOptions c p dockerPort
        w).1.1.EngineOptions).filter isExecStartLine
      = ["ExecStart=",
          daemonCommandLine p.AuthOptions
            (p.EngineOptions.Labels ++ ["provider=" ++ p.Driver.DriverName])
            p.EngineOptions.InsecureRegistry p.EngineOptions.RegistryMirror
            p.EngineOptions.ArbitraryFlags] := by
  have hmem : ∀ s, s ∈ p.renderedStrings → '\n' ∉ s.data := hnl
  simp only [BuildRootProvisioner.renderedStrings, List.mem_append, List.mem_cons,
    List.mem_singleton, List.not_mem_nil, or_false] at hmem
  have hdaemon := daemonCommandLine_no_newline p.AuthOptions
    (p.EngineOptions.Labels ++ ["provider=" ++ p.Driver.DriverName])
    p.EngineOptions.InsecureRegistry p.EngineOptions.RegistryMirror
    p.EngineOptions.ArbitraryFlags
    (hmem _ (by simp)) (hmem _ (by simp)) (hmem _ (by simp))
    (by
      intro x hx
      rw [List.mem_append, List.mem_singleton] at hx
      rcases hx with hx | hx
      · exact hmem x (by simp [hx])
      · rw [hx, String.data_append, List.mem_append, not_or]
        exact ⟨by decide, hmem _ (by simp)⟩)
    (fun x hx => hmem x (by simp [hx])) (fun x hx => hmem x (by simp [hx]))
    (fun x hx => hmem x (by simp [hx]))
  rw [GenerateDockerOptions_text, unitLines_join]
  · simp only [List.filter_append, List.filter_cons, List.filter_nil,
      isExecStartLine_daemonCommandLine, if_true]
    have hh : unitHeaderLines.filter isExecStartLine = [] := by decide
    have hc : unitCommentLines.filter isExecStartLine = ["ExecStart="] := by decide
    have ht : unitTailLines.filter isExecStartLine = [] := by decide
    have he : (p.EngineOptions.Env.map
        (fun e => "Environment=\"" ++ doublePercent e ++ "\"")).filter isExecStartLine
          = [] := by
      rw [List.filter_eq_nil_iff]
      intro l hl
      rw [List.mem_map] at hl
      obtain ⟨e, _, rfl⟩ := hl
      simp [isExecStartLine_environment]
    have hempty : isExecStartLine "" = false := by decide
    rw [hh, hc, ht, he]
    simp [hempty]
  · intro l hl
    simp only [List.mem_append, List.mem_map, List.mem_singleton] at hl
    rcases hl with (((hl | ⟨e, he, rfl⟩) | hl) | hl) | hl
    · exact (by decide : ∀ l ∈ unitHeaderLines, '\n' ∉ l.data) l hl
    · have := doublePercent_no_newline e (hmem e (by simp [he]))
      simp only [String.data_append, List.mem_append, not_or]
      exact ⟨⟨by decide, this⟩, by decide⟩
    · exact (by decide : ∀ l ∈ unitCommentLines, '\n' ∉ l.data) l hl
    · rw [hl]
      exact hdaemon
    · exact (by decide : ∀ l ∈ unitTailLines, '\n' ∉ l.data) l hl

/-! ## C11 -/

/-- C11: the unit rendered by `GenerateDockerOptions` is, line by line, the header, one line
per environment entry, the comment ending with the line `ExecStart=`, then the daemon command
line, then the tail; the daemon command line carries `--tlscacert`, `--tlscert` and `--tlskey`
followed by the three remote paths of the auth options and then, once per entry and in list
order, `--label l ` for the given labels followed by `provider=` and the driver name,
`--insecure-registry r `, `--registry-mirror m ` and `--f `.  When no rendered string holds a
newline, it is the second of the two lines of the unit that start with `ExecStart=`. -/
theorem GenerateDockerOptions_daemon_command_line {W : Type} (c : Collaborators W)
    (p : BuildRootProvisioner) (dockerPort : Int) (w : W) :
    (BuildRootProvisioner.GenerateDockerOptions c p dockerPort w).1.1.EngineOptions
      = String.join ((unitHeaderLines
          ++ p.EngineOptions.Env.map (fun e => "Environment=\"" ++ doublePercent e ++ "\"")
          ++ unitCommentLines
          ++ [daemonCommandLine p.AuthOptions
                (p.EngineOptions.Labels ++ ["provider=" ++ p.Driver.DriverName])
                p.EngineOptions.InsecureRegistry p.EngineOptions.RegistryMirror
                p.EngineOptions.ArbitraryFlags]
          ++ unitTailLines).map (fun l => l ++ "\n"))
    ∧ ((∀ s ∈ p.renderedStrings, '\n' ∉ s.data) →
        (unitLines (BuildRootProvisioner.GenerateDockerOptions c p dockerPort
            w).1.1.EngineOptions).filter isExecStartLine
          = ["ExecStart=",
              daemonCommandLine p.AuthOptions
                (p.EngineOptions.Labels ++ ["provider=" ++ p.Driver.DriverName])
                p.EngineOptions.InsecureRegistry p.EngineOptions.RegistryMirror
                p.EngineOptions.ArbitraryFlags]) :=
  ⟨GenerateDockerOptions_text c p dockerPort w,
    GenerateDockerOptions_ExecStart_lines c p dockerPort w⟩

set_option maxRecDepth 100000 in
theorem GenerateDockerOptions_daemon_command_line_witness :
    (unitLines (BuildRootProvisioner.GenerateDockerOptions (quietCollaborators [])
        (sampleBuildRootWith ["env=dev"] ["10.0.0.1:5000", "10.0.0.2:5000"]
          ["https://mirror.example"] ["debug", "bip=10.1.0.1/16"])
        2376 ()).1.1.EngineOptions).filter isExecStartLine
      = ["ExecStart=",
          "ExecStart=/usr/bin/dockerd -H tcp://0.0.0.0:2376 -H unix:///var/run/docker.sock --default-ulimit=nofile=1048576:1048576 --tlsverify --tlscacert /ca.pem --tlscert /server.pem --tlskey /server-key.pem --label env=dev --label provider=none --insecure-registry 10.0.0.1:5000 --insecure-registry 10.0.0.2:5000 --registry-mirror https://mirror.example --debug --bip=10.1.0.1/16 "] :=
  (GenerateDockerOptions_daemon_command_line (quietCollaborators [])
    (sampleBuildRootWith ["env=dev"] ["10.0.0.1:5000", "10.0.0.2:5000"]
      ["https://mirror.example"] ["debug", "bip=10.1.0.1/16"]) 2376 ()).2 (by decide)

/-! ## C12 -/

theorem daemonCommandLine_endpoint (ao : auth.Options)
    (labels insecureRegistry registryMirror arbitraryFlags : List String) :
    ∃ args : String,
      daemonCommandLine ao labels insecureRegistry registryMirror arbitraryFlags
        = "ExecStart=/usr/bin/dockerd -H tcp://0.0.0.0:2376 " ++ args := by
  refine ⟨"-H unix:///var/run/docker.sock --default-ulimit=nofile=1048576:1048576 --tlsverify"
    ++ " --tlscacert " ++ ao.CaCertRemotePath
    ++ " --tlscert " ++ ao.ServerCertRemotePath
    ++ " --tlskey " ++ ao.ServerKeyRemotePath ++ " "
    ++ String.join (labels.map (fun l => "--label " ++ l ++ " "))
    ++ String.join (insecureRegistry.map (fun r => "--insecure-registry " ++ r ++ " "))
    ++ String.join (registryMirror.map (fun m => "--registry-mirror " ++ m ++ " "))
    ++ String.join (arbitraryFlags.map (fun f => "--" ++ f ++ " ")), ?_⟩
  apply String.ext
  simp only [daemonCommandLine, String.data_append, List.append_assoc]
  rfl

/-- C12: the result of `GenerateDockerOptions` does not depend on `dockerPort`: for two ports
the returned options (text and path), the error and the state are the same; the path is
`/lib/systemd/system/docker.service`; and the daemon command line, which follows the header,
the environment lines and the comment, starts with
`ExecStart=/usr/bin/dockerd -H tcp://0.0.0.0:2376 `. -/
theorem GenerateDockerOptions_ignores_dockerPort {W : Type} (c : Collaborators W)
    (p : BuildRootProvisioner) (port1 port2 : Int) (w : W) :
    BuildRootProvisioner.GenerateDockerOptions c p port1 w
      = BuildRootProvisioner.GenerateDockerOptions c p port2 w
    ∧ (BuildRootProvisioner.GenerateDockerOptions c p port1 w).1.1.EngineOptionsPath
        = "/lib/systemd/system/docker.service"
    ∧ ∃ args : String,
        (BuildRootProvisioner.GenerateDockerOptions c p port1 w).1.1.EngineOptions
          = String.join ((unitHeaderLines
              ++ p.EngineOptions.Env.map (fun e => "Environment=\"" ++ doublePercent e ++ "\"")
              ++ unitCommentLines).map (fun l => l ++ "\n"))
            ++ "ExecStart=/usr/bin/dockerd -H tcp://0.0.0.0:2376 " ++ args := by
  refine ⟨rfl, rfl, ?_⟩
  obtain ⟨args, hargs⟩ := daemonCommandLine_endpoint p.AuthOptions
    (p.EngineOptions.Labels ++ ["provider=" ++ p.Driver.DriverName])
    p.EngineOptions.InsecureRegistry p.EngineOptions.RegistryMirror
    p.EngineOptions.ArbitraryFlags
  refine ⟨args ++ "\n" ++ String.join (unitTailLines.map (fun l => l ++ "\n")), ?_⟩
  rw [GenerateDockerOptions_text, hargs]
  apply String.ext
  simp only [String.data_join, String.data_append, List.map_append, List.flatten_append,
    List.map_map, List.append_assoc, List.map_cons, List.map_nil, List.flatten_cons,
    List.flatten_nil, List.append_nil, Function.comp_apply]

theorem GenerateDockerOptions_ignores_dockerPort_witness :
    BuildRootProvisioner.GenerateDockerOptions (quietCollaborators [])
        (sampleBuildRoot ["A=b"]) 2376 ()
      = BuildRootProvisioner.GenerateDockerOptions (quietCollaborators [])
        (sampleBuildRoot ["A=b"]) 4243 () :=
  (GenerateDockerOptions_ignores_dockerPort (quietCollaborators [])
    (sampleBuildRoot ["A=b"]) 2376 4243 ()).1

/-! ## C13 -/

theorem defaultStorageDriver_SwarmOptions (p : BuildRootProvisioner) :
    (BuildRootProvisioner.defaultStorageDriver p).SwarmOptions = p.SwarmOptions := by
  unfold BuildRootProvisioner.defaultStorageDriver
  split <;> rfl

theorem provisionBody_SwarmOptions {W : Type} (c : Collaborators W) (p : BuildRootProvisioner)
    (swarmOptions : swarm.Options) (authOptions : auth.Options)
    (engineOptions : engine.Options) (w : W) :
    (BuildRootProvisioner.provisionBody c p swarmOptions authOptions engineOptions
        w).2.1.SwarmOptions = swarmOptions := by
  have h2 : ∀ p1 : BuildRootProvisioner, p1.SwarmOptions = swarmOptions →
      (BuildRootProvisioner.defaultStorageDriver p1).SwarmOptions = swarmOptions := by
    intro p1 h1
    rw [defaultStorageDriver_SwarmOptions, h1]
  unfold BuildRootProvisioner.provisionBody
  simp only []
  split
  · exact h2 _ rfl
  · split
    · exact h2 _ rfl
    · split
      · exact h2 _ rfl
      · exact h2 _ rfl

theorem provisionInstall_SwarmOptions {W : Type} (c : Collaborators W) (p : SUSEProvisioner)
    (swarmOptions : swarm.Options) (w : W) :
    (SUSEProvisioner.provisionInstall c p swarmOptions w).2.1.SwarmOptions
      = p.SwarmOptions := by
  unfold SUSEProvisioner.provisionInstall
  simp only []
  repeat' split
  all_goals rfl

theorem SUSEProvisioner_Provision_SwarmOptions {W : Type} (c : Collaborators W)
    (p : SUSEProvisioner) (swarmOptions : swarm.Options) (authOptions : auth.Options)
    (engineOptions : engine.Options) (w : W) :
    (SUSEProvisioner.Provision c p swarmOptions authOptions engineOptions
        w).2.1.SwarmOptions = swarmOptions := by
  unfold SUSEProvisioner.Provision
  simp only []
  split
  · rfl
  split
  · rfl
  split
  · rfl
  split
  · rw [provisionInstall_SwarmOptions]
  · split
    · rfl
    · rw [provisionInstall_SwarmOptions]

/-- C13: `Provision` stores the swarm options the caller passed and copies
`engineOptions.Env` into its local argument only: with collaborators that leave the stored
bundle alone, after `Provision` of the buildroot provisioner `GetSwarmOptions` returns the
swarm options the caller passed, and after `Provision` of the SUSE provisioner the stored
swarm options are the ones the caller passed; in both their `Env` is the caller's
`swarmOptions.Env`, whatever `engineOptions.Env` is. -/
theorem Provision_keeps_given_swarm_Env {W : Type} (c : Collaborators W)
    (swarmOptions : swarm.Options) (authOptions : auth.Options)
    (engineOptions : engine.Options) (w : W) :
    (∀ p : BuildRootProvisioner,
      (BuildRootProvisioner.Provision c p swarmOptions authOptions engineOptions
        w).2.1.GetSwarmOptions = swarmOptions
      ∧ (BuildRootProvisioner.Provision c p swarmOptions authOptions engineOptions
        w).2.1.GetSwarmOptions.Env = swarmOptions.Env)
    ∧ (∀ p : SUSEProvisioner,
      (SUSEProvisioner.Provision c p swarmOptions authOptions engineOptions
        w).2.1.SwarmOptions = swarmOptions
      ∧ (SUSEProvisioner.Provision c p swarmOptions authOptions engineOptions
        w).2.1.SwarmOptions.Env = swarmOptions.Env) := by
  constructor
  · intro p
    have hb := provisionBody_SwarmOptions c p swarmOptions authOptions engineOptions w
    have h : (BuildRootProvisioner.Provision c p swarmOptions authOptions engineOptions
        w).2.1.SwarmOptions = swarmOptions := by
      unfold BuildRootProvisioner.Provision
      split
      · next p1 w1 heq =>
        rw [heq] at hb
        exact hb
      · next err p1 w1 heq =>
        rw [heq] at hb
        exact hb
    exact ⟨h, by rw [BuildRootProvisioner.GetSwarmOptions, h]⟩
  · intro p
    have h := SUSEProvisioner_Provision_SwarmOptions c p swarmOptions authOptions
      engineOptions w
    exact ⟨h, by rw [h]⟩

set_option maxRecDepth 100000 in
theorem Provision_keeps_given_swarm_Env_witness :
    (BuildRootProvisioner.Provision (quietCollaborators []) (sampleBuildRoot [])
        { Env := ["X=1"], Cluster := "c" } (sampleState "buildroot" []).AuthOptions
        (sampleState "buildroot" ["A=b"]).EngineOptions ()).2.1.GetSwarmOptions.Env = ["X=1"]
    ∧ (BuildRootProvisioner.Provision (quietCollaborators []) (sampleBuildRoot [])
        { Env := ["X=1"], Cluster := "c" } (sampleState "buildroot" []).AuthOptions
        (sampleState "buildroot" ["A=b"]).EngineOptions ()).2.1.EngineOptions.Env = ["A=b"] :=
  ⟨((Provision_keeps_given_swarm_Env (quietCollaborators [])
      { Env := ["X=1"], Cluster := "c" } (sampleState "buildroot" []).AuthOptions
      (sampleState "buildroot" ["A=b"]).EngineOptions ()).1 (sampleBuildRoot [])).2,
    by decide⟩

/-! ## The lines of the rendered unit -/

/-- The lines of the rendered unit when no rendered string holds a newline. -/
theorem GenerateDockerOptions_unitLines {W : Type} (c : Collaborators W)
    (p : BuildRootProvisioner) (dockerPort : Int) (w : W)
    (hnl : ∀ s ∈ p.renderedStrings, '\n' ∉ s.data) :
    unitLines (BuildRootProvisioner.GenerateDockerOptions c p dockerPort w).1.1.EngineOptions
      = unitHeaderLines
          ++ p.EngineOptions.Env.map (fun e => "Environment=\"" ++ doublePercent e ++ "\"")
          ++ unitCommentLines
          ++ [daemonCommandLine p.AuthOptions
                (p.EngineOptions.Labels ++ ["provider=" ++ p.Driver.DriverName])
                p.EngineOptions.InsecureRegistry p.EngineOptions.RegistryMirror
                p.EngineOptions.ArbitraryFlags]
          ++ unitTailLines ++ [""] := by
  have hmem : ∀ s, s ∈ p.renderedStrings → '\n' ∉ s.data := hnl
  simp only [BuildRootProvisioner.renderedStrings, List.mem_append, List.mem_cons,
    List.mem_singleton, List.not_mem_nil, or_false] at hmem
  have hdaemon := daemonCommandLine_no_newline p.AuthOptions
    (p.EngineOptions.Labels ++ ["provider=" ++ p.Driver.DriverName])
    p.EngineOptions.InsecureRegistry p.EngineOptions.RegistryMirror
    p.EngineOptions.ArbitraryFlags
    (hmem _ (by simp)) (hmem _ (by simp)) (hmem _ (by simp))
    (by
      intro x hx
      rw [List.mem_append, List.mem_singleton] at hx
      rcases hx with hx | hx
      · exact hmem x (by simp [hx])
      · rw [hx, String.data_append, List.mem_append, not_or]
        exact ⟨by decide, hmem _ (by simp)⟩)
    (fun x hx => hmem x (by simp [hx])) (fun x hx => hmem x (by simp [hx]))
    (fun x hx => hmem x (by simp [hx]))
  rw [GenerateDockerOptions_text, unitLines_join]
  intro l hl
  simp only [List.mem_append, List.mem_map, List.mem_singleton] at hl
  rcases hl with (((hl | ⟨e, he, rfl⟩) | hl) | hl) | hl
  · exact (by decide : ∀ l ∈ unitHeaderLines, '\n' ∉ l.data) l hl
  · have := doublePercent_no_newline e (hmem e (by simp [he]))
    simp only [String.data_append, List.mem_append, not_or]
    exact ⟨⟨by decide, this⟩, by decide⟩
  · exact (by decide : ∀ l ∈ unitCommentLines, '\n' ∉ l.data) l hl
  · rw [hl]
    exact hdaemon
  · exact (by decide : ∀ l ∈ unitTailLines, '\n' ∉ l.data) l hl

theorem isEnvironmentLine_daemonCommandLine (ao : auth.Options)
    (labels insecureRegistry registryMirror arbitraryFlags : List String) :
    isEnvironmentLine
      (daemonCommandLine ao labels insecureRegistry registryMirror arbitraryFlags) = false := by
  have hexec := isExecStartLine_daemonCommandLine ao labels insecureRegistry registryMirror
    arbitraryFlags
  unfold isExecStartLine stringsHasPrefix at hexec
  unfold isEnvironmentLine stringsHasPrefix
  simp only [decide_eq_true_eq] at hexec
  simp only [decide_eq_false_iff_not]
  obtain ⟨t1, ht1⟩ := hexec
  rintro ⟨t2, ht2⟩
  have h0 := congrArg (fun l => l.get? 1) (ht1.trans ht2.symm)
  simp at h0

theorem isEnvironmentLine_environment (e : String) :
    isEnvironmentLine ("Environment=\"" ++ e ++ "\"") = true := by
  unfold isEnvironmentLine stringsHasPrefix
  simp only [decide_eq_true_eq, String.data_append, List.append_assoc]
  exact ⟨_, rfl⟩

/-- The line of an entry `KEY=value`. -/
theorem environment_line_of_entry (k v : String) :
    "Environment=\"" ++ doublePercent (k ++ "=" ++ v) ++ "\""
      = "Environment=\"" ++ doublePercent k ++ "=" ++ doublePercent v ++ "\"" := by
  have h1 : doublePercent "=" = "=" := by decide
  rw [doublePercent_append, doublePercent_append, h1]
  apply String.ext
  simp [String.data_append]

/-! ## C3: the environment lines of the rendered unit -/

/-- C3 (amended): when the entries of `EngineOptions.Env` are `KEY=value`, the unit rendered by
`GenerateDockerOptions` is, line by line: the lines of the header, then for each entry in order
the line `Environment="K=V"`, where `K` and `V` are the key and the value with every `%`
doubled (the whole escaped entry, key included, stands between the quotes), then the comment
lines, the daemon command line and the lines of the tail, every line followed by a newline.
When no rendered string holds a newline, these are the lines of the unit, and the lines that
start with `Environment=` are exactly the lines of the entries, one per entry, in order. -/
theorem GenerateDockerOptions_environment_lines {W : Type} (c : Collaborators W)
    (p : BuildRootProvisioner) (dockerPort : Int) (w : W) (kvs : List (String × String))
    (hEnv : p.EngineOptions.Env = kvs.map (fun kv => kv.1 ++ "=" ++ kv.2)) :
    (BuildRootProvisioner.GenerateDockerOptions c p dockerPort w).1.1.EngineOptions
        = String.join ((unitHeaderLines
            ++ kvs.map (fun kv =>
                "Environment=\"" ++ doublePercent kv.1 ++ "=" ++ doublePercent kv.2 ++ "\"")
            ++ unitCommentLines
            ++ [daemonCommandLine p.AuthOptions
                  (p.EngineOptions.Labels ++ ["provider=" ++ p.Driver.DriverName])
                  p.EngineOptions.InsecureRegistry p.EngineOptions.RegistryMirror
                  p.EngineOptions.ArbitraryFlags]
            ++ unitTailLines).map (fun l => l ++ "\n"))
    ∧ ((∀ s ∈ p.renderedStrings, '\n' ∉ s.data) →
        unitLines (BuildRootProvisioner.GenerateDockerOptions c p dockerPort
            w).1.1.EngineOptions
          = unitHeaderLines
            ++ kvs.map (fun kv =>
                "Environment=\"" ++ doublePercent kv.1 ++ "=" ++ doublePercent kv.2 ++ "\"")
            ++ unitCommentLines
            ++ [daemonCommandLine p.AuthOptions
                  (p.EngineOptions.Labels ++ ["provider=" ++ p.Driver.DriverName])
                  p.EngineOptions.InsecureRegistry p.EngineOptions.RegistryMirror
                  p.EngineOptions.ArbitraryFlags]
            ++ unitTailLines ++ [""]
        ∧ (unitLines (BuildRootProvisioner.GenerateDockerOptions c p dockerPort
            w).1.1.EngineOptions).filter isEnvironmentLine
          = kvs.map (fun kv =>
              "Environment=\"" ++ doublePercent kv.1 ++ "=" ++ doublePercent kv.2 ++ "\"")) := by
  have hlines : p.EngineOptions.Env.map (fun e => "Environment=\"" ++ doublePercent e ++ "\"")
      = kvs.map (fun kv =>
          "Environment=\"" ++ doublePercent kv.1 ++ "=" ++ doublePercent kv.2 ++ "\"") := by
    rw [hEnv, List.map_map]
    apply List.map_congr_left
    intro kv _
    exact environment_line_of_entry kv.1 kv.2
  refine ⟨?_, fun hnl => ?_⟩
  · rw [GenerateDockerOptions_text, hlines]
  · have hall := GenerateDockerOptions_unitLines c p dockerPort w hnl
    rw [hlines] at hall
    refine ⟨hall, ?_⟩
    rw [hall]
    have hh : unitHeaderLines.filter isEnvironmentLine = [] := by decide
    have hc : unitCommentLines.filter isEnvironmentLine = [] := by decide
    have ht : unitTailLines.filter isEnvironmentLine = [] := by decide
    have hempty : isEnvironmentLine "" = false := by decide
    have he : (kvs.map (fun kv =>
          "Environment=\"" ++ doublePercent kv.1 ++ "=" ++ doublePercent kv.2 ++ "\"")).filter
            isEnvironmentLine
        = kvs.map (fun kv =>
          "Environment=\"" ++ doublePercent kv.1 ++ "=" ++ doublePercent kv.2 ++ "\"") := by
      rw [List.filter_eq_self]
      intro l hl
      rw [List.mem_map] at hl
      obtain ⟨kv, _, rfl⟩ := hl
      rw [← environment_line_of_entry]
      exact isEnvironmentLine_environment _
    simp only [List.filter_append, List.filter_cons, List.filter_nil, hh, hc, ht, he, hempty,
      isEnvironmentLine_daemonCommandLine]
    simp

set_option maxRecDepth 100000 in
/-- C3 (amended), on an instance: two entries, one of them with a `%`. -/
theorem GenerateDockerOptions_environment_lines_witness :
    (sampleBuildRoot ["A=b", "P=100%"]).EngineOptions.Env
        = [("A", "b"), ("P", "100%")].map (fun kv => kv.1 ++ "=" ++ kv.2)
    ∧ (∀ s ∈ (sampleBuildRoot ["A=b", "P=100%"]).renderedStrings, '\n' ∉ s.data)
    ∧ (unitLines (BuildRootProvisioner.GenerateDockerOptions (quietCollaborators [])
          (sampleBuildRoot ["A=b", "P=100%"]) 2376 ()).1.1.EngineOptions).filter
            isEnvironmentLine
        = ["Environment=\"A=b\"", "Environment=\"P=100%%\""] :=
  ⟨by decide, by decide,
    ((GenerateDockerOptions_environment_lines (quietCollaborators [])
      (sampleBuildRoot ["A=b", "P=100%"]) 2376 () [("A", "b"), ("P", "100%")]
      (by decide)).2 (by decide)).2⟩

set_option maxRecDepth 100000 in
/-- C3, as stated, fails: for the entry `A=b` the rendered unit has no line
`Environment=A="b"`; its line is `Environment="A=b"`.  And a line holds no newline: for the
entry `A=b`, newline, `c` the unit has the lines `Environment="A=b` and `c"`, and a label with
a newline before `Environment=y` gives a line that starts with `Environment=` and belongs to
no entry. -/
theorem GenerateDockerOptions_quotes_whole_entry :
    ("Environment=A=\"b\""
        ∉ unitLines (BuildRootProvisioner.GenerateDockerOptions (quietCollaborators [])
            (sampleBuildRoot ["A=b"]) 2376 ()).1.1.EngineOptions
    ∧ "Environment=\"A=b\""
        ∈ unitLines (BuildRootProvisioner.GenerateDockerOptions (quietCollaborators [])
            (sampleBuildRoot ["A=b"]) 2376 ()).1.1.EngineOptions)
    ∧ (unitLines (BuildRootProvisioner.GenerateDockerOptions (quietCollaborators [])
          (sampleBuildRoot ["A=b\nc"]) 2376 ()).1.1.EngineOptions).filter isEnvironmentLine
        = ["Environment=\"A=b"]
    ∧ (unitLines (BuildRootProvisioner.GenerateDockerOptions (quietCollaborators [])
          (sampleBuildRootWith ["x\nEnvironment=y"] [] [] []) 2376
          ()).1.1.EngineOptions).filter isEnvironmentLine
        = ["Environment=y --label provider=none "] := by
  decide

/-! ## Reading a command line -/

theorem lexFrom_append (s : LexState) (xs ys : List Char) :
    lexFrom s (xs ++ ys) = (lexFrom s xs).bind (fun s1 => lexFrom s1 ys) := by
  simp [lexFrom, List.foldlM_append]

theorem lexFrom_cons (s : LexState) (c : Char) (cs : List Char) :
    lexFrom s (c :: cs) = (lexStep s c).bind (fun s1 => lexFrom s1 cs) := by
  simp [lexFrom, List.foldlM_cons]

theorem lexNormal_after (pre : List ShellToken) (s : LexState) (c : Char) :
    lexNormal (s.after pre) c = (lexNormal s c).map (LexState.after pre) := by
  unfold lexNormal
  by_cases h1 : c = ' '
  · simp only [if_pos h1]; cases hw : s.word <;> simp [LexState.after, LexState.flush, hw]
  simp only [if_neg h1]
  by_cases h2 : c = '\x22'
  · simp only [if_pos h2]; simp [LexState.after]
  simp only [if_neg h2]
  by_cases h3 : c = ';'
  · simp only [if_pos h3]; cases hw : s.word <;> simp [LexState.after, LexState.flush, hw]
  simp only [if_neg h3]
  by_cases h4 : c = '&'
  · simp only [if_pos h4]; cases hw : s.word <;> simp [LexState.after, LexState.flush, hw]
  simp only [if_neg h4]
  by_cases h5 : c = '|'
  · simp only [if_pos h5]; cases hw : s.word <;> simp [LexState.after, LexState.flush, hw]
  simp only [if_neg h5]
  by_cases h6 : c = '\x7b'
  · simp only [if_pos h6]; cases hw : s.word <;> simp [LexState.after, hw]
  simp only [if_neg h6]
  by_cases h7 : c = '\x7d'
  · simp only [if_pos h7]; cases hw : s.word <;> simp [LexState.after, hw]
  simp only [if_neg h7]
  by_cases h8 : isPlainChar c = true
  · simp only [if_pos h8]; simp [LexState.after]
  · simp only [if_neg h8]; simp

theorem lexStep_after (pre : List ShellToken) (s : LexState) (c : Char) :
    lexStep (s.after pre) c = (lexStep s c).map (LexState.after pre) := by
  cases hm : s.mode
  · have h1 : lexStep (s.after pre) c = lexNormal (s.after pre) c := by
      simp [lexStep, LexState.after, hm]
    have h2 : lexStep s c = lexNormal s c := by simp [lexStep, hm]
    rw [h1, h2, lexNormal_after]
  · simp only [lexStep, LexState.after, hm]
    split_ifs <;> simp [LexState.after]
  · simp [lexStep, LexState.after, hm]
  · simp only [lexStep, LexState.after, hm]
    split_ifs <;> simp [LexState.after]
  · simp only [lexStep, LexState.after, hm]
    split_ifs
    · simp [LexState.after]
    · have := lexNormal_after pre { s with tokens := s.tokens ++ [ShellToken.pipe], mode := .normal } c
      simpa [LexState.after] using this
  · simp only [lexStep, LexState.after, hm]
    split_ifs
    · have := lexNormal_after pre { s with mode := .normal } c
      simpa [LexState.after] using this
    · simp

theorem lexFrom_after (pre : List ShellToken) (cs : List Char) (s : LexState) :
    lexFrom (s.after pre) cs = (lexFrom s cs).map (LexState.after pre) := by
  induction cs generalizing s with
  | nil => simp [lexFrom]
  | cons c cs ih =>
    rw [lexFrom_cons, lexFrom_cons, lexStep_after]
    cases h : lexStep s c with
    | none => simp
    | some s1 => simp [ih]

theorem isPlainChar_lexNormal (s : LexState) (c : Char) (hc : isPlainChar c = true) :
    lexNormal s c = some { s with word := some (s.word.getD [] ++ [c]) } := by
  have h1 : c ≠ ' ' := by rintro rfl; revert hc; decide
  have h2 : c ≠ '\x22' := by rintro rfl; revert hc; decide
  have h3 : c ≠ ';' := by rintro rfl; revert hc; decide
  have h4 : c ≠ '&' := by rintro rfl; revert hc; decide
  have h5 : c ≠ '|' := by rintro rfl; revert hc; decide
  have h6 : c ≠ '\x7b' := by rintro rfl; revert hc; decide
  have h7 : c ≠ '\x7d' := by rintro rfl; revert hc; decide
  unfold lexNormal
  rw [if_neg h1, if_neg h2, if_neg h3, if_neg h4, if_neg h5, if_neg h6, if_neg h7, if_pos hc]

theorem lexFrom_plain (T : List ShellToken) (cs : List Char) :
    ∀ w : List Char, (∀ c ∈ cs, isPlainChar c = true) →
      lexFrom { tokens := T, word := some w, mode := .normal } cs
        = some { tokens := T, word := some (w ++ cs), mode := .normal } := by
  induction cs with
  | nil => intro w _; simp [lexFrom]
  | cons c cs ih =>
    intro w h
    have hc : isPlainChar c = true := h c (List.mem_cons_self _ _)
    rw [lexFrom_cons]
    have : lexStep { tokens := T, word := some w, mode := .normal } c
        = some { tokens := T, word := some (w ++ [c]), mode := .normal } := by
      simp [lexStep, isPlainChar_lexNormal _ _ hc]
    rw [this]
    simp only [Option.some_bind]
    rw [ih (w ++ [c]) (fun d hd => h d (List.mem_cons_of_mem _ hd))]
    simp

theorem lexFrom_quoted (T : List ShellToken) (cs : List Char) :
    ∀ w : List Char, (∀ c ∈ cs, isQuotedChar c = true) →
      lexFrom { tokens := T, word := some w, mode := .quoted } cs
        = some { tokens := T, word := some (w ++ cs), mode := .quoted } := by
  induction cs with
  | nil => intro w _; simp [lexFrom]
  | cons c cs ih =>
    intro w h
    have hc : isQuotedChar c = true := h c (List.mem_cons_self _ _)
    have h2 : c ≠ '\x22' := by rintro rfl; revert hc; decide
    have h3 : c ≠ '\\' := by rintro rfl; revert hc; decide
    rw [lexFrom_cons]
    have : lexStep { tokens := T, word := some w, mode := .quoted } c
        = some { tokens := T, word := some (w ++ [c]), mode := .quoted } := by
      simp [lexStep, h2, h3, hc]
    rw [this]
    simp only [Option.some_bind]
    rw [ih (w ++ [c]) (fun d hd => h d (List.mem_cons_of_mem _ hd))]
    simp

/-- A piece of text without parameters, read between two words. -/
theorem lexFrom_literal (T ts : List ShellToken) (wd : Option (List Char)) (m : LexMode)
    (seg rest : List Char)
    (hseg : lexFrom { tokens := [], word := none, mode := .normal } seg
      = some { tokens := ts, word := wd, mode := m }) :
    lexFrom { tokens := T, word := none, mode := .normal } (seg ++ rest)
      = lexFrom { tokens := T ++ ts, word := wd, mode := m } rest := by
  have h0 : ({ tokens := T, word := none, mode := .normal } : LexState)
      = LexState.after T { tokens := [], word := none, mode := .normal } := by
    simp [LexState.after]
  rw [lexFrom_append, h0, lexFrom_after, hseg]
  simp [LexState.after]

/-- A word without quotes, read at the start of a word. -/
theorem lexFrom_word (T : List ShellToken) (w : String) (rest : List Char)
    (hw : isShellWord w = true) :
    lexFrom { tokens := T, word := none, mode := .normal } (w.data ++ rest)
      = lexFrom { tokens := T, word := some w.data, mode := .normal } rest := by
  simp only [isShellWord, Bool.and_eq_true, Bool.not_eq_true', List.all_eq_true] at hw
  obtain ⟨hne, hall⟩ := hw
  cases hd : w.data with
  | nil => simp [hd] at hne
  | cons c cs =>
    rw [hd] at hall
    have hc : isPlainChar c = true := hall c (List.mem_cons_self _ _)
    rw [List.cons_append, lexFrom_cons]
    have : lexStep { tokens := T, word := none, mode := .normal } c
        = some { tokens := T, word := some [c], mode := .normal } := by
      simp [lexStep, isPlainChar_lexNormal _ _ hc]
    rw [this]
    simp only [Option.some_bind]
    rw [lexFrom_append, lexFrom_plain T cs [c] (fun d hd => hall d (List.mem_cons_of_mem _ hd))]
    simp

/-- More plain characters of a word. -/
theorem lexFrom_more (T : List ShellToken) (w cs rest : List Char)
    (hcs : cs.all isPlainChar = true) :
    lexFrom { tokens := T, word := some w, mode := .normal } (cs ++ rest)
      = lexFrom { tokens := T, word := some (w ++ cs), mode := .normal } rest := by
  rw [lexFrom_append, lexFrom_plain T cs w (by simpa [List.all_eq_true] using hcs)]
  simp

/-- A blank ends the word. -/
theorem lexFrom_blank (T : List ShellToken) (w rest : List Char) :
    lexFrom { tokens := T, word := some w, mode := .normal } (' ' :: rest)
      = lexFrom { tokens := T ++ [ShellToken.word (String.mk w)], word := none, mode := .normal }
          rest := by
  rw [lexFrom_cons]
  simp [lexStep, lexNormal, LexState.flush]

/-- A semicolon ends the word. -/
theorem lexFrom_semi (T : List ShellToken) (w rest : List Char) :
    lexFrom { tokens := T, word := some w, mode := .normal } (';' :: rest)
      = lexFrom
          { tokens := T ++ [ShellToken.word (String.mk w), ShellToken.semi], word := none, mode := .normal }
          rest := by
  rw [lexFrom_cons]
  simp [lexStep, lexNormal, LexState.flush]

/-- A text between double quotes, up to the closing quote. -/
theorem lexFrom_quotedText (T : List ShellToken) (w : List Char) (q : String) (rest : List Char)
    (hq : isQuotedText q = true) :
    lexFrom { tokens := T, word := some w, mode := .quoted } (q.data ++ '\x22' :: rest)
      = lexFrom { tokens := T, word := some (w ++ q.data), mode := .normal } rest := by
  rw [lexFrom_append,
    lexFrom_quoted T q.data w (by simpa [isQuotedText, List.all_eq_true] using hq)]
  simp only [Option.some_bind]
  rw [lexFrom_cons]
  simp [lexStep]

set_option maxRecDepth 100000 in
theorem lex_writeNewCommand (dir content dst : String) (hdir : isShellWord dir = true)
    (hcontent : isQuotedText content = true) (hdst : isShellWord dst = true) :
    lex (writeNewCommand dir content dst)
      = some [.word "sudo", .word "mkdir", .word "-p", .word dir, .andIf, .word "printf",
          .word "%s", .word content, .pipe, .word "sudo", .word "tee", .word (dst ++ ".new")] := by
  have hd : (writeNewCommand dir content dst).data
      = "sudo mkdir -p ".data ++ (dir.data ++ (' ' :: ("&& printf %s \"".data
          ++ (content.data ++ ('\x22' :: ' ' :: ("| sudo tee ".data
            ++ (dst.data ++ (".new".data ++ [])))))))) := by
    simp only [writeNewCommand, String.data_append, List.append_assoc, List.append_nil]
    rfl
  unfold lex
  rw [hd,
    lexFrom_literal [] _ _ _ "sudo mkdir -p ".data _
      (show _ = some ⟨[.word "sudo", .word "mkdir", .word "-p"], none, .normal⟩ by decide),
    lexFrom_word _ dir _ hdir, lexFrom_blank,
    lexFrom_literal _ _ _ _ "&& printf %s \"".data _
      (show _ = some ⟨[.andIf, .word "printf", .word "%s"], some [], .quoted⟩ by decide),
    lexFrom_quotedText _ _ content _ hcontent, lexFrom_blank,
    lexFrom_literal _ _ _ _ "| sudo tee ".data _
      (show _ = some ⟨[.pipe, .word "sudo", .word "tee"], none, .normal⟩ by decide),
    lexFrom_word _ dst _ hdst, lexFrom_more _ _ ".new".data [] (by decide)]
  simp [lexFrom, lexEnd, LexState.flush]
  rfl

set_option maxRecDepth 100000 in
theorem lex_diffOrReplaceCommand (dst name : String) (hdst : isShellWord dst = true)
    (hname : isShellWord name = true) :
    lex (diffOrReplaceCommand dst name)
      = some [.word "sudo", .word "diff", .word "-u", .word dst, .word (dst ++ ".new"), .orIf,
          .lbrace, .word "sudo", .word "mv", .word (dst ++ ".new"), .word dst, .semi,
          .word "sudo", .word "systemctl", .word "-f", .word "daemon-reload", .andIf,
          .word "sudo", .word "systemctl", .word "-f", .word "enable", .word name, .andIf,
          .word "sudo", .word "systemctl", .word "-f", .word "restart", .word name, .semi,
          .rbrace] := by
  have hd : (diffOrReplaceCommand dst name).data
      = "sudo diff -u ".data ++ (dst.data ++ (' ' :: (dst.data ++ (".new".data ++ (' ' ::
          ("|| \x7b sudo mv ".data ++ (dst.data ++ (".new".data ++ (' ' :: (dst.data ++ (';' ::
            (" sudo systemctl -f daemon-reload && sudo systemctl -f enable ".data
              ++ (name.data ++ (' ' :: ("&& sudo systemctl -f restart ".data
                ++ (name.data ++ (';' :: (" \x7d".data ++ [])))))))))))))))))) := by
    simp only [diffOrReplaceCommand, String.data_append, List.append_assoc, List.append_nil]
    rfl
  unfold lex
  rw [hd,
    lexFrom_literal [] _ _ _ "sudo diff -u ".data _
      (show _ = some ⟨[.word "sudo", .word "diff", .word "-u"], none, .normal⟩ by decide),
    lexFrom_word _ dst _ hdst, lexFrom_blank,
    lexFrom_word _ dst _ hdst, lexFrom_more _ _ ".new".data _ (by decide), lexFrom_blank,
    lexFrom_literal _ _ _ _ "|| \x7b sudo mv ".data _
      (show _ = some ⟨[.orIf, .lbrace, .word "sudo", .word "mv"], none, .normal⟩ by decide),
    lexFrom_word _ dst _ hdst, lexFrom_more _ _ ".new".data _ (by decide), lexFrom_blank,
    lexFrom_word _ dst _ hdst, lexFrom_semi,
    lexFrom_literal _ _ _ _
      " sudo systemctl -f daemon-reload && sudo systemctl -f enable ".data _
      (show _ = some ⟨[.word "sudo", .word "systemctl", .word "-f", .word "daemon-reload",
        .andIf, .word "sudo", .word "systemctl", .word "-f", .word "enable"], none, .normal⟩
        by decide),
    lexFrom_word _ name _ hname, lexFrom_blank,
    lexFrom_literal _ _ _ _ "&& sudo systemctl -f restart ".data _
      (show _ = some ⟨[.andIf, .word "sudo", .word "systemctl", .word "-f", .word "restart"],
        none, .normal⟩ by decide),
    lexFrom_word _ name _ hname, lexFrom_semi,
    lexFrom_literal _ _ _ _ " \x7d".data _
      (show _ = some ⟨[.rbrace], none, .brace⟩ by decide)]
  simp [lexFrom, lexEnd]
  rfl

/-! ## Running a script on the remote host -/

theorem join_single (s : String) : String.join [s] = s := by
  simp [String.join]

theorem dst_ne_dst_new (dst : String) : dst ≠ dst ++ ".new" := by
  intro h
  have := congrArg String.length h
  simp [String.length_append] at this
  exact absurd this (by decide)

theorem isOperand_isShellWord (s : String) (h : isOperand s = true) : isShellWord s = true := by
  simp only [isOperand, Bool.and_eq_true] at h
  exact h.1

theorem isOperand_isOption (s : String) (h : isOperand s = true) : isOption s = false := by
  simp only [isOperand, Bool.and_eq_true, Bool.not_eq_true'] at h
  exact h.2

theorem isOperand_isOption_append (s t : String) (h : isOperand s = true) :
    isOption (s ++ t) = false := by
  have h1 := isOperand_isOption s h
  have h2 := isOperand_isShellWord s h
  simp only [isShellWord, Bool.and_eq_true, Bool.not_eq_true'] at h2
  unfold isOption at h1 ⊢
  cases hd : s.data with
  | nil => simp [hd] at h2
  | cons c cs =>
    rw [hd] at h1
    simpa [String.data_append, hd] using h1

theorem wellFormed_writeNew (dir content new : String) :
    wellFormed [.word "sudo", .word "mkdir", .word "-p", .word dir, .andIf, .word "printf",
          .word "%s", .word content, .pipe, .word "sudo", .word "tee", .word new]
      = true := rfl

theorem wellFormed_diffOrReplace (dst new name : String) :
    wellFormed [.word "sudo", .word "diff", .word "-u", .word dst, .word new, .orIf,
          .lbrace, .word "sudo", .word "mv", .word new, .word dst, .semi,
          .word "sudo", .word "systemctl", .word "-f", .word "daemon-reload", .andIf,
          .word "sudo", .word "systemctl", .word "-f", .word "enable", .word name, .andIf,
          .word "sudo", .word "systemctl", .word "-f", .word "restart", .word name, .semi,
          .rbrace] = true := rfl

/-- The first script, run: the word after `printf %s` is written to the file after `tee`. -/
theorem runScript_writeNew (dir content new : String) (h : RemoteHost)
    (hdir : isOption dir = false) (hnew : isOption new = false) :
    runScript [.word "sudo", .word "mkdir", .word "-p", .word dir, .andIf, .word "printf",
          .word "%s", .word content, .pipe, .word "sudo", .word "tee", .word new] h
      = { host := { h with files := Function.update h.files new (some content) },
          status := 0, pipeIn := none, stdout := content, args := [], mode := .run } := by
  have h1 : isOption "mkdir" = false := by decide
  have h2 : isOption "tee" = false := by decide
  simp [runScript, execStep, finishCommand, runCommand, join_single, hdir, hnew, h1, h2]

/-- The second script, run on a host whose two files hold the same text: nothing happens. -/
theorem runScript_diffOrReplace_same (dst new name x : String) (h : RemoteHost)
    (hodst : isOption dst = false) (honew : isOption new = false)
    (hdst : h.files dst = some x) (hnew : h.files new = some x) :
    runScript [.word "sudo", .word "diff", .word "-u", .word dst, .word new, .orIf,
          .lbrace, .word "sudo", .word "mv", .word new, .word dst, .semi,
          .word "sudo", .word "systemctl", .word "-f", .word "daemon-reload", .andIf,
          .word "sudo", .word "systemctl", .word "-f", .word "enable", .word name, .andIf,
          .word "sudo", .word "systemctl", .word "-f", .word "restart", .word name, .semi,
          .rbrace] h
      = { host := h, status := 0, pipeIn := none, stdout := "", args := [], mode := .skip 0 } := by
  have h1 : isOption "diff" = false := by decide
  simp [runScript, execStep, finishCommand, runCommand, hdst, hnew, hodst, honew, h1]

/-- The second script, run on a host whose active file is absent or differs from the new
file: the new file is moved over the active one, the service manager is reloaded, the service
enabled and restarted. -/
theorem runScript_diffOrReplace_other (dst new name y : String) (h : RemoteHost)
    (hodst : isOption dst = false) (honew : isOption new = false)
    (honame : isOption name = false)
    (hdst : h.files dst ≠ some y) (hnew : h.files new = some y) (hne : new ≠ dst) :
    runScript [.word "sudo", .word "diff", .word "-u", .word dst, .word new, .orIf,
          .lbrace, .word "sudo", .word "mv", .word new, .word dst, .semi,
          .word "sudo", .word "systemctl", .word "-f", .word "daemon-reload", .andIf,
          .word "sudo", .word "systemctl", .word "-f", .word "enable", .word name, .andIf,
          .word "sudo", .word "systemctl", .word "-f", .word "restart", .word name, .semi,
          .rbrace] h
      = { host :=
            { files := Function.update (Function.update h.files dst (some y)) new none
              actions := h.actions ++ [HostAction.mv new dst, HostAction.daemonReload,
                HostAction.enable name, HostAction.restart name] },
          status := 0, pipeIn := none, stdout := "", args := [], mode := .run } := by
  have h1 : isOption "diff" = false := by decide
  have h2 : isOption "mv" = false := by decide
  have h3 : isOption "systemctl" = false := by decide
  cases hd : h.files dst with
  | none =>
    simp [runScript, execStep, finishCommand, runCommand, hd, hnew, hne, hodst, honew, honame,
      h1, h2, h3]
  | some x =>
    have hxy : x ≠ y := by rintro rfl; exact hdst hd
    simp [runScript, execStep, finishCommand, runCommand, hd, hnew, hne, hxy, hodst, honew,
      honame, h1, h2, h3]

/-! ## The two scripts of `updateUnit` on the remote host -/

/-- The first script on the remote host: the content is written to `dst.new`. -/
theorem SSHCommand_writeNew (dir content dst : String) (h : RemoteHost)
    (hdir : isOperand dir = true) (hcontent : isQuotedText content = true)
    (hdst : isOperand dst = true) :
    RemoteHost.SSHCommand (writeNewCommand dir content dst) h
      = ((content, none),
          { h with files := Function.update h.files (dst ++ ".new") (some content) }) := by
  simp [RemoteHost.SSHCommand,
    lex_writeNewCommand dir content dst (isOperand_isShellWord dir hdir) hcontent
      (isOperand_isShellWord dst hdst),
    wellFormed_writeNew,
    runScript_writeNew dir content (dst ++ ".new") h (isOperand_isOption dir hdir)
      (isOperand_isOption_append dst ".new" hdst)]

/-- The second script on a remote host whose two files hold the same text: nothing happens. -/
theorem SSHCommand_diffOrReplace_same (dst name x : String) (h : RemoteHost)
    (hdst : isOperand dst = true) (hname : isOperand name = true)
    (hold : h.files dst = some x) (hnew : h.files (dst ++ ".new") = some x) :
    RemoteHost.SSHCommand (diffOrReplaceCommand dst name) h = (("", none), h) := by
  simp [RemoteHost.SSHCommand,
    lex_diffOrReplaceCommand dst name (isOperand_isShellWord dst hdst)
      (isOperand_isShellWord name hname),
    wellFormed_diffOrReplace,
    runScript_diffOrReplace_same dst (dst ++ ".new") name x h (isOperand_isOption dst hdst)
      (isOperand_isOption_append dst ".new" hdst) hold hnew]

/-- The second script on a remote host whose active file is absent or differs from the new
file. -/
theorem SSHCommand_diffOrReplace_other (dst name y : String) (h : RemoteHost)
    (hdst : isOperand dst = true) (hname : isOperand name = true)
    (hold : h.files dst ≠ some y) (hnew : h.files (dst ++ ".new") = some y) :
    RemoteHost.SSHCommand (diffOrReplaceCommand dst name) h
      = (("", none),
          { files := Function.update (Function.update h.files dst (some y)) (dst ++ ".new") none
            actions := h.actions ++ [HostAction.mv (dst ++ ".new") dst, HostAction.daemonReload,
              HostAction.enable name, HostAction.restart name] }) := by
  simp [RemoteHost.SSHCommand,
    lex_diffOrReplaceCommand dst name (isOperand_isShellWord dst hdst)
      (isOperand_isShellWord name hname),
    wellFormed_diffOrReplace,
    runScript_diffOrReplace_other dst (dst ++ ".new") name y h (isOperand_isOption dst hdst)
      (isOperand_isOption_append dst ".new" hdst) (isOperand_isOption name hname) hold hnew
      (dst_ne_dst_new dst).symm]

/-- One run of `updateUnit` on the remote host: it succeeds; when the active file already
holds the content, only `dst.new` is written; otherwise `dst.new` is moved over the active
file and the three actions of the service manager follow. -/
theorem updateUnit_on_host (Dir : String → String) (name content dst : String)
    (h : RemoteHost) (hdir : isOperand (Dir dst) = true) (hdst : isOperand dst = true)
    (hname : isOperand name = true) (hcontent : isQuotedText content = true) :
    updateUnit Dir RemoteHost.SSHCommand name content dst h
      = (none,
          if h.files dst = some content then
            { h with files := Function.update h.files (dst ++ ".new") (some content) }
          else
            { files := Function.update (Function.update
                (Function.update h.files (dst ++ ".new") (some content)) dst (some content))
                (dst ++ ".new") none
              actions := h.actions ++ [HostAction.mv (dst ++ ".new") dst,
                HostAction.daemonReload, HostAction.enable name, HostAction.restart name] }) := by
  have hne := dst_ne_dst_new dst
  unfold updateUnit
  rw [SSHCommand_writeNew (Dir dst) content dst h hdir hcontent hdst]
  simp only []
  by_cases hc : h.files dst = some content
  · rw [SSHCommand_diffOrReplace_same dst name content _ hdst hname
      (by simp [Function.update, hne, hc]) (by simp [Function.update])]
    simp [hc]
  · rw [SSHCommand_diffOrReplace_other dst name content _ hdst hname
      (by simp [Function.update, hne, hc]) (by simp [Function.update])]
    simp [hc]

/-- The second script with an empty destination: `diff` and `mv` lack an operand and fail, and
the three actions of the service manager follow. -/
theorem runScript_diffOrReplace_short (new name : String) (h : RemoteHost)
    (honame : isOption name = false) :
    runScript [.word "sudo", .word "diff", .word "-u", .word new, .orIf,
          .lbrace, .word "sudo", .word "mv", .word new, .semi,
          .word "sudo", .word "systemctl", .word "-f", .word "daemon-reload", .andIf,
          .word "sudo", .word "systemctl", .word "-f", .word "enable", .word name, .andIf,
          .word "sudo", .word "systemctl", .word "-f", .word "restart", .word name, .semi,
          .rbrace] h
      = { host := { h with actions := h.actions ++ [HostAction.daemonReload,
                HostAction.enable name, HostAction.restart name] },
          status := 0, pipeIn := none, stdout := "", args := [], mode := .run } := by
  have h1 : isOption "diff" = false := by decide
  have h2 : isOption "mv" = false := by decide
  have h3 : isOption "systemctl" = false := by decide
  simp [runScript, execStep, finishCommand, runCommand, honame, h1, h2, h3]

theorem wellFormed_diffOrReplace_short (new name : String) :
    wellFormed [.word "sudo", .word "diff", .word "-u", .word new, .orIf,
          .lbrace, .word "sudo", .word "mv", .word new, .semi,
          .word "sudo", .word "systemctl", .word "-f", .word "daemon-reload", .andIf,
          .word "sudo", .word "systemctl", .word "-f", .word "enable", .word name, .andIf,
          .word "sudo", .word "systemctl", .word "-f", .word "restart", .word name, .semi,
          .rbrace] = true := rfl

set_option maxRecDepth 100000 in
/-- One run of `updateUnit` with the empty destination path, whose directory is `.`. -/
theorem updateUnit_empty_dst (h : RemoteHost) :
    updateUnit (fun _ => ".") RemoteHost.SSHCommand "docker" "text" "" h
      = (none, { files := Function.update h.files ".new" (some "text")
                 actions := h.actions ++ [HostAction.daemonReload,
                   HostAction.enable "docker", HostAction.restart "docker"] }) := by
  have hl1 : lex (writeNewCommand "." "text" "")
      = some [.word "sudo", .word "mkdir", .word "-p", .word ".", .andIf, .word "printf",
          .word "%s", .word "text", .pipe, .word "sudo", .word "tee", .word ".new"] := by
    decide
  have hl2 : lex (diffOrReplaceCommand "" "docker")
      = some [.word "sudo", .word "diff", .word "-u", .word ".new", .orIf,
        .lbrace, .word "sudo", .word "mv", .word ".new", .semi,
        .word "sudo", .word "systemctl", .word "-f", .word "daemon-reload", .andIf,
        .word "sudo", .word "systemctl", .word "-f", .word "enable", .word "docker", .andIf,
        .word "sudo", .word "systemctl", .word "-f", .word "restart", .word "docker", .semi,
        .rbrace] := by
    decide
  have hs1 : ∀ g : RemoteHost, RemoteHost.SSHCommand (writeNewCommand "." "text" "") g
      = (("text", none),
          { files := Function.update g.files ".new" (some "text"), actions := g.actions }) := by
    intro g
    unfold RemoteHost.SSHCommand
    simp only [hl1, wellFormed_writeNew,
      runScript_writeNew "." "text" ".new" g (by decide) (by decide)]
    rfl
  have hs2 : ∀ g : RemoteHost, RemoteHost.SSHCommand (diffOrReplaceCommand "" "docker") g
      = (("", none), { g with actions := g.actions ++ [HostAction.daemonReload,
                HostAction.enable "docker", HostAction.restart "docker"] }) := by
    intro g
    unfold RemoteHost.SSHCommand
    simp only [hl2, wellFormed_diffOrReplace_short,
      runScript_diffOrReplace_short ".new" "docker" g (by decide)]
    rfl
  unfold updateUnit
  simp only [hs1, hs2]

/-- The first script when the shell reads two words after `printf %s`. -/
theorem runScript_writeNew_two (dir a b new : String) (h : RemoteHost)
    (hdir : isOption dir = false) (hnew : isOption new = false) :
    runScript [.word "sudo", .word "mkdir", .word "-p", .word dir, .andIf, .word "printf",
          .word "%s", .word a, .word b, .pipe, .word "sudo", .word "tee", .word new] h
      = { host := { h with files := Function.update h.files new (some (String.join [a, b])) },
          status := 0, pipeIn := none, stdout := String.join [a, b], args := [],
          mode := .run } := by
  have h1 : isOption "mkdir" = false := by decide
  have h2 : isOption "tee" = false := by decide
  simp [runScript, execStep, finishCommand, runCommand, hdir, hnew, h1, h2]

theorem wellFormed_writeNew_two (dir a b new : String) :
    wellFormed [.word "sudo", .word "mkdir", .word "-p", .word dir, .andIf, .word "printf",
          .word "%s", .word a, .word b, .pipe, .word "sudo", .word "tee", .word new]
      = true := rfl

set_option maxRecDepth 100000 in
/-- One run of `updateUnit` with a content that holds double quotes, on a host without active
file: the shell ends the quoted word at the first double quote of the content. -/
theorem updateUnit_quoted_entry (h : RemoteHost)
    (hold : h.files "/lib/systemd/system/docker.service" = none) :
    updateUnit (fun _ => "/lib/systemd/system") RemoteHost.SSHCommand "docker"
        "Environment=\"A b\"\n" "/lib/systemd/system/docker.service" h
      = (none,
          { files := Function.update (Function.update
                (Function.update h.files ("/lib/systemd/system/docker.service" ++ ".new")
                  (some "Environment=Ab\n"))
                "/lib/systemd/system/docker.service" (some "Environment=Ab\n"))
                ("/lib/systemd/system/docker.service" ++ ".new") none
            actions := h.actions ++
              [HostAction.mv ("/lib/systemd/system/docker.service" ++ ".new")
                "/lib/systemd/system/docker.service",
              HostAction.daemonReload, HostAction.enable "docker",
              HostAction.restart "docker"] }) := by
  have hl1 : lex (writeNewCommand "/lib/systemd/system" "Environment=\"A b\"\n"
        "/lib/systemd/system/docker.service")
      = some [.word "sudo", .word "mkdir", .word "-p", .word "/lib/systemd/system", .andIf,
          .word "printf", .word "%s", .word "Environment=A", .word "b\n", .pipe, .word "sudo",
          .word "tee", .word ("/lib/systemd/system/docker.service" ++ ".new")] := by
    decide
  have hs1 : ∀ g : RemoteHost, RemoteHost.SSHCommand (writeNewCommand "/lib/systemd/system"
        "Environment=\"A b\"\n" "/lib/systemd/system/docker.service") g
      = (("Environment=Ab\n", none),
          { files := Function.update g.files ("/lib/systemd/system/docker.service" ++ ".new")
              (some "Environment=Ab\n")
            actions := g.actions }) := by
    intro g
    unfold RemoteHost.SSHCommand
    simp only [hl1, wellFormed_writeNew_two,
      runScript_writeNew_two "/lib/systemd/system" "Environment=A" "b\n"
        ("/lib/systemd/system/docker.service" ++ ".new") g (by decide) (by decide)]
    rfl
  unfold updateUnit
  simp only [hs1]
  rw [SSHCommand_diffOrReplace_other "/lib/systemd/system/docker.service" "docker"
    "Environment=Ab\n" _ (by decide) (by decide)
    (by simp [Function.update, dst_ne_dst_new, hold]) (by simp [Function.update])]

set_option maxRecDepth 100000 in
/-- One run of `updateUnit` with a content that holds a backslash before `$`, as the template
of the unit does, on a host without active file: the shell drops the backslash. -/
theorem updateUnit_escaped_dollar (h : RemoteHost)
    (hold : h.files "/lib/systemd/system/docker.service" = none) :
    updateUnit (fun _ => "/lib/systemd/system") RemoteHost.SSHCommand "docker"
        "ExecReload=/bin/kill -s HUP \\$MAINPID\n" "/lib/systemd/system/docker.service" h
      = (none,
          { files := Function.update (Function.update
                (Function.update h.files ("/lib/systemd/system/docker.service" ++ ".new")
                  (some "ExecReload=/bin/kill -s HUP $MAINPID\n"))
                "/lib/systemd/system/docker.service"
                (some "ExecReload=/bin/kill -s HUP $MAINPID\n"))
                ("/lib/systemd/system/docker.service" ++ ".new") none
            actions := h.actions ++
              [HostAction.mv ("/lib/systemd/system/docker.service" ++ ".new")
                "/lib/systemd/system/docker.service",
              HostAction.daemonReload, HostAction.enable "docker",
              HostAction.restart "docker"] }) := by
  have hl1 : lex (writeNewCommand "/lib/systemd/system"
        "ExecReload=/bin/kill -s HUP \\$MAINPID\n" "/lib/systemd/system/docker.service")
      = some [.word "sudo", .word "mkdir", .word "-p", .word "/lib/systemd/system", .andIf,
          .word "printf", .word "%s", .word "ExecReload=/bin/kill -s HUP $MAINPID\n", .pipe,
          .word "sudo", .word "tee",
          .word ("/lib/systemd/system/docker.service" ++ ".new")] := by
    decide
  have hs1 : ∀ g : RemoteHost, RemoteHost.SSHCommand (writeNewCommand "/lib/systemd/system"
        "ExecReload=/bin/kill -s HUP \\$MAINPID\n" "/lib/systemd/system/docker.service") g
      = (("ExecReload=/bin/kill -s HUP $MAINPID\n", none),
          { files := Function.update g.files ("/lib/systemd/system/docker.service" ++ ".new")
              (some "ExecReload=/bin/kill -s HUP $MAINPID\n")
            actions := g.actions }) := by
    intro g
    unfold RemoteHost.SSHCommand
    simp only [hl1, wellFormed_writeNew,
      runScript_writeNew "/lib/systemd/system" "ExecReload=/bin/kill -s HUP $MAINPID\n"
        ("/lib/systemd/system/docker.service" ++ ".new") g (by decide) (by decide)]
    rfl
  unfold updateUnit
  simp only [hs1]
  rw [SSHCommand_diffOrReplace_other "/lib/systemd/system/docker.service" "docker"
    "ExecReload=/bin/kill -s HUP $MAINPID\n" _ (by decide) (by decide)
    (by simp [Function.update, dst_ne_dst_new, hold]) (by simp [Function.update])]

/-! ## C4: two runs of `updateUnit` -/

/-- C4 (amended): when the directory of the destination, the destination and the service name
are words of the shell that need no quotes and start with no `-`, and the content stands for
itself between double quotes, two runs of `updateUnit` in a row with the same arguments on the
same remote host return no error, and they perform at most one
replace/daemon-reload/enable/restart: the first run performs it exactly when the active file
is absent or differs from the content, and none when the active file already holds the
content; after the first run the active file holds the content; the second run finds no
difference, leaves the active file as it is and performs no action. -/
theorem updateUnit_twice (Dir : String → String) (name content dst : String) (h : RemoteHost)
    (hdir : isOperand (Dir dst) = true) (hdst : isOperand dst = true)
    (hname : isOperand name = true) (hcontent : isQuotedText content = true) :
    (updateUnit Dir RemoteHost.SSHCommand name content dst h).1 = none
    ∧ (updateUnit Dir RemoteHost.SSHCommand name content dst
        (updateUnit Dir RemoteHost.SSHCommand name content dst h).2).1 = none
    ∧ (updateUnit Dir RemoteHost.SSHCommand name content dst h).2.files dst = some content
    ∧ (updateUnit Dir RemoteHost.SSHCommand name content dst h).2.actions
        = h.actions ++
          (if h.files dst = some content then []
           else [HostAction.mv (dst ++ ".new") dst, HostAction.daemonReload,
             HostAction.enable name, HostAction.restart name])
    ∧ (updateUnit Dir RemoteHost.SSHCommand name content dst
        (updateUnit Dir RemoteHost.SSHCommand name content dst h).2).2.files dst = some content
    ∧ (updateUnit Dir RemoteHost.SSHCommand name content dst
        (updateUnit Dir RemoteHost.SSHCommand name content dst h).2).2.actions
        = (updateUnit Dir RemoteHost.SSHCommand name content dst h).2.actions := by
  have hne := dst_ne_dst_new dst
  have h1 : (updateUnit Dir RemoteHost.SSHCommand name content dst h).2.files dst
      = some content := by
    rw [updateUnit_on_host Dir name content dst h hdir hdst hname hcontent]
    by_cases hc : h.files dst = some content
    · simp [hc, Function.update, hne]
    · simp [hc, Function.update, hne]
  refine ⟨?_, ?_, h1, ?_, ?_, ?_⟩
  · rw [updateUnit_on_host Dir name content dst h hdir hdst hname hcontent]
  · rw [updateUnit_on_host Dir name content dst _ hdir hdst hname hcontent]
  · rw [updateUnit_on_host Dir name content dst h hdir hdst hname hcontent]
    by_cases hc : h.files dst = some content
    · simp [hc]
    · simp [hc]
  · rw [updateUnit_on_host Dir name content dst _ hdir hdst hname hcontent]
    simp [h1, Function.update, hne]
  · rw [updateUnit_on_host Dir name content dst _ hdir hdst hname hcontent]
    simp [h1]

/-- C4 (amended), on an instance: a unit of the docker service on a host without files.  The
first run moves the new file over the active one, reloads the service manager, enables and
restarts the service; the second run performs no action. -/
theorem updateUnit_twice_witness :
    (isOperand "/lib/systemd/system" = true
      ∧ isOperand "/lib/systemd/system/docker.service" = true
      ∧ isOperand "docker" = true
      ∧ isQuotedText "[Unit]\nDescription=Docker\n" = true)
    ∧ (updateUnit (fun _ => "/lib/systemd/system") RemoteHost.SSHCommand "docker"
        "[Unit]\nDescription=Docker\n" "/lib/systemd/system/docker.service"
        { files := fun _ => none, actions := [] }).2.actions
        = [HostAction.mv "/lib/systemd/system/docker.service.new"
             "/lib/systemd/system/docker.service", HostAction.daemonReload,
           HostAction.enable "docker", HostAction.restart "docker"]
    ∧ (updateUnit (fun _ => "/lib/systemd/system") RemoteHost.SSHCommand "docker"
        "[Unit]\nDescription=Docker\n" "/lib/systemd/system/docker.service"
        (updateUnit (fun _ => "/lib/systemd/system") RemoteHost.SSHCommand "docker"
          "[Unit]\nDescription=Docker\n" "/lib/systemd/system/docker.service"
          { files := fun _ => none, actions := [] }).2).2.actions
        = (updateUnit (fun _ => "/lib/systemd/system") RemoteHost.SSHCommand "docker"
          "[Unit]\nDescription=Docker\n" "/lib/systemd/system/docker.service"
          { files := fun _ => none, actions := [] }).2.actions :=
  ⟨by decide,
    (updateUnit_twice (fun _ => "/lib/systemd/system") "docker" "[Unit]\nDescription=Docker\n"
      "/lib/systemd/system/docker.service" { files := fun _ => none, actions := [] }
      (by decide) (by decide) (by decide) (by decide)).2.2.2.1,
    (updateUnit_twice (fun _ => "/lib/systemd/system") "docker" "[Unit]\nDescription=Docker\n"
      "/lib/systemd/system/docker.service" { files := fun _ => none, actions := [] }
      (by decide) (by decide) (by decide) (by decide)).2.2.2.2.2⟩

set_option maxRecDepth 100000 in
/-- C4, as stated, fails.  (a) On a host whose active file already holds the content, two runs
perform no replace, reload, enable or restart at all, not exactly one.  (b) With the empty
destination path the words of the scripts shift: `diff` and `mv` lack an operand and fail, and
both runs reload the service manager, enable and restart the service.  (c) A content with
double quotes is not what the first run installs: the shell ends the quoted word at the first
double quote of the content, and the text `Environment="A b"` is installed as
`Environment=Ab`.  (d) Nor is a content with a backslash before `$`, as in the line
`ExecReload` of the template: the shell drops the backslash. -/
theorem updateUnit_twice_not_exactly_one :
    (updateUnit (fun _ => "/lib/systemd/system") RemoteHost.SSHCommand "docker" "text"
        "/lib/systemd/system/docker.service"
        (updateUnit (fun _ => "/lib/systemd/system") RemoteHost.SSHCommand "docker" "text"
          "/lib/systemd/system/docker.service"
          (hostWithFile "/lib/systemd/system/docker.service" "text")).2).2.actions = []
    ∧ (updateUnit (fun _ => ".") RemoteHost.SSHCommand "docker" "text" ""
        (updateUnit (fun _ => ".") RemoteHost.SSHCommand "docker" "text" ""
          { files := fun _ => none, actions := [] }).2).2.actions
        = [HostAction.daemonReload, HostAction.enable "docker", HostAction.restart "docker",
            HostAction.daemonReload, HostAction.enable "docker", HostAction.restart "docker"]
    ∧ ((updateUnit (fun _ => "/lib/systemd/system") RemoteHost.SSHCommand "docker"
        "Environment=\"A b\"\n" "/lib/systemd/system/docker.service"
        { files := fun _ => none, actions := [] }).1 = none
      ∧ (updateUnit (fun _ => "/lib/systemd/system") RemoteHost.SSHCommand "docker"
          "Environment=\"A b\"\n" "/lib/systemd/system/docker.service"
          { files := fun _ => none, actions := [] }).2.files
            "/lib/systemd/system/docker.service"
          = some "Environment=Ab\n")
    ∧ ((updateUnit (fun _ => "/lib/systemd/system") RemoteHost.SSHCommand "docker"
        "ExecReload=/bin/kill -s HUP \\$MAINPID\n" "/lib/systemd/system/docker.service"
        { files := fun _ => none, actions := [] }).1 = none
      ∧ (updateUnit (fun _ => "/lib/systemd/system") RemoteHost.SSHCommand "docker"
          "ExecReload=/bin/kill -s HUP \\$MAINPID\n" "/lib/systemd/system/docker.service"
          { files := fun _ => none, actions := [] }).2.files
            "/lib/systemd/system/docker.service"
          = some "ExecReload=/bin/kill -s HUP $MAINPID\n") := by
  refine ⟨?_, ?_, ⟨?_, ?_⟩, ⟨?_, ?_⟩⟩
  · rw [updateUnit_on_host _ _ _ _ _ (by decide) (by decide) (by decide) (by decide),
      updateUnit_on_host _ _ _ _ _ (by decide) (by decide) (by decide) (by decide)]
    simp [hostWithFile, Function.update]
  · rw [updateUnit_empty_dst, updateUnit_empty_dst]
    rfl
  · rw [updateUnit_quoted_entry _ rfl]
  · rw [updateUnit_quoted_entry _ rfl]
    simp [Function.update, dst_ne_dst_new]
  · rw [updateUnit_escaped_dollar _ rfl]
  · rw [updateUnit_escaped_dollar _ rfl]
    simp [Function.update, dst_ne_dst_new]

/-! ## C5: the two commands of `updateUnit` -/

/-- C5: `updateUnit` issues at most two commands, in order.  The first is
`sudo mkdir -p <dir> && printf %s "<content>" | sudo tee <dst>.new`, with the directory of
the destination for `<dir>`: it creates the directory and writes the content to `dst.new`.
When it fails, its error is returned and it is the only command issued.  When it succeeds the
diff-or-replace command `sudo diff -u <dst> <dst>.new || { sudo mv <dst>.new <dst>; sudo
systemctl -f daemon-reload && sudo systemctl -f enable <name> && sudo systemctl -f restart
<name>; }` is issued next, and its error, or nil, is returned.  The result is nil exactly when
both commands succeed. -/
theorem updateUnit_commands {W : Type} (Dir : String → String) (p : SSHCommander W)
    (name content dst : String) (w : W) :
    (∀ (out : String) (e1 : Error) (w1 : W),
        p ("sudo mkdir -p " ++ Dir dst ++ " && printf %s \"" ++ content ++ "\" | sudo tee "
            ++ dst ++ ".new") w = ((out, some e1), w1) →
        updateUnit Dir p.traced name content dst (w, [])
          = (some e1,
              (w1, [Event.SSHCommand
                ("sudo mkdir -p " ++ Dir dst ++ " && printf %s \"" ++ content
                  ++ "\" | sudo tee " ++ dst ++ ".new") (some e1)])))
    ∧ (∀ (out : String) (w1 : W) (out2 : String) (e2 : Option Error) (w2 : W),
        p ("sudo mkdir -p " ++ Dir dst ++ " && printf %s \"" ++ content ++ "\" | sudo tee "
            ++ dst ++ ".new") w = ((out, none), w1) →
        p ("sudo diff -u " ++ dst ++ " " ++ dst ++ ".new || \x7b sudo mv " ++ dst ++ ".new "
            ++ dst ++ "; sudo systemctl -f daemon-reload && sudo systemctl -f enable " ++ name
            ++ " && sudo systemctl -f restart " ++ name ++ "; \x7d") w1 = ((out2, e2), w2) →
        updateUnit Dir p.traced name content dst (w, [])
          = (e2,
              (w2, [Event.SSHCommand
                      ("sudo mkdir -p " ++ Dir dst ++ " && printf %s \"" ++ content
                        ++ "\" | sudo tee " ++ dst ++ ".new") none,
                    Event.SSHCommand
                      ("sudo diff -u " ++ dst ++ " " ++ dst ++ ".new || \x7b sudo mv " ++ dst
                        ++ ".new " ++ dst
                        ++ "; sudo systemctl -f daemon-reload && sudo systemctl -f enable "
                        ++ name ++ " && sudo systemctl -f restart " ++ name ++ "; \x7d") e2])))
    ∧ ((updateUnit Dir p.traced name content dst (w, [])).1 = none
        ↔ (p ("sudo mkdir -p " ++ Dir dst ++ " && printf %s \"" ++ content
              ++ "\" | sudo tee " ++ dst ++ ".new") w).1.2 = none
          ∧ (p ("sudo diff -u " ++ dst ++ " " ++ dst ++ ".new || \x7b sudo mv " ++ dst
                ++ ".new " ++ dst
                ++ "; sudo systemctl -f daemon-reload && sudo systemctl -f enable " ++ name
                ++ " && sudo systemctl -f restart " ++ name ++ "; \x7d")
              (p ("sudo mkdir -p " ++ Dir dst ++ " && printf %s \"" ++ content
                ++ "\" | sudo tee " ++ dst ++ ".new") w).2).1.2 = none) := by
  have hc1 : "sudo mkdir -p " ++ Dir dst ++ " && printf %s \"" ++ content ++ "\" | sudo tee "
      ++ dst ++ ".new" = writeNewCommand (Dir dst) content dst := rfl
  have hc2 : "sudo diff -u " ++ dst ++ " " ++ dst ++ ".new || \x7b sudo mv " ++ dst ++ ".new "
      ++ dst ++ "; sudo systemctl -f daemon-reload && sudo systemctl -f enable " ++ name
      ++ " && sudo systemctl -f restart " ++ name ++ "; \x7d"
        = diffOrReplaceCommand dst name := rfl
  rw [hc1, hc2]
  refine ⟨?_, ?_, ?_⟩
  · intro out e1 w1 h1
    simp [updateUnit, SSHCommander.traced, h1]
  · intro out w1 out2 e2 w2 h1 h2
    cases e2 <;> simp [updateUnit, SSHCommander.traced, h1, h2]
  · rcases h1 : p (writeNewCommand (Dir dst) content dst) w with ⟨⟨out, e1⟩, w1⟩
    rcases h2 : p (diffOrReplaceCommand dst name) w1 with ⟨⟨out2, e2⟩, w2⟩
    cases e1 <;> cases e2 <;> simp [updateUnit, SSHCommander.traced, h1, h2]

set_option maxRecDepth 100000 in
/-- C5, on an instance: the unit of the docker service over a channel on which the
diff-or-replace command fails. -/
theorem updateUnit_commands_witness :
    updateUnit (fun _ => "/lib/systemd/system")
        (SSHCommander.traced (quietCollaborators
          ["sudo diff -u /lib/systemd/system/docker.service /lib/systemd/system/docker.service.new || \x7b sudo mv /lib/systemd/system/docker.service.new /lib/systemd/system/docker.service; sudo systemctl -f daemon-reload && sudo systemctl -f enable docker && sudo systemctl -f restart docker; \x7d"]).SSHCommand)
        "docker" "[Unit]" "/lib/systemd/system/docker.service" ((), [])
      = (some "exit status 1",
          ((), [Event.SSHCommand
                  "sudo mkdir -p /lib/systemd/system && printf %s \"[Unit]\" | sudo tee /lib/systemd/system/docker.service.new"
                  none,
                Event.SSHCommand
                  "sudo diff -u /lib/systemd/system/docker.service /lib/systemd/system/docker.service.new || \x7b sudo mv /lib/systemd/system/docker.service.new /lib/systemd/system/docker.service; sudo systemctl -f daemon-reload && sudo systemctl -f enable docker && sudo systemctl -f restart docker; \x7d"
                  (some "exit status 1")])) :=
  (updateUnit_commands (fun _ => "/lib/systemd/system")
    (quietCollaborators
      ["sudo diff -u /lib/systemd/system/docker.service /lib/systemd/system/docker.service.new || \x7b sudo mv /lib/systemd/system/docker.service.new /lib/systemd/system/docker.service; sudo systemctl -f daemon-reload && sudo systemctl -f enable docker && sudo systemctl -f restart docker; \x7d"]).SSHCommand
    "docker" "[Unit]" "/lib/systemd/system/docker.service" ()).2.1
    "" () "" (some "exit status 1") () (by decide) (by decide)
